import Mathlib

/-!
# Sensor aggregation and voting: a shallow embedding of `sensors.cpp`

The definitions below follow `src/modules/sensors/sensors.cpp` function by function.

Conventions of the embedding:

* `uint64_t` values (timestamps, `hrt_abstime`) are natural numbers; subtraction is
  `u64sub`, which wraps modulo `2^64` as the C++ unsigned subtraction does.
* `float` values are rationals: the code only copies, adds, multiplies and divides them,
  and the embedding uses exact arithmetic for these operations.
* C arrays of length `SENSOR_COUNT_MAX` are total functions on `Nat`; loops over
  `i < subscription_count` only touch the indices below the count.
* External collaborators (the uORB bus, the parameter store, driver handles, the
  `DataValidatorGroup` voter, `get_rot_matrix`) are inputs: a poll receives what
  `orb_check`/`orb_copy` deliver, the voter is a call history plus an arbitrary election
  function on that history, and so on.
-/

namespace Sensors

/-! ## Constants -/

/-- Number of instances per sensor class, `#define SENSOR_COUNT_MAX 3`. -/
def SENSOR_COUNT_MAX : Nat := 3

/-- Sentinel stored in `CAL_MAGi_ROT` for an internal mag, `#define MAG_ROT_VAL_INTERNAL -1`. -/
def MAG_ROT_VAL_INTERNAL : Int := -1

/-- Wrapping subtraction of two `uint64_t` values. -/
def u64sub (a b : Nat) : Nat := (a % 2 ^ 64 + (2 ^ 64 - b % 2 ^ 64)) % 2 ^ 64

/-! ## Vectors and matrices (`math::Vector<3>`, `math::Matrix<3, 3>`) -/

/-- A three-component vector, `math::Vector<3>` or a `float[3]` field. -/
structure Vec3 where
  x : Rat
  y : Rat
  z : Rat
deriving DecidableEq, Repr

/-- A 3x3 matrix given by its rows, `math::Matrix<3, 3>`. -/
structure Mat3 where
  r0 : Vec3
  r1 : Vec3
  r2 : Vec3
deriving DecidableEq, Repr

/-- Dot product of two vectors. -/
def Vec3.dot (a b : Vec3) : Rat := a.x * b.x + a.y * b.y + a.z * b.z

/-- Matrix times vector, `math::Matrix<3, 3>::operator*(const Vector<3> &)`. -/
def Mat3.mulVec (m : Mat3) (v : Vec3) : Vec3 :=
  ⟨m.r0.dot v, m.r1.dot v, m.r2.dot v⟩

/-- Component-wise division of a vector by a scalar, as in `vect_int(k) / dt`. -/
def Vec3.divScalar (v : Vec3) (d : Rat) : Vec3 := ⟨v.x / d, v.y / d, v.z / d⟩

/-- The all-zero matrix, the value of a `math::Matrix<3, 3>` member initialised with `{}`. -/
def Mat3.zero : Mat3 := ⟨⟨0, 0, 0⟩, ⟨0, 0, 0⟩, ⟨0, 0, 0⟩⟩

/-- The identity matrix. -/
def Mat3.identity : Mat3 := ⟨⟨1, 0, 0⟩, ⟨0, 1, 0⟩, ⟨0, 0, 1⟩⟩

/-- Matrix product, `math::Matrix<3, 3>::operator*(const Matrix<3, 3> &)`. -/
def Mat3.mul (a b : Mat3) : Mat3 :=
  let c0 : Vec3 := ⟨b.r0.x, b.r1.x, b.r2.x⟩
  let c1 : Vec3 := ⟨b.r0.y, b.r1.y, b.r2.y⟩
  let c2 : Vec3 := ⟨b.r0.z, b.r1.z, b.r2.z⟩
  ⟨⟨a.r0.dot c0, a.r0.dot c1, a.r0.dot c2⟩,
   ⟨a.r1.dot c0, a.r1.dot c1, a.r1.dot c2⟩,
   ⟨a.r2.dot c0, a.r2.dot c1, a.r2.dot c2⟩⟩

/-! ## uORB messages -/

/-- The combined snapshot `sensor_combined_s`, with the fields `sensors.cpp` reads or writes. -/
structure SensorCombined where
  timestamp : Nat
  gyro_rad : Vec3
  gyro_integral_dt : Rat
  accelerometer_timestamp_relative : Int
  accelerometer_m_s2 : Vec3
  accelerometer_integral_dt : Rat
  magnetometer_timestamp_relative : Int
  magnetometer_ga : Vec3
  baro_timestamp_relative : Int
  baro_alt_meter : Rat
  baro_temp_celcius : Rat
deriving DecidableEq, Repr

/-- The sentinel `sensor_combined_s::RELATIVE_TIMESTAMP_INVALID`, the most negative `int32_t`. -/
def RELATIVE_TIMESTAMP_INVALID : Int := -(2 ^ 31)

/-- The value of `struct sensor_combined_s raw = {}`. -/
def SensorCombined.zero : SensorCombined :=
  { timestamp := 0, gyro_rad := ⟨0, 0, 0⟩, gyro_integral_dt := 0,
    accelerometer_timestamp_relative := 0, accelerometer_m_s2 := ⟨0, 0, 0⟩,
    accelerometer_integral_dt := 0, magnetometer_timestamp_relative := 0,
    magnetometer_ga := ⟨0, 0, 0⟩, baro_timestamp_relative := 0,
    baro_alt_meter := 0, baro_temp_celcius := 0 }

/-- A gyro or accel driver report (`gyro_report`, `accel_report`): instantaneous vector,
integrated vector with its interval in microseconds, and the driver error counter. -/
structure InertialReport where
  timestamp : Nat
  v : Vec3
  integral : Vec3
  integral_dt : Nat
  error_count : Nat
deriving DecidableEq, Repr

/-- A magnetometer driver report, `mag_report`. -/
structure MagReport where
  timestamp : Nat
  v : Vec3
  error_count : Nat
deriving DecidableEq, Repr

/-- A barometer driver report, `baro_report`. -/
structure BaroReport where
  timestamp : Nat
  altitude : Rat
  temperature : Rat
  pressure : Rat
  error_count : Nat
deriving DecidableEq, Repr

/-- The two flags of `vehicle_control_mode_s` that the module reads. -/
structure VehicleControlMode where
  flag_system_hil_enabled : Bool
  flag_armed : Bool
deriving DecidableEq, Repr

/-! ## The voter (`DataValidatorGroup`)

The validator group is not part of this module. It is represented by the history of the
calls made on it; an election result is an arbitrary function of that history. -/

/-- One call on a `DataValidatorGroup`. -/
inductive VoterCall where
  | put (index : Nat) (timestamp : Nat) (val : Vec3) (error_count : Nat) (priority : Nat)
  | get_best (now : Nat)
deriving DecidableEq, Repr

/-- The election function of a voter: the index written by `get_best`, given every call made
so far (the `get_best` call itself is the last element of the history). -/
abbrev Election := List VoterCall → Int

/-! ## Module state -/

/-- Per-class state, `struct SensorData`. -/
structure SensorData where
  subscription : Nat → Int
  priority : Nat → Nat
  last_best_vote : Nat
  subscription_count : Nat
  voter : List VoterCall
  last_failover_count : Nat

/-- The member variables of `class Sensors` that the modelled functions use. -/
structure State where
  last_adc : Nat
  hil_enabled : Bool
  publishing : Bool
  armed : Bool
  gyro : SensorData
  accel : SensorData
  mag : SensorData
  baro : SensorData
  board_rotation : Mat3
  mag_rotation : Nat → Mat3
  last_baro_pressure : Nat → Rat
  last_best_baro_pressure : Rat
  last_sensor_data : Nat → SensorCombined
  last_accel_timestamp : Nat → Nat
  last_mag_timestamp : Nat → Nat
  last_baro_timestamp : Nat → Nat
  vibration_warning_timestamp : Nat
  vibration_warning : Bool

/-- The `SensorData()` constructor: no subscriptions, vote 0, counters 0. The `priority`
array is not initialised by the constructor; `junk` stands for its indeterminate content. -/
def SensorData.ctor (junk : Nat → Nat) : SensorData :=
  { subscription := fun _ => -1
    priority := junk
    last_best_vote := 0
    subscription_count := 0
    voter := []
    last_failover_count := 0 }

/-- The `Sensors::Sensors()` constructor. `board` is the board rotation computed by the
`parameters_update()` call at its end; `junk_priority` and `junk_pressure` are the
indeterminate contents of the arrays the constructor does not clear. -/
def State.ctor (board : Mat3) (junk_priority : Nat → Nat) (junk_pressure : Nat → Rat) : State :=
  { last_adc := 0
    hil_enabled := false
    publishing := true
    armed := false
    gyro := SensorData.ctor junk_priority
    accel := SensorData.ctor junk_priority
    mag := SensorData.ctor junk_priority
    baro := SensorData.ctor junk_priority
    board_rotation := board
    mag_rotation := fun _ => Mat3.zero
    last_baro_pressure := junk_pressure
    last_best_baro_pressure := 0
    last_sensor_data := fun _ => SensorCombined.zero
    last_accel_timestamp := fun _ => 0
    last_mag_timestamp := fun _ => 0
    last_baro_timestamp := fun _ => 0
    vibration_warning_timestamp := 0
    vibration_warning := false }

/-- Array store `a[i] = v`. -/
def upd {α : Type} (a : Nat → α) (i : Nat) (v : α) : Nat → α :=
  fun j => if j = i then v else a j

/-! ## `Sensors::vehicle_control_mode_poll` -/

/-- `Sensors::vehicle_control_mode_poll`. The argument `fresh` is `none` when `orb_check`
reports no update and `some m` when `orb_copy` delivers the message `m`. -/
def vehicle_control_mode_poll (s : State) (fresh : Option VehicleControlMode) : State :=
  match fresh with
  | none => s
  | some vcontrol_mode =>
    if vcontrol_mode.flag_system_hil_enabled && !s.hil_enabled then
      { s with hil_enabled := true, publishing := false, armed := vcontrol_mode.flag_armed }
    else if !s.publishing && !s.hil_enabled then
      { s with hil_enabled := false, publishing := true, armed := vcontrol_mode.flag_armed }
    else
      s

/-! ## The class pollers -/

/-- Append one call to a voter history. -/
def SensorData.call (d : SensorData) (c : VoterCall) : SensorData :=
  { d with voter := d.voter ++ [c] }

/-- Body of the `for` loop of `Sensors::accel_poll` for instance `i`. `fresh` is `none` when
`orb_check` reports no update, else the copied report; `got_update` is threaded through. -/
def accel_sample (s : State) (i : Nat) (fresh : Option InertialReport) (got_update : Bool) :
    State × Bool :=
  match fresh with
  | none => (s, got_update)
  | some accel_report =>
    if accel_report.timestamp = 0 then
      (s, got_update)
    else
      let s1 : State :=
        if accel_report.integral_dt ≠ 0 then
          let vect_int := s.board_rotation.mulVec accel_report.integral
          let dt : Rat := (accel_report.integral_dt : Rat) / 1000000
          { s with last_sensor_data := upd s.last_sensor_data i
                       ({ s.last_sensor_data i with
                           accelerometer_integral_dt := dt
                           accelerometer_m_s2 := vect_int.divScalar dt }) }
        else
          let vect_val := s.board_rotation.mulVec accel_report.v
          let last : Nat :=
            if s.last_accel_timestamp i = 0 then u64sub accel_report.timestamp 1000
            else s.last_accel_timestamp i
          { s with
              last_accel_timestamp := upd s.last_accel_timestamp i last
              last_sensor_data := upd s.last_sensor_data i
                  ({ s.last_sensor_data i with
                      accelerometer_integral_dt :=
                        (u64sub accel_report.timestamp last : Rat) / 1000000
                      accelerometer_m_s2 := vect_val }) }
      let s2 : State :=
        { s1 with last_accel_timestamp := upd s1.last_accel_timestamp i accel_report.timestamp }
      let c : VoterCall :=
        VoterCall.put i accel_report.timestamp (s2.last_sensor_data i).accelerometer_m_s2
          accel_report.error_count (s2.accel.priority i)
      ({ s2 with accel := s2.accel.call c }, true)

/-- The `for` loop of `Sensors::accel_poll` over the subscribed instances; the second
component is `got_update`. -/
def accel_collect (fresh : Nat → Option InertialReport) (s : State) : State × Bool :=
  (List.range s.accel.subscription_count).foldl
    (fun acc i => accel_sample acc.1 i (fresh i) acc.2) (s, false)

/-- `Sensors::accel_poll`. `fresh i` is what the bus delivers for instance `i`, `now` is
`hrt_absolute_time()` and `best` the election function of the accel voter. -/
def accel_poll (best : Election) (now : Nat) (fresh : Nat → Option InertialReport)
    (s : State) (raw : SensorCombined) : State × SensorCombined :=
  let r := accel_collect fresh s
  if r.2 then
    let s1 : State := { r.1 with accel := r.1.accel.call (VoterCall.get_best now) }
    let best_index := best s1.accel.voter
    if 0 ≤ best_index then
      ({ s1 with accel := { s1.accel with last_best_vote := best_index.toNat % 256 } },
       { raw with
          accelerometer_m_s2 := (s1.last_sensor_data best_index.toNat).accelerometer_m_s2
          accelerometer_integral_dt :=
            (s1.last_sensor_data best_index.toNat).accelerometer_integral_dt })
    else (s1, raw)
  else (r.1, raw)

/-- Body of the `for` loop of `Sensors::gyro_poll` for instance `i`. The previous timestamp
of the instance is kept in `_last_sensor_data[i].timestamp`. -/
def gyro_sample (s : State) (i : Nat) (fresh : Option InertialReport) (got_update : Bool) :
    State × Bool :=
  match fresh with
  | none => (s, got_update)
  | some gyro_report =>
    if gyro_report.timestamp = 0 then
      (s, got_update)
    else
      let s1 : State :=
        if gyro_report.integral_dt ≠ 0 then
          let vect_int := s.board_rotation.mulVec gyro_report.integral
          let dt : Rat := (gyro_report.integral_dt : Rat) / 1000000
          { s with last_sensor_data := upd s.last_sensor_data i
                       ({ s.last_sensor_data i with
                           gyro_integral_dt := dt
                           gyro_rad := vect_int.divScalar dt }) }
        else
          let vect_val := s.board_rotation.mulVec gyro_report.v
          let last : Nat :=
            if (s.last_sensor_data i).timestamp = 0 then u64sub gyro_report.timestamp 1000
            else (s.last_sensor_data i).timestamp
          { s with last_sensor_data := upd s.last_sensor_data i
                       ({ s.last_sensor_data i with
                           timestamp := last
                           gyro_integral_dt := (u64sub gyro_report.timestamp last : Rat) / 1000000
                           gyro_rad := vect_val }) }
      let s2 : State :=
        { s1 with last_sensor_data := upd s1.last_sensor_data i
                      ({ s1.last_sensor_data i with timestamp := gyro_report.timestamp }) }
      let c : VoterCall :=
        VoterCall.put i gyro_report.timestamp (s2.last_sensor_data i).gyro_rad
          gyro_report.error_count (s2.gyro.priority i)
      ({ s2 with gyro := s2.gyro.call c }, true)

/-- The `for` loop of `Sensors::gyro_poll` over the subscribed instances; the second
component is `got_update`. -/
def gyro_collect (fresh : Nat → Option InertialReport) (s : State) : State × Bool :=
  (List.range s.gyro.subscription_count).foldl
    (fun acc i => gyro_sample acc.1 i (fresh i) acc.2) (s, false)

/-- `Sensors::gyro_poll`. -/
def gyro_poll (best : Election) (now : Nat) (fresh : Nat → Option InertialReport)
    (s : State) (raw : SensorCombined) : State × SensorCombined :=
  let r := gyro_collect fresh s
  if r.2 then
    let s1 : State := { r.1 with gyro := r.1.gyro.call (VoterCall.get_best now) }
    let best_index := best s1.gyro.voter
    if 0 ≤ best_index then
      ({ s1 with gyro := { s1.gyro with last_best_vote := best_index.toNat % 256 } },
       { raw with
          gyro_rad := (s1.last_sensor_data best_index.toNat).gyro_rad
          gyro_integral_dt := (s1.last_sensor_data best_index.toNat).gyro_integral_dt
          timestamp := (s1.last_sensor_data best_index.toNat).timestamp })
    else (s1, raw)
  else (r.1, raw)

/-- Body of the `for` loop of `Sensors::mag_poll` for instance `i`. -/
def mag_sample (s : State) (i : Nat) (fresh : Option MagReport) (got_update : Bool) :
    State × Bool :=
  match fresh with
  | none => (s, got_update)
  | some mag_report =>
    if mag_report.timestamp = 0 then
      (s, got_update)
    else
      let vect := (s.mag_rotation i).mulVec mag_report.v
      let s1 : State :=
        { s with
            last_sensor_data := upd s.last_sensor_data i
                ({ s.last_sensor_data i with magnetometer_ga := vect })
            last_mag_timestamp := upd s.last_mag_timestamp i mag_report.timestamp }
      let c : VoterCall :=
        VoterCall.put i mag_report.timestamp vect mag_report.error_count (s1.mag.priority i)
      ({ s1 with mag := s1.mag.call c }, true)

/-- The `for` loop of `Sensors::mag_poll` over the subscribed instances; the second
component is `got_update`. -/
def mag_collect (fresh : Nat → Option MagReport) (s : State) : State × Bool :=
  (List.range s.mag.subscription_count).foldl
    (fun acc i => mag_sample acc.1 i (fresh i) acc.2) (s, false)

/-- `Sensors::mag_poll`. -/
def mag_poll (best : Election) (now : Nat) (fresh : Nat → Option MagReport)
    (s : State) (raw : SensorCombined) : State × SensorCombined :=
  let r := mag_collect fresh s
  if r.2 then
    let s1 : State := { r.1 with mag := r.1.mag.call (VoterCall.get_best now) }
    let best_index := best s1.mag.voter
    if 0 ≤ best_index then
      ({ s1 with mag := { s1.mag with last_best_vote := best_index.toNat % 256 } },
       { raw with magnetometer_ga := (s1.last_sensor_data best_index.toNat).magnetometer_ga })
    else (s1, raw)
  else (r.1, raw)

/-- Body of the `for` loop of `Sensors::baro_poll` for instance `i`. -/
def baro_sample (s : State) (i : Nat) (fresh : Option BaroReport) (got_update : Bool) :
    State × Bool :=
  match fresh with
  | none => (s, got_update)
  | some baro_report =>
    if baro_report.timestamp = 0 then
      (s, got_update)
    else
      let vect : Vec3 := ⟨baro_report.altitude, 0, 0⟩
      let s1 : State :=
        { s with
            last_sensor_data := upd s.last_sensor_data i
                ({ s.last_sensor_data i with
                    baro_alt_meter := baro_report.altitude
                    baro_temp_celcius := baro_report.temperature })
            last_baro_pressure := upd s.last_baro_pressure i baro_report.pressure
            last_baro_timestamp := upd s.last_baro_timestamp i baro_report.timestamp }
      let c : VoterCall :=
        VoterCall.put i baro_report.timestamp vect baro_report.error_count (s1.baro.priority i)
      ({ s1 with baro := s1.baro.call c }, true)

/-- The `for` loop of `Sensors::baro_poll` over the subscribed instances; the second
component is `got_update`. -/
def baro_collect (fresh : Nat → Option BaroReport) (s : State) : State × Bool :=
  (List.range s.baro.subscription_count).foldl
    (fun acc i => baro_sample acc.1 i (fresh i) acc.2) (s, false)

/-- `Sensors::baro_poll`. -/
def baro_poll (best : Election) (now : Nat) (fresh : Nat → Option BaroReport)
    (s : State) (raw : SensorCombined) : State × SensorCombined :=
  let r := baro_collect fresh s
  if r.2 then
    let s1 : State := { r.1 with baro := r.1.baro.call (VoterCall.get_best now) }
    let best_index := best s1.baro.voter
    if 0 ≤ best_index then
      ({ s1 with
          baro := { s1.baro with last_best_vote := best_index.toNat % 256 }
          last_best_baro_pressure := s1.last_baro_pressure best_index.toNat },
       { raw with
          baro_alt_meter := (s1.last_sensor_data best_index.toNat).baro_alt_meter
          baro_temp_celcius := (s1.last_sensor_data best_index.toNat).baro_temp_celcius })
    else (s1, raw)
  else (r.1, raw)

/-- What the bus and the clock deliver to the four class pollers during one pass, together with
the election function of each class voter. -/
structure PollInput where
  gyro_best : Election
  accel_best : Election
  mag_best : Election
  baro_best : Election
  gyro_now : Nat
  accel_now : Nat
  mag_now : Nat
  baro_now : Nat
  gyro_fresh : Nat → Option InertialReport
  accel_fresh : Nat → Option InertialReport
  mag_fresh : Nat → Option MagReport
  baro_fresh : Nat → Option BaroReport

/-- The four pollers in the order of the main loop of `Sensors::task_main`:
`gyro_poll(raw); accel_poll(raw); mag_poll(raw); baro_poll(raw);`. -/
def poll_classes (inp : PollInput) (s : State) (raw : SensorCombined) : State × SensorCombined :=
  let g := gyro_poll inp.gyro_best inp.gyro_now inp.gyro_fresh s raw
  let a := accel_poll inp.accel_best inp.accel_now inp.accel_fresh g.1 g.2
  let m := mag_poll inp.mag_best inp.mag_now inp.mag_fresh a.1 a.2
  baro_poll inp.baro_best inp.baro_now inp.baro_fresh m.1 m.2

/-! ## The publish block of `Sensors::task_main` -/

/-- The cast `(int32_t)` of a `uint64_t`: the low 32 bits read as a signed value. -/
def toInt32 (n : Nat) : Int :=
  if n % 2 ^ 32 < 2 ^ 31 then ((n % 2 ^ 32 : Nat) : Int) else ((n % 2 ^ 32 : Nat) : Int) - 2 ^ 32

/-- The publish block of the main loop, up to and including `orb_publish`: when
`_publishing && raw.timestamp > 0` the relative timestamps are refreshed and the snapshot is
published. Returns the updated `raw` and the published message, if any. -/
def publish_snapshot (s : State) (raw : SensorCombined) : SensorCombined × Option SensorCombined :=
  if s.publishing && decide (0 < raw.timestamp) then
    let accel_ts := s.last_accel_timestamp s.accel.last_best_vote
    let raw1 : SensorCombined :=
      if accel_ts ≠ 0 then
        { raw with accelerometer_timestamp_relative := toInt32 (u64sub accel_ts raw.timestamp) }
      else raw
    let mag_ts := s.last_mag_timestamp s.mag.last_best_vote
    let raw2 : SensorCombined :=
      if mag_ts ≠ 0 then
        { raw1 with magnetometer_timestamp_relative := toInt32 (u64sub mag_ts raw1.timestamp) }
      else raw1
    let baro_ts := s.last_baro_timestamp s.baro.last_best_vote
    let raw3 : SensorCombined :=
      if baro_ts ≠ 0 then
        { raw2 with baro_timestamp_relative := toInt32 (u64sub baro_ts raw2.timestamp) }
      else raw2
    (raw3, some raw3)
  else (raw, none)

/-! ## Calibration: `Sensors::parameter_update_poll` -/

/-- The three classes that carry stored calibration records. -/
inductive SensorClass where
  | gyro
  | accel
  | mag
deriving DecidableEq, Repr

/-- The fields of a stored calibration record `CAL_<CLASS><i>_<FIELD>`. -/
inductive CalField where
  | ID
  | XOFF
  | YOFF
  | ZOFF
  | XSCALE
  | YSCALE
  | ZSCALE
  | ROT
deriving DecidableEq, Repr

/-- Parameter names: `cal c i f` is the name `sprintf` builds for class `c`, record `i` and
field `f` (`CAL_GYRO%u_ID`, `CAL_ACC%u_XOFF`, `CAL_MAG%u_ROT`, ...); the other name is the
legacy `SENS_EXT_MAG_ROT`. -/
inductive Param where
  | cal (c : SensorClass) (i : Nat) (f : CalField)
  | SENS_EXT_MAG_ROT
deriving DecidableEq, Repr

/-- The parameter store, a key/value store with `int32` and `float` parameters. A name that
is absent (`param_find` yields `PARAM_INVALID`) maps to `none`. -/
structure ParamStore where
  int32 : Param → Option Int
  float : Param → Option Rat

/-- `param_set_no_notification(param_find(name), &v)` on an `int32` parameter: writes the
value when the parameter exists and fails without effect otherwise. -/
def param_set_no_notification (ps : ParamStore) (p : Param) (v : Int) : ParamStore :=
  match ps.int32 p with
  | none => ps
  | some _ => { ps with int32 := fun q => if q = p then some v else ps.int32 q }

/-- The six scalars of `gyro_calibration_s`, `accel_calibration_s` and `mag_calibration_s`. -/
structure Calibration where
  x_offset : Rat
  y_offset : Rat
  z_offset : Rat
  x_scale : Rat
  y_scale : Rat
  z_scale : Rat
deriving DecidableEq, Repr

/-- The six `param_get` calls that fill the calibration struct of record `i`; `none` when
one of them fails (`failed` becomes true). -/
def read_calibration (ps : ParamStore) (c : SensorClass) (i : Nat) : Option Calibration :=
  match ps.float (Param.cal c i CalField.XOFF), ps.float (Param.cal c i CalField.YOFF),
        ps.float (Param.cal c i CalField.ZOFF), ps.float (Param.cal c i CalField.XSCALE),
        ps.float (Param.cal c i CalField.YSCALE), ps.float (Param.cal c i CalField.ZSCALE) with
  | some xo, some yo, some zo, some xs, some ys, some zs => some ⟨xo, yo, zo, xs, ys, zs⟩
  | _, _, _, _, _, _ => none

/-- A running driver behind a device path: the answers of its ioctls. -/
structure Device where
  device_id : Int
  external : Int
  scale_ret : Int
deriving DecidableEq, Repr

/-- A call made on a `DevHandle` (or `DevMgr::releaseHandle` on it). `live` tells whether the
handle was still valid when the call was made. -/
inductive DevCall where
  | getDeviceId (live : Bool)
  | getExternal (live : Bool)
  | setScale (live : Bool) (record : Nat) (cal : Calibration)
  | release (live : Bool)
deriving DecidableEq, Repr

/-- Diagnostics `PX4_ERR(CAL_ERROR_APPLY_CAL_MSG, <class>, i)`; `rejected` is false when a
parameter read failed and true when the driver rejected the calibration. -/
structure CalError where
  cls : SensorClass
  record : Nat
  rejected : Bool
deriving DecidableEq, Repr

/-- The collaborators of `parameter_update_poll`.
* `devices c s` is the driver `DevMgr::getHandle` finds for slot `s` of class `c`, if any;
* `bad_ioctl` is what `DevHandle::ioctl` returns on a handle that is not valid;
* `uninit` is the indeterminate value of an `int32_t` local that `param_get` did not fill;
* `get_rot_matrix` is the rotation table of `conversion/rotation.h`;
* `update_parameters` is `none` when `update_parameters` fails, else the board rotation
  code and the board offset matrix built by `from_euler`. -/
structure Env where
  devices : SensorClass → Nat → Option Device
  bad_ioctl : Int
  uninit : Int
  get_rot_matrix : Int → Mat3
  update_parameters : Option (Int × Mat3)

/-- The result of `h.ioctl(...)`: the answer of the driver, or `bad_ioctl` without a driver. -/
def ioctl (env : Env) (h : Option Device) (answer : Device → Int) : Int :=
  match h with
  | some d => answer d
  | none => env.bad_ioctl

/-- State of the scan of the stored records for one device slot. `rotation` is
`_mag_rotation[s]` (used by the mag class only). -/
structure Scan where
  h : Option Device
  params : ParamStore
  rotation : Mat3
  calls : List DevCall
  log : List CalError
  config_ok : Bool

/-- The rotation handling of the mag loop for matched record `i` (from
`sprintf(str, "CAL_MAG%u_ROT", i)` to the end of the internal/external `if`). -/
def mag_rotation_handling (env : Env) (board_rotation : Mat3) (i : Nat) (st : Scan) : Scan :=
  let rot := Param.cal SensorClass.mag i CalField.ROT
  let st1 : Scan := { st with calls := st.calls ++ [DevCall.getExternal st.h.isSome] }
  if ioctl env st.h Device.external ≤ 0 then
    let minus_one := (st1.params.int32 rot).getD env.uninit
    if minus_one ≠ MAG_ROT_VAL_INTERNAL then
      { st1 with
          rotation := board_rotation
          params := param_set_no_notification st1.params rot MAG_ROT_VAL_INTERNAL }
    else
      { st1 with rotation := board_rotation }
  else
    let mag_rot0 := (st1.params.int32 rot).getD env.uninit
    let params1 := if mag_rot0 < 0 then param_set_no_notification st1.params rot 0 else st1.params
    let mag_rot1 := if mag_rot0 < 0 then 0 else mag_rot0
    let deprecated_mag_rot := (params1.int32 Param.SENS_EXT_MAG_ROT).getD 0
    let migrate : Bool := decide (deprecated_mag_rot ≠ 0) && decide (mag_rot1 ≤ 0)
    let params2 :=
      if migrate then
        param_set_no_notification (param_set_no_notification params1 rot deprecated_mag_rot)
          Param.SENS_EXT_MAG_ROT 0
      else params1
    let mag_rot2 := if migrate then deprecated_mag_rot else mag_rot1
    let mag_rot3 := if mag_rot2 < 0 then 0 else mag_rot2
    { st1 with rotation := env.get_rot_matrix mag_rot3, params := params2 }

/-- The `apply_<class>_calibration` call and what follows it in the record loop:
`config_ok = !h.ioctl(<CLASS>IOCSSCALE, cal)` and the diagnostic when it is false. -/
def apply_calibration (env : Env) (c : SensorClass) (i : Nat) (cal : Calibration) (st : Scan) :
    Scan :=
  let ok : Bool := decide (ioctl env st.h Device.scale_ret = 0)
  { st with
      calls := st.calls ++ [DevCall.setScale st.h.isSome i cal]
      config_ok := ok
      log := if ok then st.log else st.log ++ [⟨c, i, true⟩] }

/-- The body of `if (device_id == h.ioctl(DEVIOCGDEVICEID, 0))` for record `i`: the six
scalars are read, the mag loop handles the rotation, and the calibration is applied unless a
read failed. The loop ends after this block (`break`). -/
def matched_record (env : Env) (c : SensorClass) (board_rotation : Mat3) (i : Nat) (st : Scan) :
    Scan :=
  let cal := read_calibration st.params c i
  let st2 : Scan :=
    match c with
    | SensorClass.mag => mag_rotation_handling env board_rotation i st
    | _ => st
  match cal with
  | none => { st2 with log := st2.log ++ [⟨c, i, false⟩] }
  | some k => apply_calibration env c i k st2

/-- The loop "run through all stored calibrations" of `parameter_update_poll` for one device
slot, over the record indices still to visit. The gyro, accel and mag loops differ in the
parameter names and in the rotation handling, which only the mag loop has. A failed read of
the stored id releases the handle and goes on with the next record. -/
def scan_calibrations (env : Env) (c : SensorClass) (board_rotation : Mat3) :
    List Nat → Scan → Scan
  | [], st => st
  | i :: rest, st =>
    match st.params.int32 (Param.cal c i CalField.ID) with
    | none =>
      scan_calibrations env c board_rotation rest
        { st with h := none, calls := st.calls ++ [DevCall.release st.h.isSome] }
    | some device_id =>
      let st1 : Scan := { st with calls := st.calls ++ [DevCall.getDeviceId st.h.isSome] }
      if device_id = ioctl env st.h Device.device_id then
        matched_record env c board_rotation i st1
      else
        scan_calibrations env c board_rotation rest st1

/-- The record indices `0 .. SENSOR_COUNT_MAX - 1` in loop order. -/
def all_indices : List Nat := List.range SENSOR_COUNT_MAX

/-- One iteration of the loop over device slots: `DevMgr::getHandle`, the validity check and
the scan of the stored records. `rotation` is the current `_mag_rotation[s]`. -/
def calibrate_slot (env : Env) (c : SensorClass) (board_rotation : Mat3) (params : ParamStore)
    (rotation : Mat3) (s : Nat) : Scan :=
  let start : Scan :=
    { h := env.devices c s, params := params, rotation := rotation, calls := [], log := [],
      config_ok := false }
  match env.devices c s with
  | none => start
  | some _ => scan_calibrations env c board_rotation all_indices start

/-- Accumulated effect of the slot loop of one class. -/
structure ClassPass where
  params : ParamStore
  mag_rotation : Nat → Mat3
  calls : List (Nat × DevCall)
  log : List CalError
  count : Nat

/-- One iteration of the loop "run through all <class> sensors", for slot `s`. For the mag
class the slot first gets `_mag_rotation[s] = _board_rotation`; `config_ok` bumps the counter. -/
def calibrate_step (env : Env) (c : SensorClass) (board_rotation : Mat3) (acc : ClassPass)
    (s : Nat) : ClassPass :=
  let rot0 : Nat → Mat3 :=
    match c with
    | SensorClass.mag => upd acc.mag_rotation s board_rotation
    | _ => acc.mag_rotation
  let sc := calibrate_slot env c board_rotation acc.params (rot0 s) s
  { params := sc.params
    mag_rotation :=
      match c with
      | SensorClass.mag => upd rot0 s sc.rotation
      | _ => acc.mag_rotation
    calls := acc.calls ++ sc.calls.map (fun d => (s, d))
    log := acc.log ++ sc.log
    count := if sc.config_ok then acc.count + 1 else acc.count }

/-- The loop "run through all <class> sensors" over the given slots. -/
def calibrate_class (env : Env) (c : SensorClass) (board_rotation : Mat3) (slots : List Nat)
    (acc : ClassPass) : ClassPass :=
  slots.foldl (calibrate_step env c board_rotation) acc

/-- `Sensors::parameters_update`, as far as the module state goes: when `update_parameters`
succeeds the board rotation becomes `board_rotation_offset * get_rot_matrix(board_rotation)`;
otherwise the function returns early. -/
def parameters_update (env : Env) (s : State) : State :=
  match env.update_parameters with
  | none => s
  | some (code, board_rotation_offset) =>
    { s with board_rotation := board_rotation_offset.mul (env.get_rot_matrix code) }

/-- What `parameter_update_poll` leaves behind: the module state, the parameter store, the
driver calls per class (tagged with the slot), the diagnostics and the three counters. -/
structure UpdateResult where
  state : State
  params : ParamStore
  gyro_calls : List (Nat × DevCall)
  accel_calls : List (Nat × DevCall)
  mag_calls : List (Nat × DevCall)
  log : List CalError
  gyro_count : Nat
  accel_count : Nat
  mag_count : Nat

/-- `Sensors::parameter_update_poll(forced)`, up to the end of the mag loop. `param_updated`
is the answer of `orb_check`. The airspeed scale and the battery parameters that follow act
on collaborators that are not part of the state. -/
def parameter_update_poll (env : Env) (param_updated forced : Bool) (s : State)
    (params : ParamStore) : UpdateResult :=
  if param_updated || forced then
    let s1 := parameters_update env s
    let start : ClassPass :=
      { params := params, mag_rotation := s1.mag_rotation, calls := [], log := [], count := 0 }
    let g := calibrate_class env SensorClass.gyro s1.board_rotation all_indices start
    let a := calibrate_class env SensorClass.accel s1.board_rotation all_indices
      { g with calls := [], count := 0 }
    let m := calibrate_class env SensorClass.mag s1.board_rotation all_indices
      { a with calls := [], count := 0 }
    { state := { s1 with mag_rotation := m.mag_rotation }
      params := m.params
      gyro_calls := g.calls
      accel_calls := a.calls
      mag_calls := m.calls
      log := m.log
      gyro_count := g.count
      accel_count := a.count
      mag_count := m.count }
  else
    { state := s, params := params, gyro_calls := [], accel_calls := [], mag_calls := [],
      log := [], gyro_count := 0, accel_count := 0, mag_count := 0 }

/-- The driver calls `parameter_update_poll` made for class `c`, tagged with the slot. -/
def UpdateResult.calls (r : UpdateResult) (c : SensorClass) : List (Nat × DevCall) :=
  match c with
  | SensorClass.gyro => r.gyro_calls
  | SensorClass.accel => r.accel_calls
  | SensorClass.mag => r.mag_calls

/-- The mag loop of `parameter_update_poll` over the slots before `s`: the parameter store and
the rotations that slot `s` finds when its turn comes. The gyro and accel loops that run
before the mag loop write no parameter and no rotation. -/
def mag_slots_before (env : Env) (st : State) (ps : ParamStore) (s : Nat) : ClassPass :=
  calibrate_class env SensorClass.mag (parameters_update env st).board_rotation (List.range s)
    { params := ps, mag_rotation := (parameters_update env st).mag_rotation, calls := [],
      log := [], count := 0 }

/-! ## `Sensors::init_sensor_class` -/

/-- The uORB bus as seen for one topic: `group_count` is `orb_group_count(meta)` converted to
`unsigned`, `subscribe_multi i` the handle `orb_subscribe_multi(meta, i)` returns (negative on
failure), and `priority h` the value `orb_priority(h, &priority)` leaves in `priority`. -/
structure Bus where
  group_count : Nat
  subscribe_multi : Nat → Int
  priority : Int → Int

/-- The cast `(uint8_t)` of an `int32_t`. -/
def toUInt8 (v : Int) : Nat := (v % 256).toNat

/-- Body of the `for` loop of `init_sensor_class` for slot `i`. The second component lists
the instances for which `orb_subscribe_multi` was called. -/
def init_sensor_slot (bus : Bus) (acc : SensorData × List Nat) (i : Nat) :
    SensorData × List Nat :=
  let sub : Int :=
    if acc.1.subscription i < 0 then bus.subscribe_multi i else acc.1.subscription i
  ({ acc.1 with
      subscription := upd acc.1.subscription i sub
      priority := upd acc.1.priority i (toUInt8 (bus.priority sub)) },
   if acc.1.subscription i < 0 then acc.2 ++ [i] else acc.2)

/-- The group count after `if (group_count > SENSOR_COUNT_MAX) group_count = SENSOR_COUNT_MAX`. -/
def clamped_group_count (bus : Bus) : Nat :=
  if bus.group_count > SENSOR_COUNT_MAX then SENSOR_COUNT_MAX else bus.group_count

/-- `Sensors::init_sensor_class`: returns the class state and the instances subscribed. -/
def init_sensor_class (bus : Bus) (sensor_data : SensorData) : SensorData × List Nat :=
  let r := (List.range (clamped_group_count bus)).foldl (init_sensor_slot bus) (sensor_data, [])
  ({ r.1 with subscription_count := clamped_group_count bus }, r.2)

/-! ## `Sensors::check_failover` -/

/-- The class names passed to `check_failover` ("Accel", "Gyro", "Mag", "Baro"). -/
inductive VotedClass where
  | accel
  | gyro
  | mag
  | baro
deriving DecidableEq, Repr

/-- The read-only observers of a `DataValidatorGroup`, as functions of its call history. -/
structure VoterView where
  failover_count : List VoterCall → Nat
  failover_state : List VoterCall → Nat
  failover_index : List VoterCall → Int

/-- The bit masks `DataValidator::ERROR_FLAG_NO_DATA` ... `ERROR_FLAG_HIGH_ERRDENSITY`, declared
in `data_validator.h`. -/
structure ErrorFlags where
  NO_DATA : Nat
  STALE_DATA : Nat
  TIMEOUT : Nat
  HIGH_ERRCOUNT : Nat
  HIGH_ERRDENSITY : Nat

/-- Modelled from the spec: the constant `DataValidator::ERROR_FLAG_NO_ERROR` is declared in
`data_validator.h`, which is not among the sources; the failover reporter of the spec tests
`failover_state == 0`. -/
def ERROR_FLAG_NO_ERROR : Nat := 0

/-- The five texts the emergency message can carry. -/
inductive FailoverLabel where
  | no_data
  | stale_data
  | data_timeout
  | high_error_count
  | high_error_density
deriving DecidableEq, Repr

/-- What `check_failover` logs: `PX4_INFO("%s sensor switch from #%i", ...)`, or the
emergency message `"%s #%i failover :%s%s%s%s%s!"` with the texts that are not empty. -/
inductive FailoverMessage where
  | info (sensor_name : VotedClass) (failover_index : Int)
  | emergency (sensor_name : VotedClass) (failover_index : Int) (labels : List FailoverLabel)
deriving DecidableEq, Repr

/-- The argument `(flags & mask) ? text : ""` of the emergency message. -/
def flag_label (flags mask : Nat) (label : FailoverLabel) : List FailoverLabel :=
  if flags &&& mask ≠ 0 then [label] else []

/-- The five text arguments of the emergency message, in order. -/
def failover_labels (m : ErrorFlags) (flags : Nat) : List FailoverLabel :=
  flag_label flags m.NO_DATA FailoverLabel.no_data ++
  flag_label flags m.STALE_DATA FailoverLabel.stale_data ++
  flag_label flags m.TIMEOUT FailoverLabel.data_timeout ++
  flag_label flags m.HIGH_ERRCOUNT FailoverLabel.high_error_count ++
  flag_label flags m.HIGH_ERRDENSITY FailoverLabel.high_error_density

/-- `Sensors::check_failover`: the class state, the return value and the messages logged. -/
def check_failover (view : VoterView) (m : ErrorFlags) (sensor : SensorData)
    (sensor_name : VotedClass) : SensorData × Bool × List FailoverMessage :=
  if sensor.last_failover_count ≠ view.failover_count sensor.voter then
    let flags := view.failover_state sensor.voter
    let msg : FailoverMessage :=
      if flags = ERROR_FLAG_NO_ERROR then
        FailoverMessage.info sensor_name (view.failover_index sensor.voter)
      else
        FailoverMessage.emergency sensor_name (view.failover_index sensor.voter)
          (failover_labels m flags)
    ({ sensor with last_failover_count := view.failover_count sensor.voter }, true, [msg])
  else
    (sensor, false, [])

/-- The `check_failover` calls a run of the main loop makes for one class: `histories` lists
the voter history found at each call. Returns the class state and all messages logged. -/
def failover_reports (view : VoterView) (m : ErrorFlags) (sensor_name : VotedClass) :
    List (List VoterCall) → SensorData → SensorData × List FailoverMessage
  | [], sensor => (sensor, [])
  | h :: rest, sensor =>
    let r := check_failover view m { sensor with voter := h } sensor_name
    let r2 := failover_reports view m sensor_name rest r.1
    (r2.1, r.2.2 ++ r2.2)

/-! ## Airspeed: `Sensors::diff_pres_poll` -/

/-- `#define PCB_TEMP_ESTIMATE_DEG 5.0f`. -/
def PCB_TEMP_ESTIMATE_DEG : Rat := 5

/-- The message `differential_pressure_s`. -/
structure DifferentialPressure where
  timestamp : Nat
  error_count : Nat
  differential_pressure_raw_pa : Rat
  differential_pressure_filtered_pa : Rat
  temperature : Rat
deriving DecidableEq, Repr

/-- The message `airspeed_s`. -/
structure Airspeed where
  timestamp : Nat
  indicated_airspeed_m_s : Rat
  true_airspeed_m_s : Rat
  true_airspeed_unfiltered_m_s : Rat
  air_temperature_celsius : Rat
  confidence : Rat
deriving DecidableEq, Repr

/-- One `put` on the single-instance `_airspeed_validator`. -/
structure ValidatorPut where
  timestamp : Nat
  val : Rat
  error_count : Nat
  priority : Nat
deriving DecidableEq, Repr

/-- The helpers `diff_pres_poll` calls: `calc_indicated_airspeed` and `calc_true_airspeed` of
`systemlib/airspeed.h`, the confidence of the airspeed validator as a function of its history
and the time, and whether the build defines `__PX4_POSIX`. -/
structure AirspeedLib where
  calc_indicated_airspeed : Rat → Rat
  calc_true_airspeed : Rat → Rat → Rat → Rat
  confidence : List ValidatorPut → Nat → Rat
  posix : Bool

/-- Modelled from the spec: `math::max` is defined in the math library, which is not among
the sources; the spec writes `indicated_airspeed := max(0, f_indicated(...))`. -/
def math_max (a b : Rat) : Rat := max a b

/-- The members `_diff_pres`, `_airspeed` and `_airspeed_validator`. -/
structure AirData where
  diff_pres : DifferentialPressure
  airspeed : Airspeed
  airspeed_validator : List ValidatorPut

/-- The air temperature `diff_pres_poll` works with. -/
def air_temperature (dp : DifferentialPressure) (raw : SensorCombined) : Rat :=
  if dp.temperature > -300 then dp.temperature else raw.baro_temp_celcius - PCB_TEMP_ESTIMATE_DEG

/-- `Sensors::diff_pres_poll`. `fresh` is `none` when `orb_check` reports no update, else
the copied message; `now` is `hrt_absolute_time()`. Returns the members and the message
published on the airspeed topic, if any. -/
def diff_pres_poll (lib : AirspeedLib) (now : Nat) (fresh : Option DifferentialPressure)
    (s : State) (raw : SensorCombined) (a : AirData) : AirData × Option Airspeed :=
  match fresh with
  | none => (a, none)
  | some diff_pres =>
    let air_temperature_celsius := air_temperature diff_pres raw
    let validator := a.airspeed_validator ++
      [{ timestamp := diff_pres.timestamp, val := diff_pres.differential_pressure_raw_pa,
         error_count := diff_pres.error_count, priority := 100 }]
    let airspeed : Airspeed :=
      { timestamp := diff_pres.timestamp
        confidence := if lib.posix then 1 else lib.confidence validator now
        indicated_airspeed_m_s :=
          math_max 0 (lib.calc_indicated_airspeed diff_pres.differential_pressure_filtered_pa)
        true_airspeed_m_s :=
          math_max 0 (lib.calc_true_airspeed
            (diff_pres.differential_pressure_filtered_pa + s.last_best_baro_pressure * 100)
            (s.last_best_baro_pressure * 100) air_temperature_celsius)
        true_airspeed_unfiltered_m_s :=
          math_max 0 (lib.calc_true_airspeed
            (diff_pres.differential_pressure_raw_pa + s.last_best_baro_pressure * 100)
            (s.last_best_baro_pressure * 100) air_temperature_celsius)
        air_temperature_celsius := air_temperature_celsius }
    ({ diff_pres := diff_pres, airspeed := airspeed, airspeed_validator := validator },
     some airspeed)

/-! ## Power monitor: `Sensors::adc_poll` -/

/-- One ADC sample `adc_msg_s`. -/
structure AdcMsg where
  am_channel : Nat
  am_data : Int
deriving DecidableEq, Repr

/-- The channel macros of `board_config.h`; `ADC_AIRSPEED_VOLTAGE_CHANNEL` is `none` on a
board that does not define it. -/
structure BoardConfig where
  ADC_BATTERY_VOLTAGE_CHANNEL : Nat
  ADC_BATTERY_CURRENT_CHANNEL : Nat
  ADC_AIRSPEED_VOLTAGE_CHANNEL : Option Nat

/-- The fields of `_parameters` that `adc_poll` and `check_vibration` read. -/
structure Parameters where
  battery_voltage_scaling : Rat
  battery_v_div : Rat
  battery_current_scaling : Rat
  battery_current_offset : Rat
  battery_a_per_v : Rat
  battery_source : Int
  diff_pres_analog_scale : Rat
  diff_pres_offset_pa : Rat
  vibration_warning_threshold : Rat

/-- What `adc_poll` does to its collaborators: the `_h_adc.read` call with the number of
samples it returned (`ret / sizeof(buf_adc[0])`, 0 when `ret` is less than one sample), a
publication on the differential pressure topic, and the battery update
`updateBatteryStatus(t, V, A, throttle, armed, ...)` followed by the publication of
`battery_status`. -/
inductive AdcEvent where
  | read (samples : Nat)
  | publish_diff_pres (msg : DifferentialPressure)
  | publish_battery (t : Nat) (voltage_v : Rat) (current_a : Rat) (throttle : Rat)
      (armed : Bool)
deriving DecidableEq, Repr

/-- Whether the event is a call of `_h_adc.read`. -/
def AdcEvent.is_read : AdcEvent → Bool
  | AdcEvent.read _ => true
  | _ => false

/-- Whether the event is a call of `_h_adc.read` that returned at least one sample. -/
def AdcEvent.is_data_read : AdcEvent → Bool
  | AdcEvent.read (_ + 1) => true
  | _ => false

/-- The locals of `adc_poll` during the channel loop, with `_diff_pres` and the events. -/
structure AdcScan where
  bat_voltage_v : Rat
  bat_current_a : Rat
  updated_battery : Bool
  diff_pres : DifferentialPressure
  events : List AdcEvent

/-- Body of the channel loop of `adc_poll` for one sample. -/
def adc_channel (board : BoardConfig) (p : Parameters) (t : Nat) (acc : AdcScan)
    (msg : AdcMsg) : AdcScan :=
  if board.ADC_BATTERY_VOLTAGE_CHANNEL = msg.am_channel then
    let v : Rat := ((msg.am_data : Rat) * p.battery_voltage_scaling) * p.battery_v_div
    { acc with
        bat_voltage_v := v
        updated_battery := if v > 1 / 2 then true else acc.updated_battery }
  else if board.ADC_BATTERY_CURRENT_CHANNEL = msg.am_channel then
    { acc with
        bat_current_a :=
          (((msg.am_data : Rat) * p.battery_current_scaling) - p.battery_current_offset)
            * p.battery_a_per_v }
  else
    match board.ADC_AIRSPEED_VOLTAGE_CHANNEL with
    | none => acc
    | some channel =>
      if channel = msg.am_channel then
        let voltage : Rat := (msg.am_data : Rat) * (33 / 10) / 4096 * 2
        if voltage > 4 / 10 ∧ p.diff_pres_analog_scale > 0 then
          let diff_pres_pa_raw := voltage * p.diff_pres_analog_scale - p.diff_pres_offset_pa
          let dp : DifferentialPressure :=
            { acc.diff_pres with
                timestamp := t
                differential_pressure_raw_pa := diff_pres_pa_raw
                differential_pressure_filtered_pa :=
                  (acc.diff_pres.differential_pressure_filtered_pa * (9 / 10))
                    + (diff_pres_pa_raw * (1 / 10))
                temperature := -1000 }
          { acc with diff_pres := dp, events := acc.events ++ [AdcEvent.publish_diff_pres dp] }
        else acc
      else acc

/-- `Sensors::adc_poll`. `t` is `hrt_absolute_time()`, `adc` the samples `_h_adc.read`
delivers (the empty list when it returns less than one sample), `throttle` the throttle of
`actuator_controls_0`. Returns the state, the airspeed members and the events in order. -/
def adc_poll (board : BoardConfig) (p : Parameters) (t : Nat) (adc : List AdcMsg)
    (throttle : Rat) (s : State) (a : AirData) : State × AirData × List AdcEvent :=
  if !s.publishing then
    (s, a, [])
  else if 10000 ≤ u64sub t s.last_adc then
    match adc with
    | [] => (s, a, [AdcEvent.read 0])
    | first :: more =>
      let sc := (first :: more).foldl (adc_channel board p t)
        { bat_voltage_v := 0, bat_current_a := 0, updated_battery := false,
          diff_pres := a.diff_pres, events := [AdcEvent.read (first :: more).length] }
      let events :=
        if p.battery_source = 0 ∧ sc.updated_battery = true then
          sc.events ++
            [AdcEvent.publish_battery t sc.bat_voltage_v sc.bat_current_a throttle s.armed]
        else sc.events
      ({ s with last_adc := t }, { a with diff_pres := sc.diff_pres }, events)
  else
    (s, a, [])

/-- One `adc_poll` call of a run: the clock, the samples the ADC would deliver and the
throttle. -/
structure AdcCall where
  t : Nat
  adc : List AdcMsg
  throttle : Rat

/-- A sequence of `adc_poll` calls; every event is tagged with the time of its call. -/
def adc_poll_run (board : BoardConfig) (p : Parameters) :
    List AdcCall → State → AirData → State × AirData × List (Nat × AdcEvent)
  | [], s, a => (s, a, [])
  | c :: rest, s, a =>
    let r := adc_poll board p c.t c.adc c.throttle s a
    let r2 := adc_poll_run board p rest r.1 r.2.1
    (r2.1, r2.2.1, r.2.2.map (fun e => (c.t, e)) ++ r2.2.2)

/-- The times at which a run called `_h_adc.read`. -/
def read_times (events : List (Nat × AdcEvent)) : List Nat :=
  (events.filter (fun e => AdcEvent.is_read e.2)).map Prod.fst

/-- The times at which a run called `_h_adc.read` and got at least one sample. -/
def data_read_times (events : List (Nat × AdcEvent)) : List Nat :=
  (events.filter (fun e => AdcEvent.is_data_read e.2)).map Prod.fst

/-! ## `Sensors::check_vibration` -/

/-- Modelled from the spec: `hrt_elapsed_time(&then)` is declared in `drv_hrt.h`, which is
not among the sources; the spec writes `now - warning_timestamp`. `now` is the clock read
inside the call, the difference is the `uint64_t` one. -/
def hrt_elapsed_time (now past : Nat) : Nat := u64sub now past

/-- The cast `(int)` of a `float`: truncation toward zero. -/
def toIntTrunc (q : Rat) : Int := if 0 ≤ q then Rat.floor q else -(Rat.floor (-q))

/-- The critical message `"HIGH VIBRATION! g: %d a: %d m: %d"` with its three integer
percents. -/
structure VibrationAlert where
  g : Int
  a : Int
  m : Int
deriving DecidableEq, Repr

/-- `Sensors::check_vibration`. `vibration_factor` is `DataValidatorGroup::get_vibration_factor`
as a function of the voter's call history and the time, `cur_time` the value of
`hrt_absolute_time()` at entry and `later` the clock read inside `hrt_elapsed_time`. Returns
the state, the return value and the messages logged. -/
def check_vibration (p : Parameters) (vibration_factor : List VoterCall → Nat → Rat)
    (cur_time later : Nat) (s : State) : State × Bool × List VibrationAlert :=
  if !s.vibration_warning &&
      (decide (vibration_factor s.gyro.voter cur_time > p.vibration_warning_threshold) ||
       decide (vibration_factor s.accel.voter cur_time > p.vibration_warning_threshold) ||
       decide (vibration_factor s.mag.voter cur_time > p.vibration_warning_threshold)) then
    if s.vibration_warning_timestamp = 0 then
      ({ s with vibration_warning_timestamp := cur_time }, false, [])
    else if hrt_elapsed_time later s.vibration_warning_timestamp > 10000 * 1000 then
      ({ s with vibration_warning := true }, true,
       [{ g := toIntTrunc (100 * vibration_factor s.gyro.voter cur_time)
          a := toIntTrunc (100 * vibration_factor s.accel.voter cur_time)
          m := toIntTrunc (100 * vibration_factor s.mag.voter cur_time) }])
    else (s, false, [])
  else ({ s with vibration_warning_timestamp := 0 }, false, [])

/-- One `check_vibration` call of a run: the two clock values and the voter histories the
call finds. -/
structure VibrationCall where
  cur_time : Nat
  later : Nat
  gyro : List VoterCall
  accel : List VoterCall
  mag : List VoterCall

/-- A sequence of `check_vibration` calls on one object; between the calls the pollers extend
the voter histories. Returns the final state and the return values in order. -/
def check_vibration_run (p : Parameters) (vibration_factor : List VoterCall → Nat → Rat) :
    List VibrationCall → State → State × List Bool
  | [], s => (s, [])
  | c :: rest, s =>
    let r := check_vibration p vibration_factor c.cur_time c.later
      { s with
          gyro := { s.gyro with voter := c.gyro }
          accel := { s.accel with voter := c.accel }
          mag := { s.mag with voter := c.mag } }
    let r2 := check_vibration_run p vibration_factor rest r.1
    (r2.1, r.2.1 :: r2.2)

/-- The differential pressure records among the events of `adc_poll`, in the order of their
publication. -/
def published_records (events : List AdcEvent) : List DifferentialPressure :=
  events.filterMap (fun e =>
    match e with
    | AdcEvent.publish_diff_pres dp => some dp
    | _ => none)

/-- Whether the channel loop of `adc_poll` takes the analog airspeed branch for a sample and
synthesizes a record: the sample is on the airspeed channel and on neither battery channel,
its voltage `am_data * 3.3 / 4096 * 2` is above 0.4 and the analog scale is positive. -/
def synthesizes (board : BoardConfig) (p : Parameters) (msg : AdcMsg) : Bool :=
  decide (board.ADC_BATTERY_VOLTAGE_CHANNEL ≠ msg.am_channel ∧
    board.ADC_BATTERY_CURRENT_CHANNEL ≠ msg.am_channel ∧
    board.ADC_AIRSPEED_VOLTAGE_CHANNEL = some msg.am_channel ∧
    (msg.am_data : Rat) * (33 / 10) / 4096 * 2 > 4 / 10 ∧ p.diff_pres_analog_scale > 0)

/-! ## Reachable states -/

/-- States of the object: the constructed state, closed under the modelled member functions
that the main loop calls and that write member variables. -/
inductive Reachable : State → Prop where
  | ctor (board : Mat3) (junk_priority : Nat → Nat) (junk_pressure : Nat → Rat) :
      Reachable (State.ctor board junk_priority junk_pressure)
  | control_mode (s : State) (fresh : Option VehicleControlMode) :
      Reachable s → Reachable (vehicle_control_mode_poll s fresh)
  | polls (s : State) (inp : PollInput) (raw : SensorCombined) :
      Reachable s → Reachable (poll_classes inp s raw).1
  | param_update (s : State) (env : Env) (param_updated forced : Bool) (params : ParamStore) :
      Reachable s → Reachable (parameter_update_poll env param_updated forced s params).state
  | adc (s : State) (board : BoardConfig) (p : Parameters) (t : Nat) (adc : List AdcMsg)
      (throttle : Rat) (a : AirData) :
      Reachable s → Reachable (adc_poll board p t adc throttle s a).1
  | init_gyro (s : State) (bus : Bus) :
      Reachable s → Reachable { s with gyro := (init_sensor_class bus s.gyro).1 }
  | init_mag (s : State) (bus : Bus) :
      Reachable s → Reachable { s with mag := (init_sensor_class bus s.mag).1 }
  | init_accel (s : State) (bus : Bus) :
      Reachable s → Reachable { s with accel := (init_sensor_class bus s.accel).1 }
  | init_baro (s : State) (bus : Bus) :
      Reachable s → Reachable { s with baro := (init_sensor_class bus s.baro).1 }
  | failover (s : State) (view : VoterView) (m : ErrorFlags) :
      Reachable s →
      Reachable { s with
        accel := (check_failover view m s.accel VotedClass.accel).1
        gyro := (check_failover view m s.gyro VotedClass.gyro).1
        mag := (check_failover view m s.mag VotedClass.mag).1
        baro := (check_failover view m s.baro VotedClass.baro).1 }

/-! ## Example data -/

/-- A constructed object with identity board rotation and one subscribed instance per class. -/
def one_instance_state : State :=
  { State.ctor Mat3.identity (fun _ => 0) (fun _ => 0) with
      gyro := { SensorData.ctor (fun _ => 0) with subscription_count := 1 }
      accel := { SensorData.ctor (fun _ => 0) with subscription_count := 1 }
      mag := { SensorData.ctor (fun _ => 0) with subscription_count := 1 }
      baro := { SensorData.ctor (fun _ => 0) with subscription_count := 1 } }

/-- An inertial report at 5000 us with vector (1, 2, 3) and no integral. -/
def plain_report : InertialReport :=
  { timestamp := 5000, v := ⟨1, 2, 3⟩, integral := ⟨0, 0, 0⟩, integral_dt := 0, error_count := 0 }

/-- An inertial report with timestamp 0, which the pollers reject. -/
def zero_stamp_report : InertialReport :=
  { timestamp := 0, v := ⟨1, 2, 3⟩, integral := ⟨0, 0, 0⟩, integral_dt := 0, error_count := 0 }

/-- A mag report at 5000 us with vector (1, 2, 3). -/
def plain_mag_report : MagReport := { timestamp := 5000, v := ⟨1, 2, 3⟩, error_count := 0 }

/-- A baro report at 5000 us. -/
def plain_baro_report : BaroReport :=
  { timestamp := 5000, altitude := 100, temperature := 25, pressure := 1000, error_count := 0 }

/-- One sample for every class; the gyro voter finds no viable instance, the others elect
instance 0. -/
def gyro_blind_input : PollInput :=
  { gyro_best := fun _ => -1
    accel_best := fun _ => 0
    mag_best := fun _ => 0
    baro_best := fun _ => 0
    gyro_now := 5001, accel_now := 5002, mag_now := 5003, baro_now := 5004
    gyro_fresh := fun _ => some plain_report
    accel_fresh := fun _ => some plain_report
    mag_fresh := fun _ => some plain_mag_report
    baro_fresh := fun _ => some plain_baro_report }

/-- An inertial report at 5000 us whose driver supplies an integral over 2000 us. -/
def integral_report : InertialReport :=
  { timestamp := 5000, v := ⟨1, 2, 3⟩, integral := ⟨2, 4, 6⟩, integral_dt := 2000,
    error_count := 0 }

/-- A rotation table with the entries 0 (no rotation) and 4 (yaw 180 degrees); the other
codes, which the examples do not use as valid rotations, map to the zero matrix. -/
def example_rot_matrix (code : Int) : Mat3 :=
  if code = 0 then Mat3.identity
  else if code = 4 then ⟨⟨-1, 0, 0⟩, ⟨0, -1, 0⟩, ⟨0, 0, 1⟩⟩
  else Mat3.zero

/-- One running gyro driver in slot 0 with device id 123; `update_parameters` fails, so the
board rotation is kept. -/
def gyro_example_env : Env :=
  { devices := fun c s =>
      match c, s with
      | SensorClass.gyro, 0 => some { device_id := 123, external := 0, scale_ret := 0 }
      | _, _ => none
    bad_ioctl := -1
    uninit := 0
    get_rot_matrix := example_rot_matrix
    update_parameters := none }

/-- Stored gyro records: `CAL_GYRO0_ID = 456`, `CAL_GYRO1_ID = 123`, record 0 with all
scalars 7 and record 1 with offsets (1, 2, 3) and scales (1, 1, 1). -/
def gyro_example_store : ParamStore :=
  { int32 := fun p =>
      match p with
      | Param.cal SensorClass.gyro 0 CalField.ID => some 456
      | Param.cal SensorClass.gyro 1 CalField.ID => some 123
      | _ => none
    float := fun p =>
      match p with
      | Param.cal SensorClass.gyro 0 _ => some 7
      | Param.cal SensorClass.gyro 1 CalField.XOFF => some 1
      | Param.cal SensorClass.gyro 1 CalField.YOFF => some 2
      | Param.cal SensorClass.gyro 1 CalField.ZOFF => some 3
      | Param.cal SensorClass.gyro 1 _ => some 1
      | _ => none }

/-- The six scalars of record 1 of `gyro_example_store`. -/
def gyro_example_cal : Calibration :=
  { x_offset := 1, y_offset := 2, z_offset := 3, x_scale := 1, y_scale := 1, z_scale := 1 }

/-- One running mag driver in slot 0 with device id 7 that answers `MAGIOCGEXTERNAL` with
`external`. -/
def mag_example_env (external : Int) : Env :=
  { devices := fun c s =>
      match c, s with
      | SensorClass.mag, 0 => some { device_id := 7, external := external, scale_ret := 0 }
      | _, _ => none
    bad_ioctl := -1
    uninit := 0
    get_rot_matrix := example_rot_matrix
    update_parameters := none }

/-- Stored mag record 0 for device 7 with `CAL_MAG0_ROT = rot`, and the legacy parameter
`SENS_EXT_MAG_ROT = legacy`. -/
def mag_example_store (rot legacy : Int) : ParamStore :=
  { int32 := fun p =>
      match p with
      | Param.cal SensorClass.mag 0 CalField.ID => some 7
      | Param.cal SensorClass.mag 0 CalField.ROT => some rot
      | Param.SENS_EXT_MAG_ROT => some legacy
      | _ => none
    float := fun _ => some 1 }

/-- A bus that advertises five instances of a topic, hands out the handles 10, 11, ... and
reports priority 75 for every handle. -/
def example_bus : Bus :=
  { group_count := 5, subscribe_multi := fun i => 10 + i, priority := fun _ => 75 }

/-- A voter view whose failover count is the number of calls made on the voter so far, with
a fixed `failover_state` and failover index 0. -/
def example_view (state : Nat) : VoterView :=
  { failover_count := fun h => h.length
    failover_state := fun _ => state
    failover_index := fun _ => 0 }

/-- The five masks as consecutive bits, lowest first. -/
def example_flags : ErrorFlags :=
  { NO_DATA := 1, STALE_DATA := 2, TIMEOUT := 4, HIGH_ERRCOUNT := 8, HIGH_ERRDENSITY := 16 }

/-- A freshly constructed class whose voter has seen one election. -/
def one_election_class : SensorData :=
  { SensorData.ctor (fun _ => 0) with voter := [VoterCall.get_best 1] }

/-- Airspeed members with every field zero and an empty validator. -/
def example_air : AirData :=
  { diff_pres := { timestamp := 0, error_count := 0, differential_pressure_raw_pa := 0,
                   differential_pressure_filtered_pa := 0, temperature := 0 }
    airspeed := { timestamp := 0, indicated_airspeed_m_s := 0, true_airspeed_m_s := 0,
                  true_airspeed_unfiltered_m_s := 0, air_temperature_celsius := 0,
                  confidence := 0 }
    airspeed_validator := [] }

/-- A board with battery voltage on channel 2, current on 3 and airspeed on 15. -/
def example_board : BoardConfig :=
  { ADC_BATTERY_VOLTAGE_CHANNEL := 2, ADC_BATTERY_CURRENT_CHANNEL := 3,
    ADC_AIRSPEED_VOLTAGE_CHANNEL := some 15 }

/-- Parameters with unit scalings and the ADC as battery source. -/
def example_params : Parameters :=
  { battery_voltage_scaling := 1, battery_v_div := 1, battery_current_scaling := 1,
    battery_current_offset := 0, battery_a_per_v := 1, battery_source := 0,
    diff_pres_analog_scale := 0, diff_pres_offset_pa := 0, vibration_warning_threshold := 0 }

/-- Three calls 5 ms apart, each with one sample of the unused channel 4. -/
def spaced_adc_calls : List AdcCall :=
  [{ t := 20000, adc := [{ am_channel := 4, am_data := 100 }], throttle := 0 },
   { t := 25000, adc := [{ am_channel := 4, am_data := 100 }], throttle := 0 },
   { t := 30000, adc := [{ am_channel := 4, am_data := 100 }], throttle := 0 }]

/-- Two calls 1 us apart whose reads return no sample. -/
def silent_adc_calls : List AdcCall :=
  [{ t := 20000, adc := [], throttle := 0 }, { t := 20001, adc := [], throttle := 0 }]

/-- The one-instance state with publishing switched off. -/
def muted_state : State := { one_instance_state with publishing := false }

/-- Airspeed helpers that make the temperature argument visible in the result. -/
def example_lib : AirspeedLib :=
  { calc_indicated_airspeed := fun dp => dp - 10
    calc_true_airspeed := fun _ _ temperature => temperature
    confidence := fun _ _ => 1
    posix := false }

/-- A differential pressure report from a sensor without thermometer (-500). -/
def cold_diff_pres : DifferentialPressure :=
  { timestamp := 7000, error_count := 0, differential_pressure_raw_pa := 3,
    differential_pressure_filtered_pa := 2, temperature := -500 }

/-- A snapshot whose baro temperature is 25 degrees. -/
def warm_raw : SensorCombined := { SensorCombined.zero with baro_temp_celcius := 25 }

/-- The accel sample of the elected instance is stamped 4000 us, the mag sample 4500 us,
and no baro sample has been taken. -/
def stamped_state : State :=
  { one_instance_state with
      last_accel_timestamp := fun _ => 4000
      last_mag_timestamp := fun _ => 4500 }

/-- A snapshot whose gyro sample is stamped 5000 us. -/
def stamped_raw : SensorCombined := { SensorCombined.zero with timestamp := 5000 }

/-- The baro sample of every slot is stamped 1000 us. -/
def stale_baro_state : State :=
  { one_instance_state with last_baro_timestamp := fun _ => 1000 }

/-- A snapshot whose gyro sample is stamped 2^31 + 1 us after 1000 us. -/
def late_raw : SensorCombined := { SensorCombined.zero with timestamp := 2147484649 }

/-- A baro report at 6000 us: altitude 120, temperature 21, pressure 1001. -/
def baro_example_report : BaroReport :=
  { timestamp := 6000, altitude := 120, temperature := 21, pressure := 1001, error_count := 0 }

/-- A gyro or accel report at `t` us with vector (0.1, -0.2, 0.3) and no integral. -/
def tenth_report (t : Nat) : InertialReport :=
  { timestamp := t, v := ⟨1 / 10, -2 / 10, 3 / 10⟩, integral := ⟨0, 0, 0⟩, integral_dt := 0,
    error_count := 0 }

/-- Stored records of every class whose first id cannot be read: `CAL_<CLASS>0_ID` is absent,
`CAL_<CLASS>1_ID` is `second`, `CAL_<CLASS>2_ID` is 5, every `ROT` is 0 and every scalar
is 1. -/
def id_gap_store (second : Int) : ParamStore :=
  { int32 := fun p =>
      match p with
      | Param.cal _ 0 CalField.ID => none
      | Param.cal _ 1 CalField.ID => some second
      | Param.cal _ _ CalField.ID => some 5
      | Param.cal _ _ CalField.ROT => some 0
      | _ => none
    float := fun _ => some 1 }

/-- A vibration factor that is 1 for a voter that has seen calls and 0 for a fresh one. -/
def example_vibration : List VoterCall → Nat → Rat :=
  fun h _ => if h = [] then 0 else 1

/-- The one-instance state with a gyro voter that has seen an election and the warning
timestamp `ts`. -/
def shaken_state (ts : Nat) : State :=
  { one_instance_state with gyro := one_election_class, vibration_warning_timestamp := ts }

/-- Three calls that all find the gyro shaking: at 1000 us, a little over 10 s later, and at
30 s. -/
def shaking_calls : List VibrationCall :=
  [{ cur_time := 1000, later := 1001, gyro := [VoterCall.get_best 1], accel := [], mag := [] },
   { cur_time := 11001001, later := 11001002, gyro := [VoterCall.get_best 1], accel := [],
     mag := [] },
   { cur_time := 30000000, later := 30000001, gyro := [VoterCall.get_best 1], accel := [],
     mag := [] }]

/-- Parameters with an analog airspeed sensor: scale 10, offset 3. -/
def airspeed_params : Parameters :=
  { example_params with diff_pres_analog_scale := 10, diff_pres_offset_pa := 3 }

/-- The one-instance state with a board rotation of 90 degrees about the z axis and, for
every mag slot, a mag rotation of 270 degrees about the z axis. -/
def rotated_state : State :=
  { one_instance_state with
      board_rotation := ⟨⟨0, -1, 0⟩, ⟨1, 0, 0⟩, ⟨0, 0, 1⟩⟩
      mag_rotation := fun _ => ⟨⟨0, 1, 0⟩, ⟨-1, 0, 0⟩, ⟨0, 0, 1⟩⟩ }

/-- Airspeed members whose stored record has a filtered value of 10 and temperature 30. -/
def filtered_air : AirData :=
  { example_air with
      diff_pres := { timestamp := 7, error_count := 2, differential_pressure_raw_pa := 11,
                     differential_pressure_filtered_pa := 10, temperature := 30 } }

/-- The record `adc_poll` synthesizes at 20 000 us from the sample 2048 (3.3 V) on the
airspeed channel with `airspeed_params`, after the stored record of `filtered_air`:
raw `3.3 * 10 - 3`, filtered `0.9 * 10 + 0.1 * 30`. -/
def analog_first : DifferentialPressure :=
  { timestamp := 20000, error_count := 2, differential_pressure_raw_pa := 30,
    differential_pressure_filtered_pa := 12, temperature := -1000 }

/-- The record synthesized next in the same call from the sample 4096 (6.6 V):
raw `6.6 * 10 - 3`, filtered `0.9 * 12 + 0.1 * 63`. -/
def analog_second : DifferentialPressure :=
  { timestamp := 20000, error_count := 2, differential_pressure_raw_pa := 63,
    differential_pressure_filtered_pa := 171 / 10, temperature := -1000 }

/-- Two running mag drivers: slot 0 with device id 7 and slot 1 with device id 8, answering
`MAGIOCGEXTERNAL` with `ext0` and `ext1`. -/
def two_mag_env (ext0 ext1 : Int) : Env :=
  { devices := fun c s =>
      match c, s with
      | SensorClass.mag, 0 => some { device_id := 7, external := ext0, scale_ret := 0 }
      | SensorClass.mag, 1 => some { device_id := 8, external := ext1, scale_ret := 0 }
      | _, _ => none
    bad_ioctl := -1
    uninit := 0
    get_rot_matrix := example_rot_matrix
    update_parameters := none }

/-- Stored mag records 0 (device 7) and 1 (device 8) with rotations `rot0` and `rot1`, and the
legacy parameter `SENS_EXT_MAG_ROT = legacy`. -/
def two_mag_store (rot0 rot1 legacy : Int) : ParamStore :=
  { int32 := fun p =>
      match p with
      | Param.cal SensorClass.mag 0 CalField.ID => some 7
      | Param.cal SensorClass.mag 1 CalField.ID => some 8
      | Param.cal SensorClass.mag 0 CalField.ROT => some rot0
      | Param.cal SensorClass.mag 1 CalField.ROT => some rot1
      | Param.SENS_EXT_MAG_ROT => some legacy
      | _ => none
    float := fun _ => some 1 }

/-! # Theorems -/

/-! ## Frame lemmas for the HIL flags -/

/-- A projection that every loop step preserves is preserved by the whole loop. -/
theorem foldl_proj_eq {α β γ : Type} (f : α → β → α) (proj : α → γ)
    (h : ∀ a b, proj (f a b) = proj a) (l : List β) (a : α) :
    proj (l.foldl f a) = proj a := by
  induction l generalizing a with
  | nil => rfl
  | cons b t ih => simp [List.foldl, ih, h]

theorem gyro_sample_flags (s : State) (i : Nat) (f : Option InertialReport) (g : Bool) :
    (gyro_sample s i f g).1.hil_enabled = s.hil_enabled ∧
      (gyro_sample s i f g).1.publishing = s.publishing := by
  unfold gyro_sample
  cases f with
  | none => simp
  | some r => by_cases h0 : r.timestamp = 0 <;> by_cases h1 : r.integral_dt = 0 <;> simp [h0, h1]

theorem accel_sample_flags (s : State) (i : Nat) (f : Option InertialReport) (g : Bool) :
    (accel_sample s i f g).1.hil_enabled = s.hil_enabled ∧
      (accel_sample s i f g).1.publishing = s.publishing := by
  unfold accel_sample
  cases f with
  | none => simp
  | some r => by_cases h0 : r.timestamp = 0 <;> by_cases h1 : r.integral_dt = 0 <;> simp [h0, h1]

theorem mag_sample_flags (s : State) (i : Nat) (f : Option MagReport) (g : Bool) :
    (mag_sample s i f g).1.hil_enabled = s.hil_enabled ∧
      (mag_sample s i f g).1.publishing = s.publishing := by
  unfold mag_sample
  cases f with
  | none => simp
  | some r => by_cases h0 : r.timestamp = 0 <;> simp [h0]

theorem baro_sample_flags (s : State) (i : Nat) (f : Option BaroReport) (g : Bool) :
    (baro_sample s i f g).1.hil_enabled = s.hil_enabled ∧
      (baro_sample s i f g).1.publishing = s.publishing := by
  unfold baro_sample
  cases f with
  | none => simp
  | some r => by_cases h0 : r.timestamp = 0 <;> simp [h0]

theorem gyro_poll_flags (best : Election) (now : Nat) (fresh : Nat → Option InertialReport)
    (s : State) (raw : SensorCombined) :
    (gyro_poll best now fresh s raw).1.hil_enabled = s.hil_enabled ∧
      (gyro_poll best now fresh s raw).1.publishing = s.publishing := by
  have hc : ((gyro_collect fresh s).1.hil_enabled, (gyro_collect fresh s).1.publishing)
      = (s.hil_enabled, s.publishing) := by
    unfold gyro_collect
    apply foldl_proj_eq _ (fun a : State × Bool => (a.1.hil_enabled, a.1.publishing))
    intro a b
    simp [gyro_sample_flags]
  simp only [Prod.mk.injEq] at hc
  unfold gyro_poll
  simp only
  split_ifs <;> exact hc

theorem accel_poll_flags (best : Election) (now : Nat) (fresh : Nat → Option InertialReport)
    (s : State) (raw : SensorCombined) :
    (accel_poll best now fresh s raw).1.hil_enabled = s.hil_enabled ∧
      (accel_poll best now fresh s raw).1.publishing = s.publishing := by
  have hc : ((accel_collect fresh s).1.hil_enabled, (accel_collect fresh s).1.publishing)
      = (s.hil_enabled, s.publishing) := by
    unfold accel_collect
    apply foldl_proj_eq _ (fun a : State × Bool => (a.1.hil_enabled, a.1.publishing))
    intro a b
    simp [accel_sample_flags]
  simp only [Prod.mk.injEq] at hc
  unfold accel_poll
  simp only
  split_ifs <;> exact hc

theorem mag_poll_flags (best : Election) (now : Nat) (fresh : Nat → Option MagReport)
    (s : State) (raw : SensorCombined) :
    (mag_poll best now fresh s raw).1.hil_enabled = s.hil_enabled ∧
      (mag_poll best now fresh s raw).1.publishing = s.publishing := by
  have hc : ((mag_collect fresh s).1.hil_enabled, (mag_collect fresh s).1.publishing)
      = (s.hil_enabled, s.publishing) := by
    unfold mag_collect
    apply foldl_proj_eq _ (fun a : State × Bool => (a.1.hil_enabled, a.1.publishing))
    intro a b
    simp [mag_sample_flags]
  simp only [Prod.mk.injEq] at hc
  unfold mag_poll
  simp only
  split_ifs <;> exact hc

theorem baro_poll_flags (best : Election) (now : Nat) (fresh : Nat → Option BaroReport)
    (s : State) (raw : SensorCombined) :
    (baro_poll best now fresh s raw).1.hil_enabled = s.hil_enabled ∧
      (baro_poll best now fresh s raw).1.publishing = s.publishing := by
  have hc : ((baro_collect fresh s).1.hil_enabled, (baro_collect fresh s).1.publishing)
      = (s.hil_enabled, s.publishing) := by
    unfold baro_collect
    apply foldl_proj_eq _ (fun a : State × Bool => (a.1.hil_enabled, a.1.publishing))
    intro a b
    simp [baro_sample_flags]
  simp only [Prod.mk.injEq] at hc
  unfold baro_poll
  simp only
  split_ifs <;> exact hc

theorem poll_classes_flags (inp : PollInput) (s : State) (raw : SensorCombined) :
    (poll_classes inp s raw).1.hil_enabled = s.hil_enabled ∧
      (poll_classes inp s raw).1.publishing = s.publishing := by
  unfold poll_classes
  simp only [baro_poll_flags, mag_poll_flags, accel_poll_flags, gyro_poll_flags, and_self]

theorem parameter_update_poll_flags (env : Env) (u f : Bool) (s : State) (ps : ParamStore) :
    (parameter_update_poll env u f s ps).state.hil_enabled = s.hil_enabled ∧
      (parameter_update_poll env u f s ps).state.publishing = s.publishing := by
  unfold parameter_update_poll parameters_update
  split_ifs
  · cases env.update_parameters <;> simp
  · simp

/-- The power monitor leaves the HIL flags alone. -/
theorem adc_poll_flags (board : BoardConfig) (p : Parameters) (t : Nat) (adc : List AdcMsg)
    (throttle : Rat) (s : State) (a : AirData) :
    (adc_poll board p t adc throttle s a).1.hil_enabled = s.hil_enabled ∧
      (adc_poll board p t adc throttle s a).1.publishing = s.publishing := by
  unfold adc_poll
  split_ifs
  · exact ⟨rfl, rfl⟩
  · cases adc with
    | nil => exact ⟨rfl, rfl⟩
    | cons first more => exact ⟨rfl, rfl⟩
  · exact ⟨rfl, rfl⟩

/-- In every reachable state HIL mode excludes publishing. -/
theorem reachable_hil_not_publishing (s : State) (h : Reachable s) :
    s.hil_enabled = true → s.publishing = false := by
  induction h with
  | ctor b jp jq => simp [State.ctor]
  | control_mode s fresh _ ih =>
    unfold vehicle_control_mode_poll
    cases fresh with
    | none => simpa using ih
    | some m =>
      simp only
      split_ifs with h1 h2
      · simp
      · simp
      · simpa using ih
  | polls s inp raw _ ih =>
    rw [(poll_classes_flags inp s raw).1, (poll_classes_flags inp s raw).2]
    exact ih
  | param_update s env u f ps _ ih =>
    rw [(parameter_update_poll_flags env u f s ps).1, (parameter_update_poll_flags env u f s ps).2]
    exact ih
  | adc s board p t adc throttle a _ ih =>
    rw [(adc_poll_flags board p t adc throttle s a).1,
      (adc_poll_flags board p t adc throttle s a).2]
    exact ih
  | init_gyro s bus _ ih => exact ih
  | init_mag s bus _ ih => exact ih
  | init_accel s bus _ ih => exact ih
  | init_baro s bus _ ih => exact ih
  | failover s view m _ ih => exact ih

/-! ## HIL mode and the armed flag -/

/-- C4: in every reachable state `_hil_enabled` implies `_publishing = false`, so the publish
block of the main loop publishes nothing in HIL mode; and the publish block publishes a
snapshot only when `_publishing` is true and `raw.timestamp > 0`. -/
theorem C4_hil_no_publication (s : State) (h : Reachable s) :
    (s.hil_enabled = true → s.publishing = false) ∧
    (∀ raw, s.hil_enabled = true → (publish_snapshot s raw).2 = none) ∧
    (∀ raw, (publish_snapshot s raw).2 ≠ none ↔ (s.publishing = true ∧ 0 < raw.timestamp)) := by
  have hinv := reachable_hil_not_publishing s h
  refine ⟨hinv, ?_, ?_⟩
  · intro raw hh
    simp [publish_snapshot, hinv hh]
  · intro raw
    unfold publish_snapshot
    by_cases hp : s.publishing = true <;> by_cases ht : 0 < raw.timestamp <;> simp [hp, ht]

/-- C4 witness: the state after the constructor and one control-mode update with the HIL flag
set is reachable and in HIL mode; the theorem applies to it. -/
theorem C4_hil_no_publication_witness :
    Reachable (vehicle_control_mode_poll
        (State.ctor Mat3.identity (fun _ => 0) (fun _ => 0)) (some ⟨true, false⟩)) ∧
    (vehicle_control_mode_poll
        (State.ctor Mat3.identity (fun _ => 0) (fun _ => 0)) (some ⟨true, false⟩)).hil_enabled
      = true ∧
    (vehicle_control_mode_poll
        (State.ctor Mat3.identity (fun _ => 0) (fun _ => 0)) (some ⟨true, false⟩)).publishing
      = false :=
  ⟨Reachable.control_mode _ _ (Reachable.ctor _ _ _), rfl,
   (C4_hil_no_publication _ (Reachable.control_mode _ _ (Reachable.ctor _ _ _))).1 rfl⟩

/-- C5 (code behaviour): once `_hil_enabled` is true, a control-mode update with
`flag_system_hil_enabled = false` changes nothing: `_publishing` stays false and
`_hil_enabled` stays true, so publishing does not resume when HIL clears. -/
theorem C5_hil_clear_does_not_resume (s : State) (armed : Bool) :
    vehicle_control_mode_poll { s with hil_enabled := true, publishing := false }
        (some ⟨false, armed⟩)
      = { s with hil_enabled := true, publishing := false } ∧
    (vehicle_control_mode_poll { s with hil_enabled := true, publishing := false }
        (some ⟨false, armed⟩)).publishing = false ∧
    (vehicle_control_mode_poll { s with hil_enabled := true, publishing := false }
        (some ⟨false, armed⟩)).hil_enabled = true := by
  simp [vehicle_control_mode_poll]

/-- C6 (code behaviour): outside the two HIL transitions the armed flag is not copied. From
the constructed state (not HIL, publishing, disarmed) an update with `flag_armed = true` and
the HIL flag clear leaves `_armed = false`; in general a publishing state ignores every update
whose HIL flag is clear. -/
theorem C6_armed_not_tracked :
    (vehicle_control_mode_poll (State.ctor Mat3.identity (fun _ => 0) (fun _ => 0))
        (some ⟨false, true⟩)).armed = false ∧
    (∀ (s : State) (armed : Bool),
      (vehicle_control_mode_poll { s with publishing := true } (some ⟨false, armed⟩)).armed
        = s.armed) := by
  constructor
  · simp [vehicle_control_mode_poll, State.ctor]
  · intro s armed
    simp [vehicle_control_mode_poll]

/-! ## Elections without a viable instance, and skipped samples -/

/-- A loop whose every step leaves the accumulator alone ends where it started. -/
theorem foldl_fixed {α β : Type} (f : α → β → α) (a : α) (h : ∀ b, f a b = a) (l : List β) :
    l.foldl f a = a := by
  induction l with
  | nil => rfl
  | cons b t ih => simp [List.foldl, h, ih]

theorem gyro_collect_vote (fresh : Nat → Option InertialReport) (s : State) :
    (gyro_collect fresh s).1.gyro.last_best_vote = s.gyro.last_best_vote := by
  unfold gyro_collect
  apply foldl_proj_eq _ (fun a : State × Bool => a.1.gyro.last_best_vote)
  intro a i
  unfold gyro_sample
  cases fresh i with
  | none => simp
  | some r =>
    by_cases h0 : r.timestamp = 0 <;> by_cases h1 : r.integral_dt = 0 <;>
      simp [h0, h1, SensorData.call]

theorem accel_collect_vote (fresh : Nat → Option InertialReport) (s : State) :
    (accel_collect fresh s).1.accel.last_best_vote = s.accel.last_best_vote := by
  unfold accel_collect
  apply foldl_proj_eq _ (fun a : State × Bool => a.1.accel.last_best_vote)
  intro a i
  unfold accel_sample
  cases fresh i with
  | none => simp
  | some r =>
    by_cases h0 : r.timestamp = 0 <;> by_cases h1 : r.integral_dt = 0 <;>
      simp [h0, h1, SensorData.call]

theorem mag_collect_vote (fresh : Nat → Option MagReport) (s : State) :
    (mag_collect fresh s).1.mag.last_best_vote = s.mag.last_best_vote := by
  unfold mag_collect
  apply foldl_proj_eq _ (fun a : State × Bool => a.1.mag.last_best_vote)
  intro a i
  unfold mag_sample
  cases fresh i with
  | none => simp
  | some r => by_cases h0 : r.timestamp = 0 <;> simp [h0, SensorData.call]

theorem baro_collect_vote (fresh : Nat → Option BaroReport) (s : State) :
    (baro_collect fresh s).1.baro.last_best_vote = s.baro.last_best_vote ∧
      (baro_collect fresh s).1.last_best_baro_pressure = s.last_best_baro_pressure := by
  have h : ((baro_collect fresh s).1.baro.last_best_vote,
      (baro_collect fresh s).1.last_best_baro_pressure)
      = (s.baro.last_best_vote, s.last_best_baro_pressure) := by
    unfold baro_collect
    apply foldl_proj_eq _
      (fun a : State × Bool => (a.1.baro.last_best_vote, a.1.last_best_baro_pressure))
    intro a i
    unfold baro_sample
    cases fresh i with
    | none => simp
    | some r => by_cases h0 : r.timestamp = 0 <;> simp [h0, SensorData.call]
  simp only [Prod.mk.injEq] at h
  exact h

/-- The gyro poller writes only the gyro fields and the timestamp of the snapshot. -/
theorem gyro_poll_owns (best : Election) (now : Nat) (fresh : Nat → Option InertialReport)
    (s : State) (raw : SensorCombined) :
    (gyro_poll best now fresh s raw).2 =
      { raw with
          gyro_rad := (gyro_poll best now fresh s raw).2.gyro_rad
          gyro_integral_dt := (gyro_poll best now fresh s raw).2.gyro_integral_dt
          timestamp := (gyro_poll best now fresh s raw).2.timestamp } := by
  unfold gyro_poll
  simp only
  split_ifs <;> rfl

/-- The accel poller writes only the accel fields of the snapshot. -/
theorem accel_poll_owns (best : Election) (now : Nat) (fresh : Nat → Option InertialReport)
    (s : State) (raw : SensorCombined) :
    (accel_poll best now fresh s raw).2 =
      { raw with
          accelerometer_m_s2 := (accel_poll best now fresh s raw).2.accelerometer_m_s2
          accelerometer_integral_dt :=
            (accel_poll best now fresh s raw).2.accelerometer_integral_dt } := by
  unfold accel_poll
  simp only
  split_ifs <;> rfl

/-- The mag poller writes only the mag field of the snapshot. -/
theorem mag_poll_owns (best : Election) (now : Nat) (fresh : Nat → Option MagReport)
    (s : State) (raw : SensorCombined) :
    (mag_poll best now fresh s raw).2 =
      { raw with magnetometer_ga := (mag_poll best now fresh s raw).2.magnetometer_ga } := by
  unfold mag_poll
  simp only
  split_ifs <;> rfl

/-- The baro poller writes only the baro fields of the snapshot. -/
theorem baro_poll_owns (best : Election) (now : Nat) (fresh : Nat → Option BaroReport)
    (s : State) (raw : SensorCombined) :
    (baro_poll best now fresh s raw).2 =
      { raw with
          baro_alt_meter := (baro_poll best now fresh s raw).2.baro_alt_meter
          baro_temp_celcius := (baro_poll best now fresh s raw).2.baro_temp_celcius } := by
  unfold baro_poll
  simp only
  split_ifs <;> rfl

/-- C7: for each of the four pollers, when `get_best` returns a negative index the snapshot
is returned unchanged and `last_best_vote` (for baro also `_last_best_baro_pressure`) keeps
its value; and in the pass over the four classes every poller runs: each class's fields in
the final snapshot are those its own poller produced, whatever the other elections returned. -/
theorem C7_negative_election_keeps_snapshot :
    (∀ (best : Election) (now : Nat) (fresh : Nat → Option InertialReport) (s : State)
        (raw : SensorCombined),
      best ((gyro_collect fresh s).1.gyro.voter ++ [VoterCall.get_best now]) < 0 →
        (gyro_poll best now fresh s raw).2 = raw ∧
        (gyro_poll best now fresh s raw).1.gyro.last_best_vote = s.gyro.last_best_vote) ∧
    (∀ (best : Election) (now : Nat) (fresh : Nat → Option InertialReport) (s : State)
        (raw : SensorCombined),
      best ((accel_collect fresh s).1.accel.voter ++ [VoterCall.get_best now]) < 0 →
        (accel_poll best now fresh s raw).2 = raw ∧
        (accel_poll best now fresh s raw).1.accel.last_best_vote = s.accel.last_best_vote) ∧
    (∀ (best : Election) (now : Nat) (fresh : Nat → Option MagReport) (s : State)
        (raw : SensorCombined),
      best ((mag_collect fresh s).1.mag.voter ++ [VoterCall.get_best now]) < 0 →
        (mag_poll best now fresh s raw).2 = raw ∧
        (mag_poll best now fresh s raw).1.mag.last_best_vote = s.mag.last_best_vote) ∧
    (∀ (best : Election) (now : Nat) (fresh : Nat → Option BaroReport) (s : State)
        (raw : SensorCombined),
      best ((baro_collect fresh s).1.baro.voter ++ [VoterCall.get_best now]) < 0 →
        (baro_poll best now fresh s raw).2 = raw ∧
        (baro_poll best now fresh s raw).1.baro.last_best_vote = s.baro.last_best_vote ∧
        (baro_poll best now fresh s raw).1.last_best_baro_pressure
          = s.last_best_baro_pressure) ∧
    (∀ (inp : PollInput) (s : State) (raw : SensorCombined) (g a m : State × SensorCombined),
      g = gyro_poll inp.gyro_best inp.gyro_now inp.gyro_fresh s raw →
      a = accel_poll inp.accel_best inp.accel_now inp.accel_fresh g.1 g.2 →
      m = mag_poll inp.mag_best inp.mag_now inp.mag_fresh a.1 a.2 →
        (poll_classes inp s raw).2.gyro_rad = g.2.gyro_rad ∧
        (poll_classes inp s raw).2.gyro_integral_dt = g.2.gyro_integral_dt ∧
        (poll_classes inp s raw).2.timestamp = g.2.timestamp ∧
        (poll_classes inp s raw).2.accelerometer_m_s2 = a.2.accelerometer_m_s2 ∧
        (poll_classes inp s raw).2.accelerometer_integral_dt = a.2.accelerometer_integral_dt ∧
        (poll_classes inp s raw).2.magnetometer_ga = m.2.magnetometer_ga ∧
        (poll_classes inp s raw).2.baro_alt_meter
          = (baro_poll inp.baro_best inp.baro_now inp.baro_fresh m.1 m.2).2.baro_alt_meter ∧
        (poll_classes inp s raw).2.baro_temp_celcius
          = (baro_poll inp.baro_best inp.baro_now inp.baro_fresh m.1 m.2).2.baro_temp_celcius) := by
  refine ⟨?_, ?_, ?_, ?_, ?_⟩
  · intro best now fresh s raw hneg
    have hv := gyro_collect_vote fresh s
    unfold gyro_poll
    simp only [SensorData.call]
    split_ifs with hg hb
    · omega
    · exact ⟨rfl, hv⟩
    · exact ⟨rfl, hv⟩
  · intro best now fresh s raw hneg
    have hv := accel_collect_vote fresh s
    unfold accel_poll
    simp only [SensorData.call]
    split_ifs with hg hb
    · omega
    · exact ⟨rfl, hv⟩
    · exact ⟨rfl, hv⟩
  · intro best now fresh s raw hneg
    have hv := mag_collect_vote fresh s
    unfold mag_poll
    simp only [SensorData.call]
    split_ifs with hg hb
    · omega
    · exact ⟨rfl, hv⟩
    · exact ⟨rfl, hv⟩
  · intro best now fresh s raw hneg
    have hv := baro_collect_vote fresh s
    unfold baro_poll
    simp only [SensorData.call]
    split_ifs with hg hb
    · omega
    · exact ⟨rfl, hv.1, hv.2⟩
    · exact ⟨rfl, hv.1, hv.2⟩
  · intro inp s raw g a m hg ha hm
    have hb := baro_poll_owns inp.baro_best inp.baro_now inp.baro_fresh m.1 m.2
    have hm2 := mag_poll_owns inp.mag_best inp.mag_now inp.mag_fresh a.1 a.2
    have ha2 := accel_poll_owns inp.accel_best inp.accel_now inp.accel_fresh g.1 g.2
    rw [← hm] at hm2
    rw [← ha] at ha2
    have hp : poll_classes inp s raw
        = baro_poll inp.baro_best inp.baro_now inp.baro_fresh m.1 m.2 := by
      unfold poll_classes
      simp only [hg, ha, hm]
    rw [hp]
    refine ⟨?_, ?_, ?_, ?_, ?_, ?_, rfl, rfl⟩
    · rw [hb, hm2, ha2]
    · rw [hb, hm2, ha2]
    · rw [hb, hm2, ha2]
    · rw [hb, hm2]
    · rw [hb, hm2]
    · rw [hb]

/-- C7 instance: with one gyro sample and a gyro voter that finds no viable instance, the gyro
poller returns the snapshot unchanged and keeps `last_best_vote`; in the same pass the accel
poller still runs and its fields reach the final snapshot: the accel vector is (1, 2, 3)
while the gyro vector is still (0, 0, 0), and the gyro voter did receive the sample and the
`get_best` call. -/
theorem C7_negative_election_keeps_snapshot_witness :
    (gyro_poll (fun _ => -1) 5001 (fun _ => some plain_report) one_instance_state
        SensorCombined.zero).2 = SensorCombined.zero ∧
    (gyro_poll (fun _ => -1) 5001 (fun _ => some plain_report) one_instance_state
        SensorCombined.zero).1.gyro.last_best_vote = one_instance_state.gyro.last_best_vote ∧
    (baro_poll (fun _ => -1) 5001 (fun _ => some plain_baro_report) one_instance_state
        SensorCombined.zero).1.last_best_baro_pressure
      = one_instance_state.last_best_baro_pressure ∧
    (poll_classes gyro_blind_input one_instance_state SensorCombined.zero).2.accelerometer_m_s2
      = (accel_poll (fun _ => 0) 5002 (fun _ => some plain_report)
          (gyro_poll (fun _ => -1) 5001 (fun _ => some plain_report) one_instance_state
            SensorCombined.zero).1
          (gyro_poll (fun _ => -1) 5001 (fun _ => some plain_report) one_instance_state
            SensorCombined.zero).2).2.accelerometer_m_s2 ∧
    (poll_classes gyro_blind_input one_instance_state SensorCombined.zero).2.accelerometer_m_s2
      = ⟨1, 2, 3⟩ ∧
    (poll_classes gyro_blind_input one_instance_state SensorCombined.zero).2.gyro_rad
      = ⟨0, 0, 0⟩ ∧
    (poll_classes gyro_blind_input one_instance_state SensorCombined.zero).1.gyro.voter
      = [VoterCall.put 0 5000 ⟨1, 2, 3⟩ 0 0, VoterCall.get_best 5001] :=
  ⟨(C7_negative_election_keeps_snapshot.1 (fun _ => -1) 5001 (fun _ => some plain_report)
      one_instance_state SensorCombined.zero (by decide)).1,
   (C7_negative_election_keeps_snapshot.1 (fun _ => -1) 5001 (fun _ => some plain_report)
      one_instance_state SensorCombined.zero (by decide)).2,
   (C7_negative_election_keeps_snapshot.2.2.2.1 (fun _ => -1) 5001
      (fun _ => some plain_baro_report) one_instance_state SensorCombined.zero (by decide)).2.2,
   (C7_negative_election_keeps_snapshot.2.2.2.2 gyro_blind_input one_instance_state
      SensorCombined.zero _ _ _ rfl rfl rfl).2.2.2.1,
   by
    simp [poll_classes, gyro_blind_input, gyro_poll, accel_poll, mag_poll, baro_poll,
      gyro_collect, accel_collect, mag_collect, baro_collect, gyro_sample, accel_sample,
      mag_sample, baro_sample, one_instance_state, State.ctor, SensorData.ctor,
      SensorData.call, plain_report, plain_mag_report, plain_baro_report, upd, List.range,
      List.range.loop, Mat3.mulVec, Vec3.dot, Mat3.identity, SensorCombined.zero]⟩

/-- C8: in each poller a fresh sample with timestamp 0 is skipped, leaving the whole state
(cached data, stored timestamps, voter history) and `got_update` as they were; and a poll in
which every delivered sample has timestamp 0 leaves state and snapshot unchanged, with no
call on the voter (no `put`, no `get_best`). -/
theorem C8_zero_timestamp_skipped :
    (∀ (s : State) (i : Nat) (r : InertialReport) (got_update : Bool), r.timestamp = 0 →
      gyro_sample s i (some r) got_update = (s, got_update)) ∧
    (∀ (s : State) (i : Nat) (r : InertialReport) (got_update : Bool), r.timestamp = 0 →
      accel_sample s i (some r) got_update = (s, got_update)) ∧
    (∀ (s : State) (i : Nat) (r : MagReport) (got_update : Bool), r.timestamp = 0 →
      mag_sample s i (some r) got_update = (s, got_update)) ∧
    (∀ (s : State) (i : Nat) (r : BaroReport) (got_update : Bool), r.timestamp = 0 →
      baro_sample s i (some r) got_update = (s, got_update)) ∧
    (∀ (best : Election) (now : Nat) (fresh : Nat → Option InertialReport) (s : State)
        (raw : SensorCombined), (∀ i r, fresh i = some r → r.timestamp = 0) →
      gyro_poll best now fresh s raw = (s, raw)) ∧
    (∀ (best : Election) (now : Nat) (fresh : Nat → Option InertialReport) (s : State)
        (raw : SensorCombined), (∀ i r, fresh i = some r → r.timestamp = 0) →
      accel_poll best now fresh s raw = (s, raw)) ∧
    (∀ (best : Election) (now : Nat) (fresh : Nat → Option MagReport) (s : State)
        (raw : SensorCombined), (∀ i r, fresh i = some r → r.timestamp = 0) →
      mag_poll best now fresh s raw = (s, raw)) ∧
    (∀ (best : Election) (now : Nat) (fresh : Nat → Option BaroReport) (s : State)
        (raw : SensorCombined), (∀ i r, fresh i = some r → r.timestamp = 0) →
      baro_poll best now fresh s raw = (s, raw)) := by
  refine ⟨?_, ?_, ?_, ?_, ?_, ?_, ?_, ?_⟩
  · intro s i r g h
    simp [gyro_sample, h]
  · intro s i r g h
    simp [accel_sample, h]
  · intro s i r g h
    simp [mag_sample, h]
  · intro s i r g h
    simp [baro_sample, h]
  · intro best now fresh s raw h
    have hc : gyro_collect fresh s = (s, false) := by
      unfold gyro_collect
      apply foldl_fixed
      intro i
      cases hf : fresh i with
      | none => simp [gyro_sample]
      | some r => simp [gyro_sample, h i r hf]
    simp [gyro_poll, hc]
  · intro best now fresh s raw h
    have hc : accel_collect fresh s = (s, false) := by
      unfold accel_collect
      apply foldl_fixed
      intro i
      cases hf : fresh i with
      | none => simp [accel_sample]
      | some r => simp [accel_sample, h i r hf]
    simp [accel_poll, hc]
  · intro best now fresh s raw h
    have hc : mag_collect fresh s = (s, false) := by
      unfold mag_collect
      apply foldl_fixed
      intro i
      cases hf : fresh i with
      | none => simp [mag_sample]
      | some r => simp [mag_sample, h i r hf]
    simp [mag_poll, hc]
  · intro best now fresh s raw h
    have hc : baro_collect fresh s = (s, false) := by
      unfold baro_collect
      apply foldl_fixed
      intro i
      cases hf : fresh i with
      | none => simp [baro_sample]
      | some r => simp [baro_sample, h i r hf]
    simp [baro_poll, hc]

/-- C8 instance: a gyro sample with timestamp 0 delivered to the only subscribed instance
leaves the state and the snapshot untouched. -/
theorem C8_zero_timestamp_skipped_witness :
    gyro_sample one_instance_state 0 (some zero_stamp_report) false
      = (one_instance_state, false) ∧
    gyro_poll (fun _ => 0) 5001 (fun _ => some zero_stamp_report) one_instance_state
      SensorCombined.zero = (one_instance_state, SensorCombined.zero) :=
  ⟨C8_zero_timestamp_skipped.1 one_instance_state 0 zero_stamp_report false rfl,
   C8_zero_timestamp_skipped.2.2.2.2.1 (fun _ => 0) 5001 (fun _ => some zero_stamp_report)
     one_instance_state SensorCombined.zero
     (by intro i r h; cases h; rfl)⟩

/-! ## Integration interval and rotation of accepted samples -/

theorem u64sub_bootstrap (t : Nat) : u64sub t (u64sub t 1000) = 1000 := by
  unfold u64sub
  omega

theorem u64sub_self (t : Nat) : u64sub t t = 0 := by
  unfold u64sub
  omega

theorem u64sub_pos (a b : Nat) (ha : a < 2 ^ 64) (hb : b < 2 ^ 64) (h : a ≠ b) :
    0 < u64sub a b := by
  unfold u64sub
  omega

theorem u64sub_of_le (a b : Nat) (ha : a < 2 ^ 64) (h : b ≤ a) : u64sub a b = a - b := by
  unfold u64sub
  omega

/-- The interval the gyro loop stores for an accepted sample without integral. -/
theorem gyro_sample_dt_plain (s : State) (i : Nat) (r : InertialReport) (got : Bool)
    (hts : r.timestamp ≠ 0) (h0 : r.integral_dt = 0) :
    ((gyro_sample s i (some r) got).1.last_sensor_data i).gyro_integral_dt =
      (u64sub r.timestamp (if (s.last_sensor_data i).timestamp = 0 then u64sub r.timestamp 1000
          else (s.last_sensor_data i).timestamp) : Rat) / 1000000 := by
  simp [gyro_sample, hts, h0, upd]

/-- The interval the accel loop stores for an accepted sample without integral. -/
theorem accel_sample_dt_plain (s : State) (i : Nat) (r : InertialReport) (got : Bool)
    (hts : r.timestamp ≠ 0) (h0 : r.integral_dt = 0) :
    ((accel_sample s i (some r) got).1.last_sensor_data i).accelerometer_integral_dt =
      (u64sub r.timestamp (if s.last_accel_timestamp i = 0 then u64sub r.timestamp 1000
          else s.last_accel_timestamp i) : Rat) / 1000000 := by
  simp [accel_sample, hts, h0, upd]

/-- Sign and value of a plain interval `u64sub t (bootstrapped p) / 10^6`. -/
theorem plain_dt_facts (t p : Nat) (ht : t < 2 ^ 64) (hp : p < 2 ^ 64) (ht0 : t ≠ 0) :
    (0 : Rat) ≤ (u64sub t (if p = 0 then u64sub t 1000 else p) : Rat) / 1000000 ∧
    (p = 0 → (u64sub t (if p = 0 then u64sub t 1000 else p) : Rat) / 1000000 = 1 / 1000) ∧
    (p ≠ 0 → p ≤ t → (u64sub t (if p = 0 then u64sub t 1000 else p) : Rat) / 1000000
        = ((t - p : Nat) : Rat) / 1000000) ∧
    (t ≠ p → (0 : Rat) < (u64sub t (if p = 0 then u64sub t 1000 else p) : Rat) / 1000000) ∧
    (t = p → (u64sub t (if p = 0 then u64sub t 1000 else p) : Rat) / 1000000 = 0) := by
  refine ⟨by positivity, ?_, ?_, ?_, ?_⟩
  · intro h
    rw [if_pos h, u64sub_bootstrap]
    norm_num
  · intro h hle
    rw [if_neg h, u64sub_of_le t p ht hle]
  · intro hne
    by_cases h : p = 0
    · rw [if_pos h, u64sub_bootstrap]
      norm_num
    · rw [if_neg h]
      have := u64sub_pos t p ht hp hne
      have h2 : (0 : Rat) < (u64sub t p : Rat) := by exact_mod_cast this
      positivity
  · intro he
    have hp0 : p ≠ 0 := by omega
    rw [if_neg hp0, ← he, u64sub_self]
    norm_num

/-- C9 (counterexample): two accepted gyro (and accel) samples of one instance that carry the
same nonzero timestamp 5000 and no integral: the second one stores the interval 0, which is
not positive; with instance 0 elected, `gyro_poll` writes that 0 into the snapshot. -/
theorem C9_repeated_timestamp_zero_interval :
    ((gyro_sample (gyro_sample one_instance_state 0 (some plain_report) false).1 0
        (some plain_report) false).1.last_sensor_data 0).gyro_integral_dt = 0 ∧
    ((accel_sample (accel_sample one_instance_state 0 (some plain_report) false).1 0
        (some plain_report) false).1.last_sensor_data 0).accelerometer_integral_dt = 0 ∧
    ¬ (0 < (gyro_poll (fun _ => 0) 5002 (fun _ => some plain_report)
        (gyro_poll (fun _ => 0) 5001 (fun _ => some plain_report) one_instance_state
          SensorCombined.zero).1 SensorCombined.zero).2.gyro_integral_dt) := by
  refine ⟨?_, ?_, ?_⟩
  · simp [gyro_sample, plain_report, upd, one_instance_state, State.ctor, u64sub,
      SensorCombined.zero]
  · simp [accel_sample, plain_report, upd, one_instance_state, State.ctor, u64sub,
      SensorCombined.zero]
  · simp [gyro_poll, gyro_collect, gyro_sample, plain_report, upd, one_instance_state,
      State.ctor, SensorData.ctor, SensorData.call, u64sub, SensorCombined.zero, List.range,
      List.range.loop]

/-- C9 (amended): for an accepted sample (nonzero timestamp) of gyro or accel instance `i`,
the interval stored is `integral_dt / 10^6`, positive, when `integral_dt` is nonzero; else it
is the wrapping difference between the timestamp and the previous timestamp of the instance
(a previous timestamp 0 being replaced by `timestamp - 1000`) divided by `10^6`: it is never
negative, equals `(timestamp - previous) / 10^6` when the previous timestamp is nonzero and
not later, is `1/1000` for a first sample, is positive whenever the timestamp differs from
the previous one, and is 0 when the timestamp repeats the previous one. -/
theorem C9_integration_interval (s : State) (i : Nat) (r : InertialReport) (got : Bool)
    (hts : r.timestamp ≠ 0) (hr : r.timestamp < 2 ^ 64)
    (hg : (s.last_sensor_data i).timestamp < 2 ^ 64) (ha : s.last_accel_timestamp i < 2 ^ 64) :
    (r.integral_dt ≠ 0 →
      ((gyro_sample s i (some r) got).1.last_sensor_data i).gyro_integral_dt
        = (r.integral_dt : Rat) / 1000000 ∧
      0 < ((gyro_sample s i (some r) got).1.last_sensor_data i).gyro_integral_dt ∧
      ((accel_sample s i (some r) got).1.last_sensor_data i).accelerometer_integral_dt
        = (r.integral_dt : Rat) / 1000000 ∧
      0 < ((accel_sample s i (some r) got).1.last_sensor_data i).accelerometer_integral_dt) ∧
    (r.integral_dt = 0 →
      (((gyro_sample s i (some r) got).1.last_sensor_data i).gyro_integral_dt
        = (u64sub r.timestamp (if (s.last_sensor_data i).timestamp = 0
              then u64sub r.timestamp 1000 else (s.last_sensor_data i).timestamp) : Rat)
            / 1000000 ∧
       0 ≤ ((gyro_sample s i (some r) got).1.last_sensor_data i).gyro_integral_dt ∧
       ((s.last_sensor_data i).timestamp = 0 →
          ((gyro_sample s i (some r) got).1.last_sensor_data i).gyro_integral_dt = 1 / 1000) ∧
       ((s.last_sensor_data i).timestamp ≠ 0 → (s.last_sensor_data i).timestamp ≤ r.timestamp →
          ((gyro_sample s i (some r) got).1.last_sensor_data i).gyro_integral_dt
            = ((r.timestamp - (s.last_sensor_data i).timestamp : Nat) : Rat) / 1000000) ∧
       (r.timestamp ≠ (s.last_sensor_data i).timestamp →
          0 < ((gyro_sample s i (some r) got).1.last_sensor_data i).gyro_integral_dt) ∧
       (r.timestamp = (s.last_sensor_data i).timestamp →
          ((gyro_sample s i (some r) got).1.last_sensor_data i).gyro_integral_dt = 0)) ∧
      (((accel_sample s i (some r) got).1.last_sensor_data i).accelerometer_integral_dt
        = (u64sub r.timestamp (if s.last_accel_timestamp i = 0
              then u64sub r.timestamp 1000 else s.last_accel_timestamp i) : Rat) / 1000000 ∧
       0 ≤ ((accel_sample s i (some r) got).1.last_sensor_data i).accelerometer_integral_dt ∧
       (s.last_accel_timestamp i = 0 →
          ((accel_sample s i (some r) got).1.last_sensor_data i).accelerometer_integral_dt
            = 1 / 1000) ∧
       (s.last_accel_timestamp i ≠ 0 → s.last_accel_timestamp i ≤ r.timestamp →
          ((accel_sample s i (some r) got).1.last_sensor_data i).accelerometer_integral_dt
            = ((r.timestamp - s.last_accel_timestamp i : Nat) : Rat) / 1000000) ∧
       (r.timestamp ≠ s.last_accel_timestamp i →
          0 < ((accel_sample s i (some r) got).1.last_sensor_data i).accelerometer_integral_dt) ∧
       (r.timestamp = s.last_accel_timestamp i →
          ((accel_sample s i (some r) got).1.last_sensor_data i).accelerometer_integral_dt
            = 0))) := by
  constructor
  · intro hdt
    have hpos : (0 : Rat) < (r.integral_dt : Rat) / 1000000 := by
      have : (0 : Rat) < (r.integral_dt : Rat) := by
        exact_mod_cast Nat.pos_of_ne_zero hdt
      positivity
    have hgd : ((gyro_sample s i (some r) got).1.last_sensor_data i).gyro_integral_dt
        = (r.integral_dt : Rat) / 1000000 := by
      simp [gyro_sample, hts, hdt, upd]
    have had : ((accel_sample s i (some r) got).1.last_sensor_data i).accelerometer_integral_dt
        = (r.integral_dt : Rat) / 1000000 := by
      simp [accel_sample, hts, hdt, upd]
    rw [hgd, had]
    exact ⟨rfl, hpos, rfl, hpos⟩
  · intro h0
    rw [gyro_sample_dt_plain s i r got hts h0, accel_sample_dt_plain s i r got hts h0]
    have fg := plain_dt_facts r.timestamp (s.last_sensor_data i).timestamp hr hg hts
    have fa := plain_dt_facts r.timestamp (s.last_accel_timestamp i) hr ha hts
    exact ⟨⟨rfl, fg.1, fg.2.1, fg.2.2.1, fg.2.2.2.1, fg.2.2.2.2⟩,
      ⟨rfl, fa.1, fa.2.1, fa.2.2.1, fa.2.2.2.1, fa.2.2.2.2⟩⟩

/-- C9 instance: the first plain sample at 5000 us of a fresh instance gets the interval
1/1000 s, and a sample with a 2000 us integral gets 2000/10^6 s, both positive. -/
theorem C9_integration_interval_witness :
    ((gyro_sample one_instance_state 0 (some plain_report) false).1.last_sensor_data
        0).gyro_integral_dt = 1 / 1000 ∧
    0 < ((gyro_sample one_instance_state 0 (some plain_report) false).1.last_sensor_data
        0).gyro_integral_dt ∧
    ((accel_sample one_instance_state 0 (some integral_report) false).1.last_sensor_data
        0).accelerometer_integral_dt = ((2000 : Nat) : Rat) / 1000000 :=
  ⟨((C9_integration_interval one_instance_state 0 plain_report false (by decide) (by decide)
      (by decide) (by decide)).2 rfl).1.2.2.1 rfl,
   ((C9_integration_interval one_instance_state 0 plain_report false (by decide) (by decide)
      (by decide) (by decide)).2 rfl).1.2.2.2.2.1 (by decide),
   ((C9_integration_interval one_instance_state 0 integral_report false (by decide) (by decide)
      (by decide) (by decide)).1 (by decide)).2.2.1⟩

/-- C10: for an accepted gyro or accel sample without integral the vector cached for
instance `i` and handed to the voter is `board_rotation * (x, y, z)`, each component being
the row of the matrix times the raw vector; with an integral it is
`(board_rotation * integral) / dt`, component by component, with `dt = integral_dt / 10^6`;
for an accepted mag sample it is `mag_rotation[i] * (x, y, z)`. -/
theorem C10_rotated_vector (s : State) (i : Nat) (r : InertialReport) (m : MagReport)
    (got : Bool) (hts : r.timestamp ≠ 0) (hm : m.timestamp ≠ 0) :
    (r.integral_dt = 0 →
      ((((gyro_sample s i (some r) got).1.last_sensor_data i).gyro_rad
          = ⟨s.board_rotation.r0.x * r.v.x + s.board_rotation.r0.y * r.v.y
                + s.board_rotation.r0.z * r.v.z,
             s.board_rotation.r1.x * r.v.x + s.board_rotation.r1.y * r.v.y
                + s.board_rotation.r1.z * r.v.z,
             s.board_rotation.r2.x * r.v.x + s.board_rotation.r2.y * r.v.y
                + s.board_rotation.r2.z * r.v.z⟩) ∧
        (gyro_sample s i (some r) got).1.gyro.voter = s.gyro.voter ++
          [VoterCall.put i r.timestamp
            ⟨s.board_rotation.r0.x * r.v.x + s.board_rotation.r0.y * r.v.y
                + s.board_rotation.r0.z * r.v.z,
             s.board_rotation.r1.x * r.v.x + s.board_rotation.r1.y * r.v.y
                + s.board_rotation.r1.z * r.v.z,
             s.board_rotation.r2.x * r.v.x + s.board_rotation.r2.y * r.v.y
                + s.board_rotation.r2.z * r.v.z⟩
            r.error_count (s.gyro.priority i)]) ∧
      ((((accel_sample s i (some r) got).1.last_sensor_data i).accelerometer_m_s2
          = ⟨s.board_rotation.r0.x * r.v.x + s.board_rotation.r0.y * r.v.y
                + s.board_rotation.r0.z * r.v.z,
             s.board_rotation.r1.x * r.v.x + s.board_rotation.r1.y * r.v.y
                + s.board_rotation.r1.z * r.v.z,
             s.board_rotation.r2.x * r.v.x + s.board_rotation.r2.y * r.v.y
                + s.board_rotation.r2.z * r.v.z⟩) ∧
        (accel_sample s i (some r) got).1.accel.voter = s.accel.voter ++
          [VoterCall.put i r.timestamp
            ⟨s.board_rotation.r0.x * r.v.x + s.board_rotation.r0.y * r.v.y
                + s.board_rotation.r0.z * r.v.z,
             s.board_rotation.r1.x * r.v.x + s.board_rotation.r1.y * r.v.y
                + s.board_rotation.r1.z * r.v.z,
             s.board_rotation.r2.x * r.v.x + s.board_rotation.r2.y * r.v.y
                + s.board_rotation.r2.z * r.v.z⟩
            r.error_count (s.accel.priority i)])) ∧
    (r.integral_dt ≠ 0 →
      ((((gyro_sample s i (some r) got).1.last_sensor_data i).gyro_rad
          = ⟨(s.board_rotation.r0.x * r.integral.x + s.board_rotation.r0.y * r.integral.y
                + s.board_rotation.r0.z * r.integral.z) / ((r.integral_dt : Rat) / 1000000),
             (s.board_rotation.r1.x * r.integral.x + s.board_rotation.r1.y * r.integral.y
                + s.board_rotation.r1.z * r.integral.z) / ((r.integral_dt : Rat) / 1000000),
             (s.board_rotation.r2.x * r.integral.x + s.board_rotation.r2.y * r.integral.y
                + s.board_rotation.r2.z * r.integral.z) / ((r.integral_dt : Rat) / 1000000)⟩) ∧
        (gyro_sample s i (some r) got).1.gyro.voter = s.gyro.voter ++
          [VoterCall.put i r.timestamp
            ⟨(s.board_rotation.r0.x * r.integral.x + s.board_rotation.r0.y * r.integral.y
                + s.board_rotation.r0.z * r.integral.z) / ((r.integral_dt : Rat) / 1000000),
             (s.board_rotation.r1.x * r.integral.x + s.board_rotation.r1.y * r.integral.y
                + s.board_rotation.r1.z * r.integral.z) / ((r.integral_dt : Rat) / 1000000),
             (s.board_rotation.r2.x * r.integral.x + s.board_rotation.r2.y * r.integral.y
                + s.board_rotation.r2.z * r.integral.z) / ((r.integral_dt : Rat) / 1000000)⟩
            r.error_count (s.gyro.priority i)]) ∧
      ((((accel_sample s i (some r) got).1.last_sensor_data i).accelerometer_m_s2
          = ⟨(s.board_rotation.r0.x * r.integral.x + s.board_rotation.r0.y * r.integral.y
                + s.board_rotation.r0.z * r.integral.z) / ((r.integral_dt : Rat) / 1000000),
             (s.board_rotation.r1.x * r.integral.x + s.board_rotation.r1.y * r.integral.y
                + s.board_rotation.r1.z * r.integral.z) / ((r.integral_dt : Rat) / 1000000),
             (s.board_rotation.r2.x * r.integral.x + s.board_rotation.r2.y * r.integral.y
                + s.board_rotation.r2.z * r.integral.z) / ((r.integral_dt : Rat) / 1000000)⟩) ∧
        (accel_sample s i (some r) got).1.accel.voter = s.accel.voter ++
          [VoterCall.put i r.timestamp
            ⟨(s.board_rotation.r0.x * r.integral.x + s.board_rotation.r0.y * r.integral.y
                + s.board_rotation.r0.z * r.integral.z) / ((r.integral_dt : Rat) / 1000000),
             (s.board_rotation.r1.x * r.integral.x + s.board_rotation.r1.y * r.integral.y
                + s.board_rotation.r1.z * r.integral.z) / ((r.integral_dt : Rat) / 1000000),
             (s.board_rotation.r2.x * r.integral.x + s.board_rotation.r2.y * r.integral.y
                + s.board_rotation.r2.z * r.integral.z) / ((r.integral_dt : Rat) / 1000000)⟩
            r.error_count (s.accel.priority i)])) ∧
    (((mag_sample s i (some m) got).1.last_sensor_data i).magnetometer_ga
        = ⟨(s.mag_rotation i).r0.x * m.v.x + (s.mag_rotation i).r0.y * m.v.y
              + (s.mag_rotation i).r0.z * m.v.z,
           (s.mag_rotation i).r1.x * m.v.x + (s.mag_rotation i).r1.y * m.v.y
              + (s.mag_rotation i).r1.z * m.v.z,
           (s.mag_rotation i).r2.x * m.v.x + (s.mag_rotation i).r2.y * m.v.y
              + (s.mag_rotation i).r2.z * m.v.z⟩ ∧
      (mag_sample s i (some m) got).1.mag.voter = s.mag.voter ++
        [VoterCall.put i m.timestamp
          ⟨(s.mag_rotation i).r0.x * m.v.x + (s.mag_rotation i).r0.y * m.v.y
              + (s.mag_rotation i).r0.z * m.v.z,
           (s.mag_rotation i).r1.x * m.v.x + (s.mag_rotation i).r1.y * m.v.y
              + (s.mag_rotation i).r1.z * m.v.z,
           (s.mag_rotation i).r2.x * m.v.x + (s.mag_rotation i).r2.y * m.v.y
              + (s.mag_rotation i).r2.z * m.v.z⟩
          m.error_count (s.mag.priority i)]) := by
  refine ⟨?_, ?_, ?_⟩
  · intro h0
    simp [gyro_sample, accel_sample, hts, h0, upd, SensorData.call, Mat3.mulVec, Vec3.dot]
  · intro h1
    simp [gyro_sample, accel_sample, hts, h1, upd, SensorData.call, Mat3.mulVec, Vec3.dot,
      Vec3.divScalar]
  · simp [mag_sample, hm, upd, SensorData.call, Mat3.mulVec, Vec3.dot]

/-- C10 instance: the board is rotated by 90 degrees about z and the mag by 270 degrees. The
plain sample (1, 2, 3) is cached, and handed to the voter, as (-2, 1, 3); the integral
(2, 4, 6) over 2000 us as (-4, 2, 6) / 0.002 = (-2000, 1000, 3000); the mag sample (1, 2, 3)
as (2, -1, 3). -/
theorem C10_rotated_vector_witness :
    ((gyro_sample rotated_state 0 (some plain_report) false).1.last_sensor_data 0).gyro_rad
      = ⟨-2, 1, 3⟩ ∧
    (gyro_sample rotated_state 0 (some plain_report) false).1.gyro.voter
      = [VoterCall.put 0 5000 ⟨-2, 1, 3⟩ 0 (rotated_state.gyro.priority 0)] ∧
    ((accel_sample rotated_state 0 (some integral_report) false).1.last_sensor_data
        0).accelerometer_m_s2 = ⟨-2000, 1000, 3000⟩ ∧
    ((mag_sample rotated_state 0 (some plain_mag_report) false).1.last_sensor_data
        0).magnetometer_ga = ⟨2, -1, 3⟩ := by
  have hp := (C10_rotated_vector rotated_state 0 plain_report plain_mag_report false
    (by decide) (by decide)).1 rfl
  have hi := (C10_rotated_vector rotated_state 0 integral_report plain_mag_report false
    (by decide) (by decide)).2.1 (by decide)
  have hm := (C10_rotated_vector rotated_state 0 plain_report plain_mag_report false
    (by decide) (by decide)).2.2
  refine ⟨?_, ?_, ?_, ?_⟩
  · rw [hp.1.1]
    norm_num [rotated_state, plain_report]
  · rw [hp.1.2]
    norm_num [rotated_state, plain_report, one_instance_state, SensorData.ctor]
  · rw [hi.2.1]
    norm_num [rotated_state, integral_report]
  · rw [hm.1]
    norm_num [rotated_state, plain_mag_report]

/-! ## Calibration records and mag rotation -/

theorem param_set_same (ps : ParamStore) (p : Param) (v x : Int) (h : ps.int32 p = some x) :
    (param_set_no_notification ps p v).int32 p = some v := by
  simp [param_set_no_notification, h]

theorem param_set_other {ps : ParamStore} {p q : Param} {v : Int} (h : q ≠ p) :
    (param_set_no_notification ps p v).int32 q = ps.int32 q := by
  unfold param_set_no_notification
  cases ps.int32 p <;> simp [h]

theorem param_set_float (ps : ParamStore) (p : Param) (v : Int) :
    (param_set_no_notification ps p v).float = ps.float := by
  unfold param_set_no_notification
  cases ps.int32 p <;> rfl

/-- The rotation handling keeps the handle, the diagnostics and `config_ok`, records one
`MAGIOCGEXTERNAL` call, and writes no parameter other than the `ROT` of the record and the
legacy `SENS_EXT_MAG_ROT`. -/
theorem mag_rotation_handling_frame (env : Env) (b : Mat3) (i : Nat) (st : Scan) :
    (mag_rotation_handling env b i st).h = st.h ∧
    (mag_rotation_handling env b i st).calls = st.calls ++ [DevCall.getExternal st.h.isSome] ∧
    (mag_rotation_handling env b i st).log = st.log ∧
    (mag_rotation_handling env b i st).config_ok = st.config_ok ∧
    (mag_rotation_handling env b i st).params.float = st.params.float ∧
    (∀ q, q ≠ Param.cal SensorClass.mag i CalField.ROT → q ≠ Param.SENS_EXT_MAG_ROT →
      (mag_rotation_handling env b i st).params.int32 q = st.params.int32 q) := by
  unfold mag_rotation_handling
  simp only
  split_ifs <;>
    refine ⟨rfl, rfl, rfl, rfl, ?_, ?_⟩ <;>
    first
      | rfl
      | (intro q h1 h2; rfl)
      | (intro q h1 h2; simp only [param_set_other h1, param_set_other h2])
      | (simp only [param_set_float])

/-- The rotation handling depends on the scan state only through the handle and the store. -/
theorem mag_rotation_handling_congr (env : Env) (b : Mat3) (i : Nat) (st st2 : Scan)
    (hh : st.h = st2.h) (hp : st.params = st2.params) :
    (mag_rotation_handling env b i st).params = (mag_rotation_handling env b i st2).params ∧
    (mag_rotation_handling env b i st).rotation
      = (mag_rotation_handling env b i st2).rotation := by
  unfold mag_rotation_handling
  simp only [hh, hp]
  split_ifs <;> exact ⟨rfl, rfl⟩


/-- A calibration push in the call list after the block for matched record `i` was either
there before or is the push of record `i`, with the six scalars read from the store. -/
theorem matched_record_push (env : Env) (c : SensorClass) (b : Mat3) (i : Nat) (st : Scan)
    (live : Bool) (j : Nat) (cal : Calibration)
    (h : DevCall.setScale live j cal ∈ (matched_record env c b i st).calls) :
    DevCall.setScale live j cal ∈ st.calls ∨
      (live = st.h.isSome ∧ j = i ∧ read_calibration st.params c i = some cal) := by
  have hf := mag_rotation_handling_frame env b i st
  unfold matched_record at h
  cases c <;> cases hc : read_calibration st.params _ i <;> rw [hc] at h <;>
    simp only [apply_calibration, hf.1, hf.2.1, List.mem_append, List.mem_singleton,
      DevCall.setScale.injEq, reduceCtorEq, or_false] at h
  · exact Or.inl h
  · exact h.imp id (fun h => ⟨h.1, h.2.1, by rw [h.2.2]⟩)
  · exact Or.inl h
  · exact h.imp id (fun h => ⟨h.1, h.2.1, by rw [h.2.2]⟩)
  · exact Or.inl h
  · exact h.imp id (fun h => ⟨h.1, h.2.1, by rw [h.2.2]⟩)

/-- The block for a matched record writes no `float` parameter and no `int32` parameter other
than the `ROT` of the record and `SENS_EXT_MAG_ROT`; outside the mag class it writes none. -/
theorem matched_record_store (env : Env) (c : SensorClass) (b : Mat3) (i : Nat) (st : Scan) :
    (matched_record env c b i st).params.float = st.params.float ∧
    (∀ q, q ≠ Param.cal SensorClass.mag i CalField.ROT → q ≠ Param.SENS_EXT_MAG_ROT →
      (matched_record env c b i st).params.int32 q = st.params.int32 q) ∧
    (c ≠ SensorClass.mag → (matched_record env c b i st).params = st.params ∧
      (matched_record env c b i st).rotation = st.rotation) ∧
    (c = SensorClass.mag →
      (matched_record env c b i st).params = (mag_rotation_handling env b i st).params ∧
      (matched_record env c b i st).rotation = (mag_rotation_handling env b i st).rotation) := by
  have hf := mag_rotation_handling_frame env b i st
  unfold matched_record
  cases c <;> cases read_calibration st.params _ i <;>
    first
      | exact ⟨rfl, fun _ _ _ => rfl, fun _ => ⟨rfl, rfl⟩, fun h => by cases h⟩
      | exact ⟨hf.2.2.2.2.1, hf.2.2.2.2.2, fun h => absurd rfl h, fun _ => ⟨rfl, rfl⟩⟩

/-- The six scalars read for a record depend on the `float` parameters only. -/
theorem read_calibration_congr (ps ps2 : ParamStore) (c : SensorClass) (i : Nat)
    (h : ps2.float = ps.float) : read_calibration ps2 c i = read_calibration ps c i := by
  unfold read_calibration
  rw [h]

/-- A scan never changes a stored device id, nor any `float` parameter. -/
theorem scan_calibrations_ids (env : Env) (c : SensorClass) (b : Mat3) (l : List Nat)
    (st : Scan) :
    (∀ c2 j, (scan_calibrations env c b l st).params.int32 (Param.cal c2 j CalField.ID)
      = st.params.int32 (Param.cal c2 j CalField.ID)) ∧
    (scan_calibrations env c b l st).params.float = st.params.float := by
  induction l generalizing st with
  | nil => exact ⟨fun _ _ => rfl, rfl⟩
  | cons i rest ih =>
    unfold scan_calibrations
    cases hid : st.params.int32 (Param.cal c i CalField.ID) with
    | none => exact ih _
    | some device_id =>
      simp only
      split_ifs with hm
      · have hs := matched_record_store env c b i
          { st with calls := st.calls ++ [DevCall.getDeviceId st.h.isSome] }
        exact ⟨fun c2 j => hs.2.1 (Param.cal c2 j CalField.ID) (by simp) (by simp), hs.1⟩
      · exact ih _

/-- Outside the mag class a scan leaves the store and the rotation alone. -/
theorem scan_calibrations_other (env : Env) (c : SensorClass) (b : Mat3) (l : List Nat)
    (st : Scan) (hc : c ≠ SensorClass.mag) :
    (scan_calibrations env c b l st).params = st.params ∧
    (scan_calibrations env c b l st).rotation = st.rotation := by
  induction l generalizing st with
  | nil => exact ⟨rfl, rfl⟩
  | cons i rest ih =>
    unfold scan_calibrations
    cases hid : st.params.int32 (Param.cal c i CalField.ID) with
    | none => exact ih _
    | some device_id =>
      simp only
      split_ifs with hm
      · exact (matched_record_store env c b i _).2.2.1 hc
      · exact ih _

/-- Every calibration push found in the call list of a scan was either there before, or was
made for a record whose stored id equals what the handle answered to the id query, with the
six scalars of that record. -/
theorem scan_calibrations_push (env : Env) (c : SensorClass) (b : Mat3) (d : Device)
    (l : List Nat) (st : Scan) (hh : st.h = some d ∨ st.h = none)
    (live : Bool) (i : Nat) (cal : Calibration)
    (hmem : DevCall.setScale live i cal ∈ (scan_calibrations env c b l st).calls) :
    DevCall.setScale live i cal ∈ st.calls ∨
      (st.params.int32 (Param.cal c i CalField.ID)
          = some (if live = true then d.device_id else env.bad_ioctl) ∧
        read_calibration st.params c i = some cal) := by
  induction l generalizing st with
  | nil => exact Or.inl hmem
  | cons j rest ih =>
    unfold scan_calibrations at hmem
    cases hid : st.params.int32 (Param.cal c j CalField.ID) with
    | none =>
      rw [hid] at hmem
      simp only at hmem
      rcases ih _ (Or.inr rfl) hmem with h | h
      · simp only [List.mem_append, List.mem_singleton, reduceCtorEq, or_false] at h
        exact Or.inl h
      · exact Or.inr h
    | some device_id =>
      rw [hid] at hmem
      simp only at hmem
      split_ifs at hmem with hm
      · rcases matched_record_push env c b j _ live i cal hmem with h | ⟨h1, h2, h3⟩
        · simp only [List.mem_append, List.mem_singleton, reduceCtorEq, or_false] at h
          exact Or.inl h
        · right
          subst h2
          refine ⟨?_, h3⟩
          rw [hid, hm, h1]
          rcases hh with hh | hh <;> simp [hh, ioctl]
      · have hr := ih { st with calls := st.calls ++ [DevCall.getDeviceId st.h.isSome] } hh hmem
        rcases hr with h | h
        · simp only [List.mem_append, List.mem_singleton, reduceCtorEq, or_false] at h
          exact Or.inl h
        · exact Or.inr h

/-- Calibration pushes of one slot: the slot has a driver, the stored id of the record equals
the id the handle reported, and the pushed scalars are those stored for the record. -/
theorem calibrate_slot_push (env : Env) (c : SensorClass) (b : Mat3) (ps : ParamStore)
    (rot : Mat3) (s : Nat) (live : Bool) (i : Nat) (cal : Calibration)
    (hmem : DevCall.setScale live i cal ∈ (calibrate_slot env c b ps rot s).calls) :
    ∃ d, env.devices c s = some d ∧
      ps.int32 (Param.cal c i CalField.ID)
        = some (if live = true then d.device_id else env.bad_ioctl) ∧
      read_calibration ps c i = some cal := by
  unfold calibrate_slot at hmem
  cases hd : env.devices c s with
  | none =>
    rw [hd] at hmem
    simp at hmem
  | some d =>
    rw [hd] at hmem
    simp only at hmem
    rcases scan_calibrations_push env c b d _ _ (Or.inl rfl) live i cal hmem with h | h
    · simp at h
    · exact ⟨d, rfl, h⟩

theorem calibrate_slot_ids (env : Env) (c : SensorClass) (b : Mat3) (ps : ParamStore)
    (rot : Mat3) (s : Nat) :
    (∀ c2 j, (calibrate_slot env c b ps rot s).params.int32 (Param.cal c2 j CalField.ID)
      = ps.int32 (Param.cal c2 j CalField.ID)) ∧
    (calibrate_slot env c b ps rot s).params.float = ps.float := by
  unfold calibrate_slot
  cases env.devices c s with
  | none => exact ⟨fun _ _ => rfl, rfl⟩
  | some d => exact scan_calibrations_ids env c b _ _

theorem calibrate_step_ids (env : Env) (c : SensorClass) (b : Mat3) (acc : ClassPass)
    (s : Nat) :
    (∀ c2 j, (calibrate_step env c b acc s).params.int32 (Param.cal c2 j CalField.ID)
      = acc.params.int32 (Param.cal c2 j CalField.ID)) ∧
    (calibrate_step env c b acc s).params.float = acc.params.float := by
  unfold calibrate_step
  exact calibrate_slot_ids env c b acc.params _ s

theorem calibrate_class_ids (env : Env) (c : SensorClass) (b : Mat3) (l : List Nat)
    (acc : ClassPass) :
    (∀ c2 j, (calibrate_class env c b l acc).params.int32 (Param.cal c2 j CalField.ID)
      = acc.params.int32 (Param.cal c2 j CalField.ID)) ∧
    (calibrate_class env c b l acc).params.float = acc.params.float := by
  unfold calibrate_class
  induction l generalizing acc with
  | nil => exact ⟨fun _ _ => rfl, rfl⟩
  | cons s rest ih =>
    have h1 := ih (calibrate_step env c b acc s)
    have h2 := calibrate_step_ids env c b acc s
    exact ⟨fun c2 j => (h1.1 c2 j).trans (h2.1 c2 j), h1.2.trans h2.2⟩

/-- Calibration pushes of a class pass: each one belongs to a slot with a driver, to a record
whose stored id equals the id the handle reported, and carries the scalars of that record. -/
theorem calibrate_class_push (env : Env) (c : SensorClass) (b : Mat3) (l : List Nat)
    (acc : ClassPass) (s : Nat) (live : Bool) (i : Nat) (cal : Calibration)
    (hmem : (s, DevCall.setScale live i cal) ∈ (calibrate_class env c b l acc).calls) :
    (s, DevCall.setScale live i cal) ∈ acc.calls ∨
    ∃ d, env.devices c s = some d ∧
      acc.params.int32 (Param.cal c i CalField.ID)
        = some (if live = true then d.device_id else env.bad_ioctl) ∧
      read_calibration acc.params c i = some cal := by
  unfold calibrate_class at hmem
  induction l generalizing acc with
  | nil => exact Or.inl hmem
  | cons t rest ih =>
    have hids := calibrate_step_ids env c b acc t
    rcases ih (calibrate_step env c b acc t) hmem with h | ⟨d, hd, hid, hcal⟩
    · unfold calibrate_step at h
      simp only [List.mem_append, List.mem_map, Prod.mk.injEq] at h
      rcases h with h | ⟨dc, hdc, hts, hdceq⟩
      · exact Or.inl h
      · right
        subst hts
        subst hdceq
        exact calibrate_slot_push env c b acc.params _ t live i cal hdc
    · right
      refine ⟨d, hd, ?_, ?_⟩
      · rw [← hids.1 c i]
        exact hid
      · rw [← read_calibration_congr acc.params _ c i hids.2]
        exact hcal

/-- Outside the mag class a class pass leaves the store and the mag rotations alone. -/
theorem calibrate_class_other (env : Env) (c : SensorClass) (b : Mat3) (l : List Nat)
    (acc : ClassPass) (hc : c ≠ SensorClass.mag) :
    (calibrate_class env c b l acc).params = acc.params ∧
    (calibrate_class env c b l acc).mag_rotation = acc.mag_rotation := by
  unfold calibrate_class
  induction l generalizing acc with
  | nil => exact ⟨rfl, rfl⟩
  | cons s rest ih =>
    have h1 := ih (calibrate_step env c b acc s)
    have h2 : (calibrate_step env c b acc s).params = acc.params ∧
        (calibrate_step env c b acc s).mag_rotation = acc.mag_rotation := by
      unfold calibrate_step calibrate_slot
      cases c with
      | mag => exact absurd rfl hc
      | gyro =>
        cases env.devices SensorClass.gyro s with
        | none => exact ⟨rfl, rfl⟩
        | some d => exact ⟨(scan_calibrations_other env _ b _ _ hc).1, rfl⟩
      | accel =>
        cases env.devices SensorClass.accel s with
        | none => exact ⟨rfl, rfl⟩
        | some d => exact ⟨(scan_calibrations_other env _ b _ _ hc).1, rfl⟩
    exact ⟨h1.1.trans h2.1, h1.2.trans h2.2⟩

/-- Form of `calibrate_class_push` for a pass that starts with an empty call list. -/
theorem calibrate_class_push_fresh (env : Env) (c : SensorClass) (b : Mat3) (l : List Nat)
    (acc : ClassPass) (ps : ParamStore) (hp : acc.params = ps) (hc : acc.calls = [])
    (s : Nat) (live : Bool) (i : Nat) (cal : Calibration)
    (hmem : (s, DevCall.setScale live i cal) ∈ (calibrate_class env c b l acc).calls) :
    ∃ d, env.devices c s = some d ∧
      ps.int32 (Param.cal c i CalField.ID)
        = some (if live = true then d.device_id else env.bad_ioctl) ∧
      read_calibration ps c i = some cal := by
  rcases calibrate_class_push env c b l acc s live i cal hmem with h | h
  · rw [hc] at h
    cases h
  · rw [hp] at h
    exact h

/-- Records that are read and do not match are passed over with the handle intact: the scan
reaches the first matching record `i` with the same handle, store and rotation. -/
theorem scan_calibrations_first_match (env : Env) (c : SensorClass) (b : Mat3) (d : Device)
    (l1 : List Nat) (i : Nat) (l2 : List Nat) (st : Scan) (hh : st.h = some d)
    (hskip : ∀ j ∈ l1, ∃ v, st.params.int32 (Param.cal c j CalField.ID) = some v ∧
      v ≠ d.device_id)
    (hid : st.params.int32 (Param.cal c i CalField.ID) = some d.device_id) :
    ∃ st1 : Scan, st1.h = some d ∧ st1.params = st.params ∧ st1.rotation = st.rotation ∧
      scan_calibrations env c b (l1 ++ i :: l2) st = matched_record env c b i st1 := by
  induction l1 generalizing st with
  | nil =>
    refine ⟨{ st with calls := st.calls ++ [DevCall.getDeviceId st.h.isSome] }, hh, rfl, rfl, ?_⟩
    simp only [List.nil_append]
    unfold scan_calibrations
    rw [hid]
    simp [hh, ioctl]
  | cons j rest ih =>
    obtain ⟨v, hv, hne⟩ := hskip j (List.mem_cons_self j rest)
    have hr := ih { st with calls := st.calls ++ [DevCall.getDeviceId st.h.isSome] } hh
      (fun k hk => hskip k (List.mem_cons_of_mem j hk)) hid
    obtain ⟨st1, h1, h2, h3, h4⟩ := hr
    refine ⟨st1, h1, h2, h3, ?_⟩
    rw [← h4]
    simp only [List.cons_append]
    conv_lhs => unfold scan_calibrations
    rw [hv]
    simp [hh, ioctl, hne]

/-- The record indices split at any `i < SENSOR_COUNT_MAX`. -/
theorem all_indices_split (i : Nat) (hi : i < SENSOR_COUNT_MAX) :
    ∃ l2, all_indices = List.range i ++ i :: l2 := by
  unfold SENSOR_COUNT_MAX at hi
  interval_cases i
  · exact ⟨[1, 2], rfl⟩
  · exact ⟨[2], rfl⟩
  · exact ⟨[], rfl⟩

/-- Store and rotation a mag slot is left with when its driver is matched to record `i`
after the records before `i` were read and did not match. -/
theorem calibrate_slot_mag_matched (env : Env) (b : Mat3) (ps : ParamStore) (rot0 : Mat3)
    (s i : Nat) (d : Device) (hi : i < SENSOR_COUNT_MAX)
    (hdev : env.devices SensorClass.mag s = some d)
    (hskip : ∀ j, j < i → ∃ v, ps.int32 (Param.cal SensorClass.mag j CalField.ID) = some v ∧
      v ≠ d.device_id)
    (hid : ps.int32 (Param.cal SensorClass.mag i CalField.ID) = some d.device_id) :
    (calibrate_slot env SensorClass.mag b ps rot0 s).params
      = (mag_rotation_handling env b i
          { h := some d, params := ps, rotation := rot0, calls := [], log := [],
            config_ok := false }).params ∧
    (calibrate_slot env SensorClass.mag b ps rot0 s).rotation
      = (mag_rotation_handling env b i
          { h := some d, params := ps, rotation := rot0, calls := [], log := [],
            config_ok := false }).rotation := by
  obtain ⟨l2, hl⟩ := all_indices_split i hi
  unfold calibrate_slot
  rw [hdev, hl]
  simp only
  obtain ⟨st1, h1, h2, h3, h4⟩ := scan_calibrations_first_match env SensorClass.mag b d
    (List.range i) i l2
    { h := some d, params := ps, rotation := rot0, calls := [], log := [], config_ok := false }
    rfl (fun j hj => hskip j (List.mem_range.mp hj)) hid
  rw [h4]
  have hm := (matched_record_store env SensorClass.mag b i st1).2.2.2 rfl
  have hc := mag_rotation_handling_congr env b i st1
    { h := some d, params := ps, rotation := rot0, calls := [], log := [], config_ok := false }
    h1 h2
  exact ⟨hm.1.trans hc.1, hm.2.trans hc.2⟩

/-- The external branch of the rotation handling when the legacy parameter is nonzero and
the stored rotation is not positive: the legacy value moves into the record, the legacy
parameter is cleared, and the rotation code used is the legacy value clamped at 0. -/
theorem mag_rotation_handling_migrate (env : Env) (b : Mat3) (i : Nat) (st : Scan) (d : Device)
    (L r : Int) (hh : st.h = some d) (hext : 0 < d.external)
    (hL : st.params.int32 Param.SENS_EXT_MAG_ROT = some L) (hL0 : L ≠ 0)
    (hr : st.params.int32 (Param.cal SensorClass.mag i CalField.ROT) = some r) (hr0 : r ≤ 0) :
    (mag_rotation_handling env b i st).params.int32 (Param.cal SensorClass.mag i CalField.ROT)
      = some L ∧
    (mag_rotation_handling env b i st).params.int32 Param.SENS_EXT_MAG_ROT = some 0 ∧
    (mag_rotation_handling env b i st).rotation
      = env.get_rot_matrix (if L < 0 then 0 else L) := by
  have hne : Param.SENS_EXT_MAG_ROT ≠ Param.cal SensorClass.mag i CalField.ROT := by simp
  have hne2 : Param.cal SensorClass.mag i CalField.ROT ≠ Param.SENS_EXT_MAG_ROT := by simp
  unfold mag_rotation_handling
  have hx : ¬ ioctl env st.h Device.external ≤ 0 := by
    simp [hh, ioctl]
    exact hext
  simp only [hx, if_false, hr, Option.getD_some]
  by_cases hneg : r < 0
  · have hS : (param_set_no_notification st.params
        (Param.cal SensorClass.mag i CalField.ROT) 0).int32 Param.SENS_EXT_MAG_ROT = some L := by
      rw [param_set_other hne, hL]
    have hR : (param_set_no_notification st.params
        (Param.cal SensorClass.mag i CalField.ROT) 0).int32
          (Param.cal SensorClass.mag i CalField.ROT) = some 0 :=
      param_set_same _ _ _ _ hr
    simp only [hneg, if_true, hS, Option.getD_some, ne_eq, hL0, not_false_eq_true, decide_True,
      le_refl, Bool.and_self]
    refine ⟨?_, ?_, trivial⟩
    · rw [param_set_other hne2]
      exact param_set_same _ _ _ _ hR
    · refine param_set_same _ _ _ L ?_
      rw [param_set_other hne, hS]
  · have hz : r = 0 := by omega
    subst hz
    simp only [lt_self_iff_false, if_false, hL, Option.getD_some, ne_eq, hL0, not_false_eq_true,
      decide_True, le_refl, Bool.and_self, if_true]
    refine ⟨?_, ?_, trivial⟩
    · rw [param_set_other hne2]
      exact param_set_same _ _ _ _ hr
    · refine param_set_same _ _ _ L ?_
      rw [param_set_other hne, hL]

/-- The internal branch of the rotation handling: board rotation, stored rotation forced to
`MAG_ROT_VAL_INTERNAL`, every other parameter untouched. -/
theorem mag_rotation_handling_internal (env : Env) (b : Mat3) (i : Nat) (st : Scan) (d : Device)
    (r : Int) (hh : st.h = some d) (hint : d.external ≤ 0)
    (hr : st.params.int32 (Param.cal SensorClass.mag i CalField.ROT) = some r) :
    (mag_rotation_handling env b i st).rotation = b ∧
    (mag_rotation_handling env b i st).params.int32 (Param.cal SensorClass.mag i CalField.ROT)
      = some MAG_ROT_VAL_INTERNAL ∧
    (∀ q, q ≠ Param.cal SensorClass.mag i CalField.ROT →
      (mag_rotation_handling env b i st).params.int32 q = st.params.int32 q) ∧
    (mag_rotation_handling env b i st).params.float = st.params.float := by
  unfold mag_rotation_handling
  have hx : ioctl env st.h Device.external ≤ 0 := by
    simp [hh, ioctl]
    exact hint
  simp only [hx, if_true, hr, Option.getD_some]
  by_cases hm : r = MAG_ROT_VAL_INTERNAL
  · subst hm
    simp only [ne_eq, not_true_eq_false, if_false]
    exact ⟨trivial, hr, fun _ _ => trivial, trivial⟩
  · simp only [ne_eq, hm, not_false_eq_true, if_true]
    exact ⟨trivial, param_set_same _ _ _ _ hr, fun q hq => param_set_other hq,
      param_set_float _ _ _⟩

/-- A mag slot without a running driver keeps the store and only resets its own rotation. -/
theorem calibrate_step_mag_absent (env : Env) (b : Mat3) (acc : ClassPass) (t : Nat)
    (hnone : env.devices SensorClass.mag t = none) :
    (calibrate_step env SensorClass.mag b acc t).params = acc.params ∧
    (∀ u, u ≠ t → (calibrate_step env SensorClass.mag b acc t).mag_rotation u
      = acc.mag_rotation u) := by
  unfold calibrate_step calibrate_slot
  rw [hnone]
  refine ⟨rfl, ?_⟩
  intro u hu
  simp [upd, hu]

/-- Mag slots without a running driver keep the store and the rotation of every other slot. -/
theorem calibrate_class_mag_absent (env : Env) (b : Mat3) (l : List Nat) (acc : ClassPass)
    (hnone : ∀ t ∈ l, env.devices SensorClass.mag t = none) :
    (calibrate_class env SensorClass.mag b l acc).params = acc.params ∧
    (∀ u, u ∉ l → (calibrate_class env SensorClass.mag b l acc).mag_rotation u
      = acc.mag_rotation u) := by
  unfold calibrate_class
  induction l generalizing acc with
  | nil => exact ⟨rfl, fun _ _ => rfl⟩
  | cons t rest ih =>
    have h1 := ih (calibrate_step env SensorClass.mag b acc t)
      (fun k hk => hnone k (List.mem_cons_of_mem t hk))
    have h2 := calibrate_step_mag_absent env b acc t (hnone t (List.mem_cons_self t rest))
    refine ⟨h1.1.trans h2.1, ?_⟩
    intro u hu
    have hut : u ≠ t := fun h => hu (h ▸ List.mem_cons_self t rest)
    have hur : u ∉ rest := fun h => hu (List.mem_cons_of_mem t h)
    exact (h1.2 u hur).trans (h2.2 u hut)

/-- When slot `s` is the only mag slot with a running driver, the mag pass leaves the store
and `_mag_rotation[s]` as the handling of slot `s` leaves them. -/
theorem calibrate_class_mag_single (env : Env) (b : Mat3) (l : List Nat) (acc : ClassPass)
    (s : Nat) (hs : s ∈ l) (hnd : l.Nodup)
    (honly : ∀ t, t ≠ s → env.devices SensorClass.mag t = none) :
    (calibrate_class env SensorClass.mag b l acc).params
      = (calibrate_slot env SensorClass.mag b acc.params b s).params ∧
    (calibrate_class env SensorClass.mag b l acc).mag_rotation s
      = (calibrate_slot env SensorClass.mag b acc.params b s).rotation := by
  induction l generalizing acc with
  | nil => cases hs
  | cons t rest ih =>
    have hnd2 := List.nodup_cons.mp hnd
    by_cases hts : t = s
    · subst hts
      have hrest := calibrate_class_mag_absent env b rest
        (calibrate_step env SensorClass.mag b acc t)
        (fun k hk => honly k (fun h => hnd2.1 (h ▸ hk)))
      have hstep : (calibrate_step env SensorClass.mag b acc t).params
            = (calibrate_slot env SensorClass.mag b acc.params b t).params ∧
          (calibrate_step env SensorClass.mag b acc t).mag_rotation t
            = (calibrate_slot env SensorClass.mag b acc.params b t).rotation := by
        unfold calibrate_step
        simp [upd]
      unfold calibrate_class at hrest ⊢
      simp only [List.foldl_cons]
      exact ⟨hrest.1.trans hstep.1, (hrest.2 t hnd2.1).trans hstep.2⟩
    · have hsr : s ∈ rest := by
        rcases List.mem_cons.mp hs with h | h
        · exact absurd h.symm hts
        · exact h
      have h1 := ih (calibrate_step env SensorClass.mag b acc t) hsr hnd2.2
      have h2 := calibrate_step_mag_absent env b acc t (honly t hts)
      unfold calibrate_class at h1 ⊢
      simp only [List.foldl_cons]
      rw [h2.1] at h1
      exact h1

/-- Store and mag rotation after `parameter_update_poll` when slot `s` is the only mag slot
with a running driver. -/
theorem parameter_update_poll_mag_single (env : Env) (u f : Bool) (st : State)
    (ps : ParamStore) (s : Nat) (hu : (u || f) = true) (hs : s < SENSOR_COUNT_MAX)
    (honly : ∀ t, t ≠ s → env.devices SensorClass.mag t = none) :
    (parameter_update_poll env u f st ps).params
      = (calibrate_slot env SensorClass.mag (parameters_update env st).board_rotation ps
          (parameters_update env st).board_rotation s).params ∧
    (parameter_update_poll env u f st ps).state.mag_rotation s
      = (calibrate_slot env SensorClass.mag (parameters_update env st).board_rotation ps
          (parameters_update env st).board_rotation s).rotation ∧
    (parameter_update_poll env u f st ps).state.board_rotation
      = (parameters_update env st).board_rotation := by
  have hmem : s ∈ all_indices := by
    unfold all_indices
    exact List.mem_range.mpr hs
  have hnd : all_indices.Nodup := List.nodup_range _
  have key : ∀ acc : ClassPass, acc.params = ps →
      (calibrate_class env SensorClass.mag (parameters_update env st).board_rotation
          all_indices acc).params
        = (calibrate_slot env SensorClass.mag (parameters_update env st).board_rotation ps
            (parameters_update env st).board_rotation s).params ∧
      (calibrate_class env SensorClass.mag (parameters_update env st).board_rotation
          all_indices acc).mag_rotation s
        = (calibrate_slot env SensorClass.mag (parameters_update env st).board_rotation ps
            (parameters_update env st).board_rotation s).rotation := by
    intro acc hp
    have hm := calibrate_class_mag_single env (parameters_update env st).board_rotation
      all_indices acc s hmem hnd honly
    rw [hp] at hm
    exact hm
  unfold parameter_update_poll
  rw [if_pos hu]
  simp only
  refine ⟨(key _ ?_).1, (key _ ?_).2, trivial⟩ <;>
    exact ((calibrate_class_other env SensorClass.accel _ _ _ (by decide)).1).trans
      (calibrate_class_other env SensorClass.gyro _ _ _ (by decide)).1

/-- Every calibration push `parameter_update_poll` makes (a call of
`apply_gyro/accel/mag_calibration`, recorded with the slot, the record index and the six
scalars) is for a slot with a running driver and for a record whose stored `CAL_<CLASS>i_ID`
equals the id the handle answered; the scalars pushed are those stored for that record. A
push made on a handle that was not released (`live`) therefore has a stored id equal to the
device id of the live device. A push on a released handle has a stored id equal to what the
released handle answers. -/
theorem calibration_push_matches_answered_id (env : Env) (param_updated forced : Bool)
    (st : State) (params : ParamStore) (c : SensorClass) (s : Nat) (live : Bool) (i : Nat)
    (cal : Calibration)
    (hmem : (s, DevCall.setScale live i cal)
      ∈ (parameter_update_poll env param_updated forced st params).calls c) :
    ∃ d, env.devices c s = some d ∧
      params.int32 (Param.cal c i CalField.ID)
        = some (if live = true then d.device_id else env.bad_ioctl) ∧
      read_calibration params c i = some cal ∧
      (live = true → params.int32 (Param.cal c i CalField.ID) = some d.device_id) := by
  have main : ∃ d, env.devices c s = some d ∧
      params.int32 (Param.cal c i CalField.ID)
        = some (if live = true then d.device_id else env.bad_ioctl) ∧
      read_calibration params c i = some cal := by
    unfold parameter_update_poll at hmem
    split_ifs at hmem with hu
    · cases c with
      | gyro =>
        exact calibrate_class_push_fresh env _ _ _ _ params rfl rfl s live i cal hmem
      | accel =>
        refine calibrate_class_push_fresh env _ _ _ _ params ?_ rfl s live i cal hmem
        exact (calibrate_class_other env SensorClass.gyro _ _ _ (by decide)).1
      | mag =>
        refine calibrate_class_push_fresh env _ _ _ _ params ?_ rfl s live i cal hmem
        exact ((calibrate_class_other env SensorClass.accel _ _ _ (by decide)).1).trans
          (calibrate_class_other env SensorClass.gyro _ _ _ (by decide)).1
    · cases c <;> simp [UpdateResult.calls] at hmem
  obtain ⟨d, hd, hid, hcal⟩ := main
  refine ⟨d, hd, hid, hcal, ?_⟩
  intro hl
  rw [hid, if_pos hl]

/-- The example of the specification: live gyro id 123, `CAL_GYRO0_ID = 456`,
`CAL_GYRO1_ID = 123`: record 0 is skipped, the scalars of record 1 are pushed, and one gyro
is counted as calibrated. -/
theorem calibration_push_matches_answered_id_example :
    (parameter_update_poll gyro_example_env false true one_instance_state
        gyro_example_store).gyro_calls
      = [(0, DevCall.getDeviceId true), (0, DevCall.getDeviceId true),
         (0, DevCall.setScale true 1 gyro_example_cal)] ∧
    (parameter_update_poll gyro_example_env false true one_instance_state
        gyro_example_store).gyro_count = 1 ∧
    (∃ d, gyro_example_env.devices SensorClass.gyro 0 = some d ∧
      gyro_example_store.int32 (Param.cal SensorClass.gyro 1 CalField.ID)
        = some (if true = true then d.device_id else gyro_example_env.bad_ioctl) ∧
      read_calibration gyro_example_store SensorClass.gyro 1 = some gyro_example_cal ∧
      (true = true →
        gyro_example_store.int32 (Param.cal SensorClass.gyro 1 CalField.ID)
          = some d.device_id)) :=
  ⟨by decide, by decide,
   calibration_push_matches_answered_id gyro_example_env false true one_instance_state
     gyro_example_store SensorClass.gyro 0 true 1 gyro_example_cal (by decide)⟩

/-- C1 (code behaviour): gyro 0 is a running driver with device id 123. The id of record 0
cannot be read, so the handle is released and the loop goes on; the released handle answers
-1 to the id query, which equals the stored `CAL_GYRO1_ID = -1`. The block for a matched
record runs for record 1: `apply_gyro_calibration` is called with the six scalars of
record 1, whose stored id differs from the id 123 of the device in the slot. No gyro is
counted as calibrated. -/
theorem C1_foreign_record_pushed :
    gyro_example_env.devices SensorClass.gyro 0
      = some { device_id := 123, external := 0, scale_ret := 0 } ∧
    (id_gap_store (-1)).int32 (Param.cal SensorClass.gyro 1 CalField.ID) = some (-1) ∧
    read_calibration (id_gap_store (-1)) SensorClass.gyro 1 = some ⟨1, 1, 1, 1, 1, 1⟩ ∧
    (0, DevCall.setScale false 1 ⟨1, 1, 1, 1, 1, 1⟩)
      ∈ (parameter_update_poll gyro_example_env false true one_instance_state
          (id_gap_store (-1))).calls SensorClass.gyro ∧
    (parameter_update_poll gyro_example_env false true one_instance_state
        (id_gap_store (-1))).gyro_count = 0 := by
  decide

/-! ## The elected index and the subscription count -/

theorem gyro_collect_count (fresh : Nat → Option InertialReport) (s : State) :
    (gyro_collect fresh s).1.gyro.subscription_count = s.gyro.subscription_count := by
  unfold gyro_collect
  apply foldl_proj_eq _ (fun a : State × Bool => a.1.gyro.subscription_count)
  intro a i
  unfold gyro_sample
  cases fresh i with
  | none => simp
  | some r =>
    by_cases h0 : r.timestamp = 0 <;> by_cases h1 : r.integral_dt = 0 <;>
      simp [h0, h1, SensorData.call]

theorem accel_collect_count (fresh : Nat → Option InertialReport) (s : State) :
    (accel_collect fresh s).1.accel.subscription_count = s.accel.subscription_count := by
  unfold accel_collect
  apply foldl_proj_eq _ (fun a : State × Bool => a.1.accel.subscription_count)
  intro a i
  unfold accel_sample
  cases fresh i with
  | none => simp
  | some r =>
    by_cases h0 : r.timestamp = 0 <;> by_cases h1 : r.integral_dt = 0 <;>
      simp [h0, h1, SensorData.call]

theorem mag_collect_count (fresh : Nat → Option MagReport) (s : State) :
    (mag_collect fresh s).1.mag.subscription_count = s.mag.subscription_count := by
  unfold mag_collect
  apply foldl_proj_eq _ (fun a : State × Bool => a.1.mag.subscription_count)
  intro a i
  unfold mag_sample
  cases fresh i with
  | none => simp
  | some r => by_cases h0 : r.timestamp = 0 <;> simp [h0, SensorData.call]

theorem baro_collect_count (fresh : Nat → Option BaroReport) (s : State) :
    (baro_collect fresh s).1.baro.subscription_count = s.baro.subscription_count := by
  unfold baro_collect
  apply foldl_proj_eq _ (fun a : State × Bool => a.1.baro.subscription_count)
  intro a i
  unfold baro_sample
  cases fresh i with
  | none => simp
  | some r => by_cases h0 : r.timestamp = 0 <;> simp [h0, SensorData.call]

/-- C11 (counterexample): one subscribed gyro instance delivers a sample and the voter, an
election function with values in [-1, 3), elects index 2. The poll sets `last_best_vote = 2`,
which is not below `subscription_count = 1`, and it does write the gyro fields: a snapshot
holding (9, 9, 9) gets the cached vector of instance 2. -/
theorem C11_vote_beyond_subscription_count :
    (-1 ≤ (2 : Int) ∧ (2 : Int) < 3) ∧
    (gyro_poll (fun _ => 2) 5001 (fun _ => some plain_report) one_instance_state
        SensorCombined.zero).1.gyro.last_best_vote = 2 ∧
    (gyro_poll (fun _ => 2) 5001 (fun _ => some plain_report) one_instance_state
        SensorCombined.zero).1.gyro.subscription_count = 1 ∧
    ¬ ((gyro_poll (fun _ => 2) 5001 (fun _ => some plain_report) one_instance_state
          SensorCombined.zero).1.gyro.last_best_vote
        < (gyro_poll (fun _ => 2) 5001 (fun _ => some plain_report) one_instance_state
          SensorCombined.zero).1.gyro.subscription_count) ∧
    (gyro_poll (fun _ => 2) 5001 (fun _ => some plain_report) one_instance_state
        { SensorCombined.zero with gyro_rad := ⟨9, 9, 9⟩ }).2.gyro_rad = ⟨0, 0, 0⟩ := by
  decide

/-- C11 (amended): for each class and every voter with values in [-1, 3), after the poll
either `last_best_vote` is the index the voter elected, which is below `SENSOR_COUNT_MAX` and
is below `subscription_count` whenever the elected index is, or the poll wrote nothing into
the snapshot (whatever snapshot it is given comes back unchanged) and kept
`last_best_vote`. -/
theorem C11_vote_in_range_or_nothing_written :
    (∀ (best : Election) (now : Nat) (fresh : Nat → Option InertialReport) (s : State)
        (raw : SensorCombined), (∀ h, -1 ≤ best h ∧ best h < 3) →
      (((gyro_poll best now fresh s raw).1.gyro.last_best_vote : Int)
          = best ((gyro_collect fresh s).1.gyro.voter ++ [VoterCall.get_best now]) ∧
        (gyro_poll best now fresh s raw).1.gyro.last_best_vote < SENSOR_COUNT_MAX ∧
        (best ((gyro_collect fresh s).1.gyro.voter ++ [VoterCall.get_best now])
            < s.gyro.subscription_count →
          (gyro_poll best now fresh s raw).1.gyro.last_best_vote
            < (gyro_poll best now fresh s raw).1.gyro.subscription_count)) ∨
      ((∀ raw2, (gyro_poll best now fresh s raw2).2 = raw2) ∧
        (gyro_poll best now fresh s raw).1.gyro.last_best_vote = s.gyro.last_best_vote)) ∧
    (∀ (best : Election) (now : Nat) (fresh : Nat → Option InertialReport) (s : State)
        (raw : SensorCombined), (∀ h, -1 ≤ best h ∧ best h < 3) →
      (((accel_poll best now fresh s raw).1.accel.last_best_vote : Int)
          = best ((accel_collect fresh s).1.accel.voter ++ [VoterCall.get_best now]) ∧
        (accel_poll best now fresh s raw).1.accel.last_best_vote < SENSOR_COUNT_MAX ∧
        (best ((accel_collect fresh s).1.accel.voter ++ [VoterCall.get_best now])
            < s.accel.subscription_count →
          (accel_poll best now fresh s raw).1.accel.last_best_vote
            < (accel_poll best now fresh s raw).1.accel.subscription_count)) ∨
      ((∀ raw2, (accel_poll best now fresh s raw2).2 = raw2) ∧
        (accel_poll best now fresh s raw).1.accel.last_best_vote = s.accel.last_best_vote)) ∧
    (∀ (best : Election) (now : Nat) (fresh : Nat → Option MagReport) (s : State)
        (raw : SensorCombined), (∀ h, -1 ≤ best h ∧ best h < 3) →
      (((mag_poll best now fresh s raw).1.mag.last_best_vote : Int)
          = best ((mag_collect fresh s).1.mag.voter ++ [VoterCall.get_best now]) ∧
        (mag_poll best now fresh s raw).1.mag.last_best_vote < SENSOR_COUNT_MAX ∧
        (best ((mag_collect fresh s).1.mag.voter ++ [VoterCall.get_best now])
            < s.mag.subscription_count →
          (mag_poll best now fresh s raw).1.mag.last_best_vote
            < (mag_poll best now fresh s raw).1.mag.subscription_count)) ∨
      ((∀ raw2, (mag_poll best now fresh s raw2).2 = raw2) ∧
        (mag_poll best now fresh s raw).1.mag.last_best_vote = s.mag.last_best_vote)) ∧
    (∀ (best : Election) (now : Nat) (fresh : Nat → Option BaroReport) (s : State)
        (raw : SensorCombined), (∀ h, -1 ≤ best h ∧ best h < 3) →
      (((baro_poll best now fresh s raw).1.baro.last_best_vote : Int)
          = best ((baro_collect fresh s).1.baro.voter ++ [VoterCall.get_best now]) ∧
        (baro_poll best now fresh s raw).1.baro.last_best_vote < SENSOR_COUNT_MAX ∧
        (best ((baro_collect fresh s).1.baro.voter ++ [VoterCall.get_best now])
            < s.baro.subscription_count →
          (baro_poll best now fresh s raw).1.baro.last_best_vote
            < (baro_poll best now fresh s raw).1.baro.subscription_count)) ∨
      ((∀ raw2, (baro_poll best now fresh s raw2).2 = raw2) ∧
        (baro_poll best now fresh s raw).1.baro.last_best_vote = s.baro.last_best_vote)) := by
  refine ⟨?_, ?_, ?_, ?_⟩
  · intro best now fresh s raw hb
    have hv := gyro_collect_vote fresh s
    have hc := gyro_collect_count fresh s
    have hbd := hb ((gyro_collect fresh s).1.gyro.voter ++ [VoterCall.get_best now])
    unfold gyro_poll SENSOR_COUNT_MAX
    simp only [SensorData.call]
    split_ifs with hg h0
    · left
      simp only [hc]
      omega
    · right
      exact ⟨fun _ => rfl, hv⟩
    · right
      exact ⟨fun _ => rfl, hv⟩
  · intro best now fresh s raw hb
    have hv := accel_collect_vote fresh s
    have hc := accel_collect_count fresh s
    have hbd := hb ((accel_collect fresh s).1.accel.voter ++ [VoterCall.get_best now])
    unfold accel_poll SENSOR_COUNT_MAX
    simp only [SensorData.call]
    split_ifs with hg h0
    · left
      simp only [hc]
      omega
    · right
      exact ⟨fun _ => rfl, hv⟩
    · right
      exact ⟨fun _ => rfl, hv⟩
  · intro best now fresh s raw hb
    have hv := mag_collect_vote fresh s
    have hc := mag_collect_count fresh s
    have hbd := hb ((mag_collect fresh s).1.mag.voter ++ [VoterCall.get_best now])
    unfold mag_poll SENSOR_COUNT_MAX
    simp only [SensorData.call]
    split_ifs with hg h0
    · left
      simp only [hc]
      omega
    · right
      exact ⟨fun _ => rfl, hv⟩
    · right
      exact ⟨fun _ => rfl, hv⟩
  · intro best now fresh s raw hb
    have hv := (baro_collect_vote fresh s).1
    have hc := baro_collect_count fresh s
    have hbd := hb ((baro_collect fresh s).1.baro.voter ++ [VoterCall.get_best now])
    unfold baro_poll SENSOR_COUNT_MAX
    simp only [SensorData.call]
    split_ifs with hg h0
    · left
      simp only [hc]
      omega
    · right
      exact ⟨fun _ => rfl, hv⟩
    · right
      exact ⟨fun _ => rfl, hv⟩

/-- C11 instance: with one subscribed gyro instance and a voter electing index 0, the first
alternative holds with `last_best_vote = 0 < subscription_count = 1`. -/
theorem C11_vote_in_range_or_nothing_written_witness :
    (∀ h : List VoterCall, -1 ≤ (fun _ => (0 : Int)) h ∧ (fun _ => (0 : Int)) h < 3) ∧
    (gyro_poll (fun _ => 0) 5001 (fun _ => some plain_report) one_instance_state
        SensorCombined.zero).1.gyro.last_best_vote = 0 ∧
    ((((gyro_poll (fun _ => 0) 5001 (fun _ => some plain_report) one_instance_state
            SensorCombined.zero).1.gyro.last_best_vote : Int)
          = (fun _ => (0 : Int)) ((gyro_collect (fun _ => some plain_report)
              one_instance_state).1.gyro.voter ++ [VoterCall.get_best 5001]) ∧
        (gyro_poll (fun _ => 0) 5001 (fun _ => some plain_report) one_instance_state
            SensorCombined.zero).1.gyro.last_best_vote < SENSOR_COUNT_MAX ∧
        ((fun _ => (0 : Int)) ((gyro_collect (fun _ => some plain_report)
              one_instance_state).1.gyro.voter ++ [VoterCall.get_best 5001])
            < one_instance_state.gyro.subscription_count →
          (gyro_poll (fun _ => 0) 5001 (fun _ => some plain_report) one_instance_state
              SensorCombined.zero).1.gyro.last_best_vote
            < (gyro_poll (fun _ => 0) 5001 (fun _ => some plain_report) one_instance_state
              SensorCombined.zero).1.gyro.subscription_count)) ∨
      ((∀ raw2, (gyro_poll (fun _ => 0) 5001 (fun _ => some plain_report) one_instance_state
            raw2).2 = raw2) ∧
        (gyro_poll (fun _ => 0) 5001 (fun _ => some plain_report) one_instance_state
            SensorCombined.zero).1.gyro.last_best_vote
          = one_instance_state.gyro.last_best_vote)) :=
  ⟨fun _ => (by decide : (-1 : Int) ≤ 0 ∧ (0 : Int) < 3), by decide,
   C11_vote_in_range_or_nothing_written.1 (fun _ => 0) 5001 (fun _ => some plain_report)
     one_instance_state SensorCombined.zero
     (fun _ => (by decide : (-1 : Int) ≤ 0 ∧ (0 : Int) < 3))⟩

/-! ## Relative timestamps of the published snapshot -/

/-- The cast to `int32_t` keeps the low 32 bits and yields a value in `[-2^31, 2^31)`. -/
theorem toInt32_range (n : Nat) :
    -(2 ^ 31 : Int) ≤ toInt32 n ∧ toInt32 n < 2 ^ 31 ∧
      toInt32 n % 2 ^ 32 = (n : Int) % 2 ^ 32 := by
  unfold toInt32
  split_ifs <;> omega

/-- When the true difference fits into an `int32_t` the cast of the wrapped difference is the
true difference. -/
theorem toInt32_u64sub_exact (a t : Nat)
    (hlo : -(2 ^ 31 : Int) ≤ (a : Int) - t) (hhi : (a : Int) - t < 2 ^ 31) :
    toInt32 (u64sub a t) = (a : Int) - t := by
  unfold toInt32 u64sub
  split_ifs <;> omega

/-- The facts about one relative timestamp `(int32_t)(a - t)`. -/
theorem relative_timestamp_facts (a t : Nat) :
    -(2 ^ 31 : Int) ≤ toInt32 (u64sub a t) ∧ toInt32 (u64sub a t) < 2 ^ 31 ∧
    toInt32 (u64sub a t) % 2 ^ 32 = ((u64sub a t : Nat) : Int) % 2 ^ 32 ∧
    (-(2 ^ 31 : Int) ≤ (a : Int) - t → (a : Int) - t < 2 ^ 31 →
      toInt32 (u64sub a t) = (a : Int) - t) ∧
    (a < t → t - a ≤ 2 ^ 31 → toInt32 (u64sub a t) < 0) := by
  have hr := toInt32_range (u64sub a t)
  refine ⟨hr.1, hr.2.1, hr.2.2, toInt32_u64sub_exact a t, ?_⟩
  intro hlt hle
  rw [toInt32_u64sub_exact a t (by omega) (by omega)]
  omega

/-- What the publish block leaves in the three relative timestamps. -/
theorem publish_snapshot_fields (s : State) (raw : SensorCombined) (hp : s.publishing = true)
    (ht : 0 < raw.timestamp) :
    (publish_snapshot s raw).2 = some (publish_snapshot s raw).1 ∧
    (publish_snapshot s raw).1.accelerometer_timestamp_relative
      = (if s.last_accel_timestamp s.accel.last_best_vote ≠ 0
          then toInt32 (u64sub (s.last_accel_timestamp s.accel.last_best_vote) raw.timestamp)
          else raw.accelerometer_timestamp_relative) ∧
    (publish_snapshot s raw).1.magnetometer_timestamp_relative
      = (if s.last_mag_timestamp s.mag.last_best_vote ≠ 0
          then toInt32 (u64sub (s.last_mag_timestamp s.mag.last_best_vote) raw.timestamp)
          else raw.magnetometer_timestamp_relative) ∧
    (publish_snapshot s raw).1.baro_timestamp_relative
      = (if s.last_baro_timestamp s.baro.last_best_vote ≠ 0
          then toInt32 (u64sub (s.last_baro_timestamp s.baro.last_best_vote) raw.timestamp)
          else raw.baro_timestamp_relative) := by
  unfold publish_snapshot
  simp only [hp, ht, decide_True, Bool.and_self, if_true]
  refine ⟨trivial, ?_, ?_, ?_⟩ <;> split_ifs <;> rfl

/-- C18 (amended): in a tick that publishes (`_publishing` and `raw.timestamp > 0`) the published
snapshot is the refreshed `raw`, and each of the three relative timestamps is written exactly
when the stored timestamp of the class's `last_best_vote` is nonzero. The value written is
`(int32_t)(stored timestamp - raw.timestamp)`: it lies in `[-2^31, 2^31)`, agrees with the
wrapped `uint64_t` difference modulo `2^32`, equals the exact difference whenever that lies in
`[-2^31, 2^31)`, and is negative when the class's sample predates the gyro's by at most
`2^31` microseconds. A field that is not written keeps its value. -/
theorem C18_relative_timestamps (s : State) (raw : SensorCombined) (hp : s.publishing = true)
    (ht : 0 < raw.timestamp) :
    (publish_snapshot s raw).2 = some (publish_snapshot s raw).1 ∧
    (s.last_accel_timestamp s.accel.last_best_vote ≠ 0 →
      (publish_snapshot s raw).1.accelerometer_timestamp_relative
        = toInt32 (u64sub (s.last_accel_timestamp s.accel.last_best_vote) raw.timestamp) ∧
      -(2 ^ 31 : Int) ≤ (publish_snapshot s raw).1.accelerometer_timestamp_relative ∧
      (publish_snapshot s raw).1.accelerometer_timestamp_relative < 2 ^ 31 ∧
      (publish_snapshot s raw).1.accelerometer_timestamp_relative % 2 ^ 32
        = ((u64sub (s.last_accel_timestamp s.accel.last_best_vote) raw.timestamp : Nat) : Int) % 2 ^ 32 ∧
      (-(2 ^ 31 : Int) ≤ (s.last_accel_timestamp s.accel.last_best_vote : Int) - raw.timestamp →
        (s.last_accel_timestamp s.accel.last_best_vote : Int) - raw.timestamp < 2 ^ 31 →
        (publish_snapshot s raw).1.accelerometer_timestamp_relative
          = (s.last_accel_timestamp s.accel.last_best_vote : Int) - raw.timestamp) ∧
      (s.last_accel_timestamp s.accel.last_best_vote < raw.timestamp →
        raw.timestamp - s.last_accel_timestamp s.accel.last_best_vote ≤ 2 ^ 31 →
        (publish_snapshot s raw).1.accelerometer_timestamp_relative < 0)) ∧
    (s.last_accel_timestamp s.accel.last_best_vote = 0 →
      (publish_snapshot s raw).1.accelerometer_timestamp_relative = raw.accelerometer_timestamp_relative) ∧
    (s.last_mag_timestamp s.mag.last_best_vote ≠ 0 →
      (publish_snapshot s raw).1.magnetometer_timestamp_relative
        = toInt32 (u64sub (s.last_mag_timestamp s.mag.last_best_vote) raw.timestamp) ∧
      -(2 ^ 31 : Int) ≤ (publish_snapshot s raw).1.magnetometer_timestamp_relative ∧
      (publish_snapshot s raw).1.magnetometer_timestamp_relative < 2 ^ 31 ∧
      (publish_snapshot s raw).1.magnetometer_timestamp_relative % 2 ^ 32
        = ((u64sub (s.last_mag_timestamp s.mag.last_best_vote) raw.timestamp : Nat) : Int) % 2 ^ 32 ∧
      (-(2 ^ 31 : Int) ≤ (s.last_mag_timestamp s.mag.last_best_vote : Int) - raw.timestamp →
        (s.last_mag_timestamp s.mag.last_best_vote : Int) - raw.timestamp < 2 ^ 31 →
        (publish_snapshot s raw).1.magnetometer_timestamp_relative
          = (s.last_mag_timestamp s.mag.last_best_vote : Int) - raw.timestamp) ∧
      (s.last_mag_timestamp s.mag.last_best_vote < raw.timestamp →
        raw.timestamp - s.last_mag_timestamp s.mag.last_best_vote ≤ 2 ^ 31 →
        (publish_snapshot s raw).1.magnetometer_timestamp_relative < 0)) ∧
    (s.last_mag_timestamp s.mag.last_best_vote = 0 →
      (publish_snapshot s raw).1.magnetometer_timestamp_relative = raw.magnetometer_timestamp_relative) ∧
    (s.last_baro_timestamp s.baro.last_best_vote ≠ 0 →
      (publish_snapshot s raw).1.baro_timestamp_relative
        = toInt32 (u64sub (s.last_baro_timestamp s.baro.last_best_vote) raw.timestamp) ∧
      -(2 ^ 31 : Int) ≤ (publish_snapshot s raw).1.baro_timestamp_relative ∧
      (publish_snapshot s raw).1.baro_timestamp_relative < 2 ^ 31 ∧
      (publish_snapshot s raw).1.baro_timestamp_relative % 2 ^ 32
        = ((u64sub (s.last_baro_timestamp s.baro.last_best_vote) raw.timestamp : Nat) : Int) % 2 ^ 32 ∧
      (-(2 ^ 31 : Int) ≤ (s.last_baro_timestamp s.baro.last_best_vote : Int) - raw.timestamp →
        (s.last_baro_timestamp s.baro.last_best_vote : Int) - raw.timestamp < 2 ^ 31 →
        (publish_snapshot s raw).1.baro_timestamp_relative
          = (s.last_baro_timestamp s.baro.last_best_vote : Int) - raw.timestamp) ∧
      (s.last_baro_timestamp s.baro.last_best_vote < raw.timestamp →
        raw.timestamp - s.last_baro_timestamp s.baro.last_best_vote ≤ 2 ^ 31 →
        (publish_snapshot s raw).1.baro_timestamp_relative < 0)) ∧
    (s.last_baro_timestamp s.baro.last_best_vote = 0 →
      (publish_snapshot s raw).1.baro_timestamp_relative = raw.baro_timestamp_relative) := by
  have hf := publish_snapshot_fields s raw hp ht
  refine ⟨hf.1, ?_, ?_, ?_, ?_, ?_, ?_⟩
  · intro h
    have hr := relative_timestamp_facts (s.last_accel_timestamp s.accel.last_best_vote)
      raw.timestamp
    rw [hf.2.1, if_pos h]
    exact ⟨rfl, hr⟩
  · intro h
    rw [hf.2.1, if_neg (not_not.mpr h)]
  · intro h
    have hr := relative_timestamp_facts (s.last_mag_timestamp s.mag.last_best_vote)
      raw.timestamp
    rw [hf.2.2.1, if_pos h]
    exact ⟨rfl, hr⟩
  · intro h
    rw [hf.2.2.1, if_neg (not_not.mpr h)]
  · intro h
    have hr := relative_timestamp_facts (s.last_baro_timestamp s.baro.last_best_vote)
      raw.timestamp
    rw [hf.2.2.2, if_pos h]
    exact ⟨rfl, hr⟩
  · intro h
    rw [hf.2.2.2, if_neg (not_not.mpr h)]

/-! ## Adoption of sensor instances -/

/-- Closed form of the slot loop of `init_sensor_class` over the first `n` slots. -/
theorem init_sensor_loop_spec (bus : Bus) (d : SensorData) (n : Nat) :
    ((List.range n).foldl (init_sensor_slot bus) (d, [])).1.subscription
      = (fun j => if j < n then
          (if d.subscription j < 0 then bus.subscribe_multi j else d.subscription j)
          else d.subscription j) ∧
    ((List.range n).foldl (init_sensor_slot bus) (d, [])).1.priority
      = (fun j => if j < n then
          toUInt8 (bus.priority
            (if d.subscription j < 0 then bus.subscribe_multi j else d.subscription j))
          else d.priority j) ∧
    ((List.range n).foldl (init_sensor_slot bus) (d, [])).2
      = (List.range n).filter (fun j => decide (d.subscription j < 0)) ∧
    ((List.range n).foldl (init_sensor_slot bus) (d, [])).1.last_best_vote = d.last_best_vote ∧
    ((List.range n).foldl (init_sensor_slot bus) (d, [])).1.subscription_count
      = d.subscription_count ∧
    ((List.range n).foldl (init_sensor_slot bus) (d, [])).1.voter = d.voter ∧
    ((List.range n).foldl (init_sensor_slot bus) (d, [])).1.last_failover_count
      = d.last_failover_count := by
  induction n with
  | zero => simp
  | succ n ih =>
    rw [List.range_succ, List.foldl_append]
    simp only [List.foldl_cons, List.foldl_nil]
    obtain ⟨h1, h2, h3, h4, h5, h6, h7⟩ := ih
    generalize (List.range n).foldl (init_sensor_slot bus) (d, []) = r at h1 h2 h3 h4 h5 h6 h7 ⊢
    simp only [init_sensor_slot, h1, h2, h3, h4, h5, h6, h7, lt_self_iff_false, if_false]
    refine ⟨?_, ?_, ?_, trivial, trivial, trivial, trivial⟩
    · funext j
      unfold upd
      by_cases hj : j = n
      · subst hj
        simp
      · by_cases hlt : j < n
        · have : j < n + 1 := by omega
          simp [hj, hlt, this]
        · have : ¬ j < n + 1 := by omega
          simp [hj, hlt, this]
    · funext j
      unfold upd
      by_cases hj : j = n
      · subst hj
        simp
      · by_cases hlt : j < n
        · have : j < n + 1 := by omega
          simp [hj, hlt, this]
        · have : ¬ j < n + 1 := by omega
          simp [hj, hlt, this]
    · rw [List.filter_append]
      by_cases hs : d.subscription n < 0 <;> simp [hs, List.filter]

/-- Closed form of `init_sensor_class`. -/
theorem init_sensor_class_spec (bus : Bus) (d : SensorData) :
    (init_sensor_class bus d).1 =
      { subscription := fun j => if j < clamped_group_count bus then
          (if d.subscription j < 0 then bus.subscribe_multi j else d.subscription j)
          else d.subscription j
        priority := fun j => if j < clamped_group_count bus then
          toUInt8 (bus.priority
            (if d.subscription j < 0 then bus.subscribe_multi j else d.subscription j))
          else d.priority j
        last_best_vote := d.last_best_vote
        subscription_count := clamped_group_count bus
        voter := d.voter
        last_failover_count := d.last_failover_count } ∧
    (init_sensor_class bus d).2
      = (List.range (clamped_group_count bus)).filter (fun j => decide (d.subscription j < 0)) := by
  obtain ⟨h1, h2, h3, h4, _, h6, h7⟩ := init_sensor_loop_spec bus d (clamped_group_count bus)
  unfold init_sensor_class
  simp only [h1, h2, h3, h4, h6, h7, and_self]

/-- The clamped group count is the minimum of the group count and `SENSOR_COUNT_MAX`. -/
theorem clamped_group_count_eq (bus : Bus) :
    clamped_group_count bus = min bus.group_count SENSOR_COUNT_MAX ∧
    clamped_group_count bus ≤ SENSOR_COUNT_MAX := by
  unfold clamped_group_count
  split_ifs <;> omega

/-- C19: after `init_sensor_class`, for every group count the bus reports, the class's
`subscription_count` is at most `SENSOR_COUNT_MAX = 3` and equals `min(group count, 3)`;
slots at or above that count keep their subscription and priority, `orb_subscribe_multi` is
called only for instances below the count, and the vote, the voter and the failover counter
are not touched. -/
theorem C19_subscription_count_bounded (bus : Bus) (d : SensorData) :
    (init_sensor_class bus d).1.subscription_count ≤ SENSOR_COUNT_MAX ∧
    (init_sensor_class bus d).1.subscription_count = min bus.group_count SENSOR_COUNT_MAX ∧
    (∀ j, (init_sensor_class bus d).1.subscription_count ≤ j →
      (init_sensor_class bus d).1.subscription j = d.subscription j ∧
      (init_sensor_class bus d).1.priority j = d.priority j) ∧
    (∀ i, i ∈ (init_sensor_class bus d).2 → i < (init_sensor_class bus d).1.subscription_count) ∧
    (init_sensor_class bus d).1.last_best_vote = d.last_best_vote ∧
    (init_sensor_class bus d).1.voter = d.voter ∧
    (init_sensor_class bus d).1.last_failover_count = d.last_failover_count := by
  obtain ⟨h1, h2⟩ := init_sensor_class_spec bus d
  have hc := clamped_group_count_eq bus
  rw [h1, h2]
  refine ⟨hc.2, hc.1, ?_, ?_, rfl, rfl, rfl⟩
  · intro j hj
    have : ¬ j < clamped_group_count bus := by
      simp only at hj
      omega
    simp only [this, if_false, and_self]
  · intro i hi
    exact List.mem_range.mp (List.mem_filter.mp hi).1

/-- C20: a slot that is already bound (`subscription[i] >= 0`) keeps its handle and is not
subscribed again; its priority is refreshed from the bus, which leaves it unchanged when it
already holds the priority the bus reports. Running `init_sensor_class` a second time on the
result of the first run, against the same bus, gives the same class state, and the second run
calls `orb_subscribe_multi` only for slots whose first subscription failed. -/
theorem C20_init_idempotent (bus : Bus) (d : SensorData) :
    (∀ i, 0 ≤ d.subscription i →
      (init_sensor_class bus d).1.subscription i = d.subscription i ∧
      i ∉ (init_sensor_class bus d).2 ∧
      (i < (init_sensor_class bus d).1.subscription_count →
        (init_sensor_class bus d).1.priority i = toUInt8 (bus.priority (d.subscription i))) ∧
      (d.priority i = toUInt8 (bus.priority (d.subscription i)) →
        (init_sensor_class bus d).1.priority i = d.priority i)) ∧
    (init_sensor_class bus (init_sensor_class bus d).1).1 = (init_sensor_class bus d).1 ∧
    (∀ i, i ∈ (init_sensor_class bus (init_sensor_class bus d).1).2 →
      d.subscription i < 0 ∧ bus.subscribe_multi i < 0) := by
  obtain ⟨h1, h2⟩ := init_sensor_class_spec bus d
  obtain ⟨k1, k2⟩ := init_sensor_class_spec bus (init_sensor_class bus d).1
  refine ⟨?_, ?_, ?_⟩
  · intro i hi
    have hn : ¬ d.subscription i < 0 := by omega
    rw [h1, h2]
    refine ⟨?_, ?_, ?_, ?_⟩
    · simp only [hn, if_false, ite_self]
    · intro hmem
      have := (List.mem_filter.mp hmem).2
      simp only [decide_eq_true_eq] at this
      exact hn this
    · intro hlt
      simp only at hlt
      simp only [hlt, hn, if_true, if_false]
    · intro hp
      simp only [hn, if_false]
      split_ifs
      · exact hp.symm
      · rfl
  · rw [k1, h1]
    simp only [SensorData.mk.injEq, and_true, true_and]
    constructor
    · funext j
      by_cases hj : j < clamped_group_count bus
      · by_cases hs : d.subscription j < 0
        · by_cases hb : bus.subscribe_multi j < 0 <;> simp [hj, hs, hb]
        · simp [hj, hs]
      · simp [hj]
    · funext j
      by_cases hj : j < clamped_group_count bus
      · by_cases hs : d.subscription j < 0
        · by_cases hb : bus.subscribe_multi j < 0 <;> simp [hj, hs, hb]
        · simp [hj, hs]
      · simp [hj]
  · intro i hi
    rw [k2, h1] at hi
    have hm := List.mem_filter.mp hi
    have hlt := List.mem_range.mp hm.1
    have h3 := hm.2
    simp only [hlt, if_true, decide_eq_true_eq] at h3
    by_cases hs : d.subscription i < 0
    · simp only [hs, if_true] at h3
      exact ⟨hs, h3⟩
    · simp only [hs, if_false] at h3

/-- C19 instance: a bus with five gyro instances and a freshly constructed class: the count
becomes 3, the instances 0, 1, 2 are subscribed, and slot 3 is left unbound. -/
theorem C19_subscription_count_bounded_witness :
    (init_sensor_class example_bus (SensorData.ctor (fun _ => 0))).1.subscription_count
      = min example_bus.group_count SENSOR_COUNT_MAX ∧
    (init_sensor_class example_bus (SensorData.ctor (fun _ => 0))).1.subscription_count = 3 ∧
    (init_sensor_class example_bus (SensorData.ctor (fun _ => 0))).2 = [0, 1, 2] ∧
    ((init_sensor_class example_bus (SensorData.ctor (fun _ => 0))).1.subscription 3
        = (SensorData.ctor (fun _ => 0)).subscription 3 ∧
      (init_sensor_class example_bus (SensorData.ctor (fun _ => 0))).1.priority 3
        = (SensorData.ctor (fun _ => 0)).priority 3) :=
  ⟨(C19_subscription_count_bounded example_bus (SensorData.ctor (fun _ => 0))).2.1,
   by decide, by decide,
   (C19_subscription_count_bounded example_bus (SensorData.ctor (fun _ => 0))).2.2.1 3
     (by decide)⟩

/-- C20 instance: after one adoption against `example_bus`, slot 0 is bound to handle 10; a
second adoption keeps the handle, subscribes nothing and returns the same class state. -/
theorem C20_init_idempotent_witness :
    (init_sensor_class example_bus (SensorData.ctor (fun _ => 0))).1.subscription 0 = 10 ∧
    (init_sensor_class example_bus
        (init_sensor_class example_bus (SensorData.ctor (fun _ => 0))).1).1.subscription 0
      = (init_sensor_class example_bus (SensorData.ctor (fun _ => 0))).1.subscription 0 ∧
    (init_sensor_class example_bus
        (init_sensor_class example_bus (SensorData.ctor (fun _ => 0))).1).2 = [] ∧
    (init_sensor_class example_bus
        (init_sensor_class example_bus (SensorData.ctor (fun _ => 0))).1).1
      = (init_sensor_class example_bus (SensorData.ctor (fun _ => 0))).1 :=
  ⟨by decide,
   ((C20_init_idempotent example_bus
      (init_sensor_class example_bus (SensorData.ctor (fun _ => 0))).1).1 0 (by decide)).1,
   by decide,
   (C20_init_idempotent example_bus (SensorData.ctor (fun _ => 0))).2.1⟩

/-! ## Failover reports -/

/-- C15: `check_failover` returns true exactly when the voter's `failover_count` differs from
the class's `last_failover_count` on entry. In that case it logs exactly one message, sets
`last_failover_count` to the voter's count and leaves the voter alone, so that a second call
on the result returns false, logs nothing and changes nothing. When the counts are equal it
logs nothing and returns the state unchanged. -/
theorem C15_check_failover_edge (view : VoterView) (m : ErrorFlags) (sensor : SensorData)
    (name : VotedClass) :
    ((check_failover view m sensor name).2.1 = true ↔
      sensor.last_failover_count ≠ view.failover_count sensor.voter) ∧
    (sensor.last_failover_count ≠ view.failover_count sensor.voter →
      (check_failover view m sensor name).2.2.length = 1 ∧
      (check_failover view m sensor name).1.last_failover_count
        = view.failover_count sensor.voter ∧
      (check_failover view m sensor name).1.voter = sensor.voter ∧
      check_failover view m (check_failover view m sensor name).1 name
        = ((check_failover view m sensor name).1, false, [])) ∧
    (sensor.last_failover_count = view.failover_count sensor.voter →
      check_failover view m sensor name = (sensor, false, [])) := by
  unfold check_failover
  by_cases h : sensor.last_failover_count = view.failover_count sensor.voter
  · simp [h]
  · simp [h]

/-- A label is among the texts of the emergency message exactly when its flag is set. -/
theorem failover_labels_mem (m : ErrorFlags) (flags : Nat) :
    (FailoverLabel.no_data ∈ failover_labels m flags ↔ flags &&& m.NO_DATA ≠ 0) ∧
    (FailoverLabel.stale_data ∈ failover_labels m flags ↔ flags &&& m.STALE_DATA ≠ 0) ∧
    (FailoverLabel.data_timeout ∈ failover_labels m flags ↔ flags &&& m.TIMEOUT ≠ 0) ∧
    (FailoverLabel.high_error_count ∈ failover_labels m flags ↔
      flags &&& m.HIGH_ERRCOUNT ≠ 0) ∧
    (FailoverLabel.high_error_density ∈ failover_labels m flags ↔
      flags &&& m.HIGH_ERRDENSITY ≠ 0) := by
  unfold failover_labels flag_label
  refine ⟨?_, ?_, ?_, ?_, ?_⟩ <;>
    simp only [List.mem_append, List.mem_ite_nil_right, List.mem_singleton, reduceCtorEq,
      and_false, or_false, false_or, and_true, ne_eq]

/-- C16: when `check_failover` reports a switch, the message is the informational one exactly
when the voter's `failover_state` is 0; for every nonzero `failover_state` it is the
emergency message, and its texts contain the label of a flag exactly when that flag is set
in `failover_state`, for each of the five flags. -/
theorem C16_failover_message_level (view : VoterView) (m : ErrorFlags) (sensor : SensorData)
    (name : VotedClass)
    (h : sensor.last_failover_count ≠ view.failover_count sensor.voter) :
    (view.failover_state sensor.voter = 0 →
      (check_failover view m sensor name).2.2
        = [FailoverMessage.info name (view.failover_index sensor.voter)]) ∧
    (view.failover_state sensor.voter ≠ 0 →
      (check_failover view m sensor name).2.2
        = [FailoverMessage.emergency name (view.failover_index sensor.voter)
            (failover_labels m (view.failover_state sensor.voter))]) ∧
    ((∃ i, (check_failover view m sensor name).2.2 = [FailoverMessage.info name i]) ↔
      view.failover_state sensor.voter = 0) ∧
    ((FailoverLabel.no_data ∈ failover_labels m (view.failover_state sensor.voter) ↔
        view.failover_state sensor.voter &&& m.NO_DATA ≠ 0) ∧
      (FailoverLabel.stale_data ∈ failover_labels m (view.failover_state sensor.voter) ↔
        view.failover_state sensor.voter &&& m.STALE_DATA ≠ 0) ∧
      (FailoverLabel.data_timeout ∈ failover_labels m (view.failover_state sensor.voter) ↔
        view.failover_state sensor.voter &&& m.TIMEOUT ≠ 0) ∧
      (FailoverLabel.high_error_count ∈ failover_labels m (view.failover_state sensor.voter) ↔
        view.failover_state sensor.voter &&& m.HIGH_ERRCOUNT ≠ 0) ∧
      (FailoverLabel.high_error_density
          ∈ failover_labels m (view.failover_state sensor.voter) ↔
        view.failover_state sensor.voter &&& m.HIGH_ERRDENSITY ≠ 0)) := by
  refine ⟨?_, ?_, ?_, failover_labels_mem m (view.failover_state sensor.voter)⟩
  · intro hz
    simp [check_failover, ERROR_FLAG_NO_ERROR, h, hz]
  · intro hz
    simp [check_failover, ERROR_FLAG_NO_ERROR, h, hz]
  · by_cases hz : view.failover_state sensor.voter = 0
    · simp [check_failover, ERROR_FLAG_NO_ERROR, h, hz]
    · simp [check_failover, ERROR_FLAG_NO_ERROR, h, hz]

/-- C15 instance: a class with `last_failover_count = 0` whose voter reports one failover:
the call returns true with one message and records the count; the next call returns false. -/
theorem C15_check_failover_edge_witness :
    (check_failover (example_view 0) example_flags one_election_class VotedClass.gyro).2.1
      = true ∧
    (check_failover (example_view 0) example_flags one_election_class
        VotedClass.gyro).2.2.length = 1 ∧
    (check_failover (example_view 0) example_flags one_election_class
        VotedClass.gyro).1.last_failover_count = 1 ∧
    check_failover (example_view 0) example_flags
        (check_failover (example_view 0) example_flags one_election_class VotedClass.gyro).1
        VotedClass.gyro
      = ((check_failover (example_view 0) example_flags one_election_class VotedClass.gyro).1,
          false, []) :=
  ⟨(C15_check_failover_edge (example_view 0) example_flags one_election_class
      VotedClass.gyro).1.mpr (by decide),
   ((C15_check_failover_edge (example_view 0) example_flags one_election_class
      VotedClass.gyro).2.1 (by decide)).1,
   ((C15_check_failover_edge (example_view 0) example_flags one_election_class
      VotedClass.gyro).2.1 (by decide)).2.1,
   ((C15_check_failover_edge (example_view 0) example_flags one_election_class
      VotedClass.gyro).2.1 (by decide)).2.2.2⟩

/-- C16 instance: `failover_state = 5` (no data and timeout) gives the emergency message with
exactly these two texts; `failover_state = 0` gives the informational message. -/
theorem C16_failover_message_level_witness :
    (check_failover (example_view 5) example_flags one_election_class VotedClass.gyro).2.2
      = [FailoverMessage.emergency VotedClass.gyro 0
          (failover_labels example_flags 5)] ∧
    failover_labels example_flags 5 = [FailoverLabel.no_data, FailoverLabel.data_timeout] ∧
    (check_failover (example_view 0) example_flags one_election_class VotedClass.gyro).2.2
      = [FailoverMessage.info VotedClass.gyro 0] :=
  ⟨(C16_failover_message_level (example_view 5) example_flags one_election_class
      VotedClass.gyro (by decide)).2.1 (by decide),
   by decide,
   (C16_failover_message_level (example_view 0) example_flags one_election_class
      VotedClass.gyro (by decide)).1 rfl⟩

/-- C17 (counterexample): the voter's failover count is 2 at the first `check_failover` call
of a class whose recorded count is 0 (two elections switched the winner before the first
publication). One report is logged for an increase of 2. -/
theorem C17_one_report_for_two_failovers :
    (failover_reports (example_view 0) example_flags VotedClass.gyro
        [[VoterCall.get_best 1, VoterCall.get_best 2]]
        (SensorData.ctor (fun _ => 0))).2.length = 1 ∧
    (example_view 0).failover_count [VoterCall.get_best 1, VoterCall.get_best 2]
      - (SensorData.ctor (fun _ => 0)).last_failover_count = 2 := by
  decide

/-- C17 (amended): over the `check_failover` calls of a run for one class, with a failover
count that never decreases, the number of reports is at most the total increase of the
count (the recorded `last_failover_count` ends at the count seen by the last call); the two
are equal when the count grows by at most one between consecutive calls. -/
theorem C17_reports_at_most_increase (view : VoterView) (m : ErrorFlags) (name : VotedClass)
    (hs : List (List VoterCall)) (d : SensorData)
    (hmono : List.Chain (fun a b => a ≤ b) d.last_failover_count (hs.map view.failover_count)) :
    (failover_reports view m name hs d).2.length + d.last_failover_count
      ≤ (failover_reports view m name hs d).1.last_failover_count ∧
    (failover_reports view m name hs d).1.last_failover_count
      = (hs.map view.failover_count).getLastD d.last_failover_count ∧
    (List.Chain (fun a b => b ≤ a + 1) d.last_failover_count (hs.map view.failover_count) →
      (failover_reports view m name hs d).2.length + d.last_failover_count
        = (failover_reports view m name hs d).1.last_failover_count) := by
  induction hs generalizing d with
  | nil => simp [failover_reports]
  | cons h rest ih =>
    simp only [List.map_cons, List.chain_cons] at hmono
    obtain ⟨hle, hrest⟩ := hmono
    unfold failover_reports
    by_cases hc : d.last_failover_count = view.failover_count h
    · have hr : check_failover view m { d with voter := h } name
          = ({ d with voter := h }, false, []) := by
        simp [check_failover, hc]
      simp only [hr, List.nil_append]
      have ih2 := ih { d with voter := h } (by simpa [hc] using hrest)
      simp only [List.map_cons, List.chain_cons, List.getLastD_cons] at ih2 ⊢
      refine ⟨ih2.1, ?_, ?_⟩
      · rw [ih2.2.1, hc]
      · intro hch
        exact ih2.2.2 (by simpa [hc] using hch.2)
    · have hr : check_failover view m { d with voter := h } name
          = ({ d with voter := h, last_failover_count := view.failover_count h }, true,
              [if view.failover_state h = ERROR_FLAG_NO_ERROR then
                FailoverMessage.info name (view.failover_index h)
               else FailoverMessage.emergency name (view.failover_index h)
                (failover_labels m (view.failover_state h))]) := by
        simp [check_failover, hc]
      simp only [hr]
      have ih2 := ih { d with voter := h, last_failover_count := view.failover_count h }
        (by simpa using hrest)
      simp only [List.map_cons, List.chain_cons, List.getLastD_cons, List.length_append,
        List.length_singleton] at ih2 ⊢
      refine ⟨by omega, ih2.2.1, ?_⟩
      intro hch
      have := ih2.2.2 hch.2
      omega

/-- C17 instance: the count is 1, 1 and 2 at three successive calls: two reports, equal to
the total increase from 0 to 2. -/
theorem C17_reports_at_most_increase_witness :
    (failover_reports (example_view 0) example_flags VotedClass.gyro
        [[VoterCall.get_best 1], [VoterCall.get_best 1],
         [VoterCall.get_best 1, VoterCall.get_best 2]]
        (SensorData.ctor (fun _ => 0))).2.length
      + (SensorData.ctor (fun _ => 0)).last_failover_count
      = (failover_reports (example_view 0) example_flags VotedClass.gyro
        [[VoterCall.get_best 1], [VoterCall.get_best 1],
         [VoterCall.get_best 1, VoterCall.get_best 2]]
        (SensorData.ctor (fun _ => 0))).1.last_failover_count :=
  (C17_reports_at_most_increase (example_view 0) example_flags VotedClass.gyro
    [[VoterCall.get_best 1], [VoterCall.get_best 1],
     [VoterCall.get_best 1, VoterCall.get_best 2]]
    (SensorData.ctor (fun _ => 0))
    (by simp [example_view, SensorData.ctor])).2.2 (by simp [example_view, SensorData.ctor])

/-! ## The rate limit of the power monitor -/

/-- The channel loop only appends publications of the differential pressure. -/
theorem adc_channel_events (board : BoardConfig) (p : Parameters) (t : Nat) (acc : AdcScan)
    (msg : AdcMsg) :
    ∃ extra, (adc_channel board p t acc msg).events = acc.events ++ extra ∧
      ∀ e ∈ extra, AdcEvent.is_read e = false := by
  unfold adc_channel
  split_ifs
  · exact ⟨[], by simp, by simp⟩
  · exact ⟨[], by simp, by simp⟩
  · cases board.ADC_AIRSPEED_VOLTAGE_CHANNEL with
    | none => exact ⟨[], by simp, by simp⟩
    | some ch =>
      simp only
      split_ifs
      · exact ⟨[_], rfl, by simp [AdcEvent.is_read]⟩
      · exact ⟨[], by simp, by simp⟩
      · exact ⟨[], by simp, by simp⟩

/-- The whole channel loop only appends publications of the differential pressure. -/
theorem adc_fold_events (board : BoardConfig) (p : Parameters) (t : Nat) (l : List AdcMsg)
    (acc : AdcScan) :
    ∃ extra, (l.foldl (adc_channel board p t) acc).events = acc.events ++ extra ∧
      ∀ e ∈ extra, AdcEvent.is_read e = false := by
  induction l generalizing acc with
  | nil => exact ⟨[], by simp, by simp⟩
  | cons m rest ih =>
    obtain ⟨e1, h1, n1⟩ := adc_channel_events board p t acc m
    obtain ⟨e2, h2, n2⟩ := ih (adc_channel board p t acc m)
    refine ⟨e1 ++ e2, ?_, ?_⟩
    · simp only [List.foldl_cons, h2, h1, List.append_assoc]
    · intro e he
      rcases List.mem_append.mp he with h | h
      · exact n1 e h
      · exact n2 e h

/-- A call that is not publishing, or that comes before the interval has elapsed, does
nothing. -/
theorem adc_poll_idle (board : BoardConfig) (p : Parameters) (t : Nat) (adc : List AdcMsg)
    (throttle : Rat) (s : State) (a : AirData)
    (h : s.publishing = false ∨ u64sub t s.last_adc < 10000) :
    adc_poll board p t adc throttle s a = (s, a, []) := by
  unfold adc_poll
  rcases h with h | h
  · simp [h]
  · have hw : ¬ 10000 ≤ u64sub t s.last_adc := by omega
    simp [hw]

/-- A publishing call after the interval reads; without data it changes nothing else. -/
theorem adc_poll_no_data (board : BoardConfig) (p : Parameters) (t : Nat)
    (throttle : Rat) (s : State) (a : AirData)
    (hp : s.publishing = true) (hw : 10000 ≤ u64sub t s.last_adc) :
    adc_poll board p t [] throttle s a = (s, a, [AdcEvent.read 0]) := by
  unfold adc_poll
  simp [hp, hw]

/-- A publishing call after the interval that gets data: one read, then publications, and
the time of the call becomes `_last_adc`. -/
theorem adc_poll_data (board : BoardConfig) (p : Parameters) (t : Nat) (first : AdcMsg)
    (more : List AdcMsg) (throttle : Rat) (s : State) (a : AirData)
    (hp : s.publishing = true) (hw : 10000 ≤ u64sub t s.last_adc) :
    (adc_poll board p t (first :: more) throttle s a).1 = { s with last_adc := t } ∧
    ∃ extra, (adc_poll board p t (first :: more) throttle s a).2.2
        = AdcEvent.read (more.length + 1) :: extra ∧
      ∀ e ∈ extra, AdcEvent.is_read e = false := by
  obtain ⟨extra, he, hn⟩ := adc_fold_events board p t (first :: more)
    { bat_voltage_v := 0, bat_current_a := 0, updated_battery := false,
      diff_pres := a.diff_pres, events := [AdcEvent.read (first :: more).length] }
  unfold adc_poll
  rw [if_neg (by simp [hp]), if_pos hw]
  refine ⟨rfl, ?_⟩
  simp only [he]
  split_ifs
  · refine ⟨extra ++ [AdcEvent.publish_battery _ _ _ _ _], rfl, ?_⟩
    intro e hmem
    rcases List.mem_append.mp hmem with h | h
    · exact hn e h
    · rw [List.mem_singleton.mp h]
      rfl
  · exact ⟨extra, rfl, hn⟩

/-- Events other than the read contribute no read time. -/
theorem data_read_times_no_read (t : Nat) (extra : List AdcEvent)
    (h : ∀ e ∈ extra, AdcEvent.is_read e = false) :
    data_read_times (extra.map (fun e => (t, e))) = [] := by
  unfold data_read_times
  induction extra with
  | nil => rfl
  | cons e rest ih =>
    have he : AdcEvent.is_data_read e = false := by
      have := h e (List.mem_cons_self _ _)
      cases e with
      | read n => simp [AdcEvent.is_read] at this
      | publish_diff_pres m => rfl
      | publish_battery t v c th ar => rfl
    have hr : ∀ x ∈ rest, AdcEvent.is_read x = false :=
      fun x hx => h x (List.mem_cons_of_mem _ hx)
    simp only [List.map_cons, List.filter_cons, he]
    exact ih hr

/-- The data-read times of two event lists in sequence. -/
theorem data_read_times_append (l1 l2 : List (Nat × AdcEvent)) :
    data_read_times (l1 ++ l2) = data_read_times l1 ++ data_read_times l2 := by
  simp [data_read_times]

/-- A read that returned samples contributes the time of its call. -/
theorem data_read_times_cons_read (t n : Nat) (extra : List AdcEvent) :
    data_read_times ((AdcEvent.read (n + 1) :: extra).map (fun e => (t, e)))
      = t :: data_read_times (extra.map (fun e => (t, e))) := by
  simp [data_read_times, AdcEvent.is_data_read]

/-- In a run whose clock does not go back, the reads that return data are at least
10 000 us apart, the first one at least 10 000 us after the initial `_last_adc`. -/
theorem adc_poll_run_spacing (board : BoardConfig) (p : Parameters) (calls : List AdcCall)
    (s : State) (a : AirData)
    (hfrom : ∀ c ∈ calls, s.last_adc ≤ c.t)
    (hsorted : calls.Pairwise (fun c1 c2 => c1.t ≤ c2.t))
    (hbound : ∀ c ∈ calls, c.t < 2 ^ 64) :
    List.Chain (fun x y => x + 10000 ≤ y) s.last_adc
      (data_read_times (adc_poll_run board p calls s a).2.2) := by
  induction calls generalizing s a with
  | nil => exact List.Chain.nil
  | cons c rest ih =>
    have hc_mem : c ∈ c :: rest := List.mem_cons_self _ _
    have hs := List.pairwise_cons.mp hsorted
    have hrest_from : ∀ x ∈ rest, s.last_adc ≤ x.t :=
      fun x hx => hfrom x (List.mem_cons_of_mem _ hx)
    have hrest_bound : ∀ x ∈ rest, x.t < 2 ^ 64 :=
      fun x hx => hbound x (List.mem_cons_of_mem _ hx)
    unfold adc_poll_run
    simp only
    rw [data_read_times_append]
    by_cases hidle : s.publishing = false ∨ u64sub c.t s.last_adc < 10000
    · rw [adc_poll_idle board p c.t c.adc c.throttle s a hidle]
      exact ih s a hrest_from hs.2 hrest_bound
    · have hp : s.publishing = true := by
        cases hpub : s.publishing with
        | true => rfl
        | false => exact absurd (Or.inl hpub) hidle
      have hw : 10000 ≤ u64sub c.t s.last_adc := by
        by_contra hcon
        exact hidle (Or.inr (by omega))
      cases hadc : c.adc with
      | nil =>
        rw [adc_poll_no_data board p c.t c.throttle s a hp hw]
        exact ih s a hrest_from hs.2 hrest_bound
      | cons first more =>
        obtain ⟨h1, extra, he, hn⟩ := adc_poll_data board p c.t first more c.throttle s a hp hw
        rw [he, data_read_times_cons_read, data_read_times_no_read c.t extra hn, h1]
        refine List.Chain.cons ?_ ?_
        · have hle := hfrom c hc_mem
          have hb := hbound c hc_mem
          rw [u64sub_of_le c.t s.last_adc hb hle] at hw
          omega
        · exact ih { s with last_adc := c.t }
            (adc_poll board p c.t (first :: more) c.throttle s a).2.1
            (fun x hx => hs.1 x hx) hs.2 hrest_bound

/-- C14 (counterexample): the stated rule fails in both directions. A publishing object
whose reads return no sample reads at 20 000 us and again at 20 001 us, since `_last_adc` is
set only when a read returns data. An object that is not publishing performs no read although
20 000 us have passed since `_last_adc`. -/
theorem C14_reads_one_microsecond_apart :
    (one_instance_state.publishing = true ∧
     read_times (adc_poll_run example_board example_params silent_adc_calls
        one_instance_state example_air).2.2 = [20000, 20001]) ∧
    (10000 ≤ u64sub 20000 muted_state.last_adc ∧
     (adc_poll example_board example_params 20000 [{ am_channel := 4, am_data := 100 }] 0
        muted_state example_air).2.2 = []) := by
  decide

/-- C14 (amended): while the object is not publishing, or less than 10 000 us (wrapping
64-bit difference) after `_last_adc`, `adc_poll` does nothing. A publishing call at or after
10 000 us performs exactly one read, before anything else; `_last_adc` becomes the call time
when the read returned a sample, and nothing changes when it returned none. A call that
reads is publishing and at least 10 000 us after `_last_adc`. In every run with a monotone
clock the reads that return data are at least 10 000 us apart. -/
theorem C14_adc_rate_limit (board : BoardConfig) (p : Parameters) (t : Nat)
    (adc : List AdcMsg) (throttle : Rat) (s : State) (a : AirData) :
    (s.publishing = false ∨ u64sub t s.last_adc < 10000 →
      adc_poll board p t adc throttle s a = (s, a, [])) ∧
    (s.publishing = true → 10000 ≤ u64sub t s.last_adc →
      (∃ extra, (adc_poll board p t adc throttle s a).2.2 = AdcEvent.read adc.length :: extra ∧
        ∀ e ∈ extra, AdcEvent.is_read e = false) ∧
      (adc = [] → adc_poll board p t adc throttle s a = (s, a, [AdcEvent.read 0])) ∧
      (adc ≠ [] → (adc_poll board p t adc throttle s a).1 = { s with last_adc := t })) ∧
    ((∃ e ∈ (adc_poll board p t adc throttle s a).2.2, AdcEvent.is_read e = true) →
      s.publishing = true ∧ 10000 ≤ u64sub t s.last_adc) ∧
    (∀ calls : List AdcCall,
      (∀ c ∈ calls, s.last_adc ≤ c.t) →
      calls.Pairwise (fun c1 c2 => c1.t ≤ c2.t) → (∀ c ∈ calls, c.t < 2 ^ 64) →
      List.Chain (fun x y => x + 10000 ≤ y) s.last_adc
        (data_read_times (adc_poll_run board p calls s a).2.2)) := by
  refine ⟨adc_poll_idle board p t adc throttle s a, ?_, ?_,
    fun calls h1 h2 h3 => adc_poll_run_spacing board p calls s a h1 h2 h3⟩
  · intro hp hw
    cases adc with
    | nil =>
      have h := adc_poll_no_data board p t throttle s a hp hw
      exact ⟨⟨[], (by rw [h]; rfl), (by simp)⟩, fun _ => h, fun hne => absurd rfl hne⟩
    | cons first more =>
      obtain ⟨h1, hex⟩ := adc_poll_data board p t first more throttle s a hp hw
      exact ⟨hex, fun hnil => List.noConfusion hnil, fun _ => h1⟩
  · intro hmem
    by_contra hcon
    have hidle : s.publishing = false ∨ u64sub t s.last_adc < 10000 := by
      cases hpub : s.publishing with
      | false => exact Or.inl rfl
      | true =>
        right
        by_contra hlt
        exact hcon ⟨hpub, by omega⟩
    rw [adc_poll_idle board p t adc throttle s a hidle] at hmem
    simp at hmem

/-- C14 (amended), witness: calls at 20 000, 25 000 and 30 000 us, all with data. The call
at 25 000 us, 5 ms after a read, is a no-op, and the reads of the run, at 20 000 and
30 000 us, are 10 ms apart. -/
theorem C14_adc_rate_limit_witness :
    adc_poll example_board example_params 25000 [{ am_channel := 4, am_data := 100 }] 0
        { one_instance_state with last_adc := 20000 } example_air
      = ({ one_instance_state with last_adc := 20000 }, example_air, []) ∧
    List.Chain (fun x y => x + 10000 ≤ y) one_instance_state.last_adc
      (data_read_times (adc_poll_run example_board example_params spaced_adc_calls
        one_instance_state example_air).2.2) ∧
    data_read_times (adc_poll_run example_board example_params spaced_adc_calls
        one_instance_state example_air).2.2 = [20000, 30000] :=
  ⟨(C14_adc_rate_limit example_board example_params 25000
      [{ am_channel := 4, am_data := 100 }] 0
      { one_instance_state with last_adc := 20000 } example_air).1 (Or.inr (by decide)),
   (C14_adc_rate_limit example_board example_params 0 [] 0 one_instance_state
      example_air).2.2.2 spaced_adc_calls (by decide) (by decide) (by decide),
   by decide⟩

/-! ## Airspeed -/

/-- Claim C12. With `math::max` as the spec describes it, an updated differential pressure
makes `diff_pres_poll` publish the stored airspeed record, and its indicated, true and
unfiltered true airspeed are not negative, whatever the airspeed functions, the pressures
and the temperatures are. -/
theorem C12_airspeed_non_negative (lib : AirspeedLib) (now : Nat) (dp : DifferentialPressure)
    (s : State) (raw : SensorCombined) (a : AirData) :
    (diff_pres_poll lib now (some dp) s raw a).2
      = some (diff_pres_poll lib now (some dp) s raw a).1.airspeed ∧
    0 ≤ (diff_pres_poll lib now (some dp) s raw a).1.airspeed.indicated_airspeed_m_s ∧
    0 ≤ (diff_pres_poll lib now (some dp) s raw a).1.airspeed.true_airspeed_m_s ∧
    0 ≤ (diff_pres_poll lib now (some dp) s raw a).1.airspeed.true_airspeed_unfiltered_m_s := by
  unfold diff_pres_poll math_max
  exact ⟨rfl, le_max_left _ _, le_max_left _ _, le_max_left _ _⟩

/-- Claim C13. The record `diff_pres_poll` publishes carries the air temperature that both
true-airspeed computations received as third argument; it is the sensor's temperature when
that is above -300 and the snapshot's baro temperature minus 5 otherwise. -/
theorem C13_air_temperature_selection (lib : AirspeedLib) (now : Nat)
    (dp : DifferentialPressure) (s : State) (raw : SensorCombined) (a : AirData) :
    (diff_pres_poll lib now (some dp) s raw a).2
      = some (diff_pres_poll lib now (some dp) s raw a).1.airspeed ∧
    (diff_pres_poll lib now (some dp) s raw a).1.airspeed.true_airspeed_m_s
      = math_max 0 (lib.calc_true_airspeed
          (dp.differential_pressure_filtered_pa + s.last_best_baro_pressure * 100)
          (s.last_best_baro_pressure * 100)
          (diff_pres_poll lib now (some dp) s raw a).1.airspeed.air_temperature_celsius) ∧
    (diff_pres_poll lib now (some dp) s raw a).1.airspeed.true_airspeed_unfiltered_m_s
      = math_max 0 (lib.calc_true_airspeed
          (dp.differential_pressure_raw_pa + s.last_best_baro_pressure * 100)
          (s.last_best_baro_pressure * 100)
          (diff_pres_poll lib now (some dp) s raw a).1.airspeed.air_temperature_celsius) ∧
    (dp.temperature > -300 →
      (diff_pres_poll lib now (some dp) s raw a).1.airspeed.air_temperature_celsius
        = dp.temperature) ∧
    (dp.temperature ≤ -300 →
      (diff_pres_poll lib now (some dp) s raw a).1.airspeed.air_temperature_celsius
        = raw.baro_temp_celcius - 5) := by
  refine ⟨rfl, rfl, rfl, ?_, ?_⟩
  · intro h
    simp only [diff_pres_poll, air_temperature, h, if_true]
  · intro h
    have hn : ¬ dp.temperature > -300 := not_lt.mpr h
    simp only [diff_pres_poll, air_temperature, hn, if_false, PCB_TEMP_ESTIMATE_DEG]

/-- Claim C13, witness. Sensor temperature -500 and baro temperature 25 give 20. -/
theorem C13_air_temperature_selection_witness :
    cold_diff_pres.temperature ≤ -300 ∧
    (diff_pres_poll example_lib 9000 (some cold_diff_pres) one_instance_state warm_raw
      example_air).1.airspeed.air_temperature_celsius = 20 := by
  have hc : cold_diff_pres.temperature ≤ -300 := by norm_num [cold_diff_pres]
  refine ⟨hc, ?_⟩
  rw [(C13_air_temperature_selection example_lib 9000 cold_diff_pres one_instance_state
    warm_raw example_air).2.2.2.2 hc]
  norm_num [warm_raw, SensorCombined.zero]

/-! ## A published snapshot with relative timestamps -/

/-- C18 (amended), witness. The gyro sample is stamped 5000 us, the accel sample 4000 us, the mag
sample 4500 us and no baro sample was taken: the published relative timestamps are -1000 and
-500, and the baro field keeps its value. -/
theorem C18_relative_timestamps_witness :
    stamped_state.publishing = true ∧ 0 < stamped_raw.timestamp ∧
    (publish_snapshot stamped_state stamped_raw).1.accelerometer_timestamp_relative = -1000 ∧
    (publish_snapshot stamped_state stamped_raw).1.magnetometer_timestamp_relative < 0 ∧
    (publish_snapshot stamped_state stamped_raw).1.baro_timestamp_relative
      = stamped_raw.baro_timestamp_relative :=
  ⟨by decide, by decide,
   ((C18_relative_timestamps stamped_state stamped_raw (by decide) (by decide)).2.1
      (by decide)).2.2.2.2.1 (by decide) (by decide),
   ((C18_relative_timestamps stamped_state stamped_raw (by decide) (by decide)).2.2.2.1
      (by decide)).2.2.2.2.2 (by decide) (by decide),
   (C18_relative_timestamps stamped_state stamped_raw (by decide) (by decide)).2.2.2.2.2.2
      (by decide)⟩

/-- C18 (counterexample): the baro sample is stamped 1000 us and the gyro sample
2 147 484 649 us, that is 2^31 + 1 us later. The baro sample predates the gyro's, yet the
published `baro_timestamp_relative` is 2 147 483 647, which is positive: the 32-bit cast
wrapped. -/
theorem C18_stale_sample_positive_offset :
    stale_baro_state.publishing = true ∧
    stale_baro_state.last_baro_timestamp stale_baro_state.baro.last_best_vote
      < late_raw.timestamp ∧
    (publish_snapshot stale_baro_state late_raw).2
      = some (publish_snapshot stale_baro_state late_raw).1 ∧
    (publish_snapshot stale_baro_state late_raw).1.baro_timestamp_relative = 2147483647 ∧
    ¬ (publish_snapshot stale_baro_state late_raw).1.baro_timestamp_relative < 0 := by
  decide

/-! ## The barometer -/

/-- What the baro loop does with an accepted sample of instance `i`. -/
theorem baro_sample_accepted (s : State) (i : Nat) (r : BaroReport) (got : Bool)
    (hts : r.timestamp ≠ 0) :
    (baro_sample s i (some r) got).2 = true ∧
    (baro_sample s i (some r) got).1.baro.voter = s.baro.voter ++
      [VoterCall.put i r.timestamp ⟨r.altitude, 0, 0⟩ r.error_count (s.baro.priority i)] ∧
    ((baro_sample s i (some r) got).1.last_sensor_data i).baro_alt_meter = r.altitude ∧
    ((baro_sample s i (some r) got).1.last_sensor_data i).baro_temp_celcius = r.temperature ∧
    (baro_sample s i (some r) got).1.last_baro_pressure i = r.pressure ∧
    (baro_sample s i (some r) got).1.last_baro_timestamp i = r.timestamp := by
  simp [baro_sample, hts, upd, SensorData.call]

/-- What `baro_poll` writes when the election names instance `b`. -/
theorem baro_poll_elected (best : Election) (now : Nat) (fresh : Nat → Option BaroReport)
    (s : State) (raw : SensorCombined) (hgot : (baro_collect fresh s).2 = true)
    (hb : 0 ≤ best ((baro_collect fresh s).1.baro.voter ++ [VoterCall.get_best now])) :
    (baro_poll best now fresh s raw).2.baro_alt_meter
      = ((baro_collect fresh s).1.last_sensor_data
          (best ((baro_collect fresh s).1.baro.voter ++ [VoterCall.get_best now])).toNat).baro_alt_meter ∧
    (baro_poll best now fresh s raw).2.baro_temp_celcius
      = ((baro_collect fresh s).1.last_sensor_data
          (best ((baro_collect fresh s).1.baro.voter ++ [VoterCall.get_best now])).toNat).baro_temp_celcius ∧
    (baro_poll best now fresh s raw).1.last_best_baro_pressure
      = (baro_collect fresh s).1.last_baro_pressure
          (best ((baro_collect fresh s).1.baro.voter ++ [VoterCall.get_best now])).toNat ∧
    (baro_poll best now fresh s raw).1.baro.last_best_vote
      = (best ((baro_collect fresh s).1.baro.voter ++ [VoterCall.get_best now])).toNat % 256 := by
  unfold baro_poll
  simp only [hgot, if_true, SensorData.call, hb]
  exact ⟨trivial, trivial, trivial, trivial⟩

/-- A baro sample of instance `j` leaves the caches of every other instance, the priorities
and the subscription count alone, and only appends to the voter history. -/
theorem baro_sample_frame (s : State) (j : Nat) (f : Option BaroReport) (got : Bool) :
    (∀ i, i ≠ j →
      (baro_sample s j f got).1.last_sensor_data i = s.last_sensor_data i ∧
      (baro_sample s j f got).1.last_baro_pressure i = s.last_baro_pressure i ∧
      (baro_sample s j f got).1.last_baro_timestamp i = s.last_baro_timestamp i) ∧
    (baro_sample s j f got).1.baro.priority = s.baro.priority ∧
    (∀ c, c ∈ s.baro.voter → c ∈ (baro_sample s j f got).1.baro.voter) ∧
    (got = true → (baro_sample s j f got).2 = true) := by
  unfold baro_sample
  cases f with
  | none => exact ⟨fun _ _ => ⟨rfl, rfl, rfl⟩, rfl, fun _ h => h, fun h => h⟩
  | some r =>
    by_cases h0 : r.timestamp = 0
    · simp only
      rw [if_pos h0]
      exact ⟨fun _ _ => ⟨rfl, rfl, rfl⟩, rfl, fun _ h => h, fun h => h⟩
    · simp only
      rw [if_neg h0]
      refine ⟨fun i hi => ?_, rfl, fun c hc => List.mem_append_left _ hc, fun _ => rfl⟩
      simp [upd, hi]

/-- After the loop over the first `n` instances, every instance below `n` whose sample was
accepted has that sample in its caches and its `put` in the voter history. -/
theorem baro_loop_cache (fresh : Nat → Option BaroReport) (s : State) (n : Nat) :
    ((List.range n).foldl (fun acc i => baro_sample acc.1 i (fresh i) acc.2)
        (s, false)).1.baro.priority = s.baro.priority ∧
    ∀ i r, i < n → fresh i = some r → r.timestamp ≠ 0 →
      ((List.range n).foldl (fun acc i => baro_sample acc.1 i (fresh i) acc.2) (s, false)).2
        = true ∧
      VoterCall.put i r.timestamp ⟨r.altitude, 0, 0⟩ r.error_count (s.baro.priority i)
        ∈ ((List.range n).foldl (fun acc i => baro_sample acc.1 i (fresh i) acc.2)
            (s, false)).1.baro.voter ∧
      (((List.range n).foldl (fun acc i => baro_sample acc.1 i (fresh i) acc.2)
          (s, false)).1.last_sensor_data i).baro_alt_meter = r.altitude ∧
      (((List.range n).foldl (fun acc i => baro_sample acc.1 i (fresh i) acc.2)
          (s, false)).1.last_sensor_data i).baro_temp_celcius = r.temperature ∧
      ((List.range n).foldl (fun acc i => baro_sample acc.1 i (fresh i) acc.2)
          (s, false)).1.last_baro_pressure i = r.pressure ∧
      ((List.range n).foldl (fun acc i => baro_sample acc.1 i (fresh i) acc.2)
          (s, false)).1.last_baro_timestamp i = r.timestamp := by
  induction n with
  | zero => exact ⟨rfl, fun i r hi => absurd hi (Nat.not_lt_zero i)⟩
  | succ n ih =>
    rw [List.range_succ, List.foldl_append]
    simp only [List.foldl_cons, List.foldl_nil]
    generalize (List.range n).foldl (fun acc i => baro_sample acc.1 i (fresh i) acc.2)
      (s, false) = st at ih ⊢
    obtain ⟨hprio, hcache⟩ := ih
    have hfr := baro_sample_frame st.1 n (fresh n) st.2
    refine ⟨hfr.2.1.trans hprio, ?_⟩
    intro i r hi hf hts
    by_cases hin : i = n
    · subst hin
      rw [hf]
      have hacc := baro_sample_accepted st.1 i r st.2 hts
      rw [hprio] at hacc
      refine ⟨hacc.1, ?_, hacc.2.2.1, hacc.2.2.2.1, hacc.2.2.2.2.1, hacc.2.2.2.2.2⟩
      rw [hacc.2.1]
      exact List.mem_append_right _ (List.mem_singleton.mpr rfl)
    · have hlt : i < n := by omega
      obtain ⟨h1, h2, h3, h4, h5, h6⟩ := hcache i r hlt hf hts
      obtain ⟨hA, hB, hC⟩ := hfr.1 i hin
      refine ⟨hfr.2.2.2 h1, hfr.2.2.1 _ h2, ?_, ?_, ?_, ?_⟩
      · rw [hA]; exact h3
      · rw [hA]; exact h4
      · rw [hB]; exact h5
      · rw [hC]; exact h6

/-- C21: in `baro_poll` an accepted sample of instance `i` (nonzero timestamp) is handed to
the voter with the vector `(altitude, 0, 0)`, and its altitude, temperature and pressure are
cached for instance `i`; this is what the caches hold after the loop for every subscribed
instance whose sample was accepted. When the election returns `b >= 0`, the snapshot's baro
altitude and temperature are the ones cached for `b` and `_last_best_baro_pressure` is the
pressure cached for `b`. -/
theorem C21_baro_specialization (best : Election) (now : Nat)
    (fresh : Nat → Option BaroReport) (s : State) (raw : SensorCombined) :
    (∀ (st : State) (i : Nat) (r : BaroReport) (got : Bool), r.timestamp ≠ 0 →
      (baro_sample st i (some r) got).1.baro.voter = st.baro.voter ++
        [VoterCall.put i r.timestamp ⟨r.altitude, 0, 0⟩ r.error_count (st.baro.priority i)] ∧
      ((baro_sample st i (some r) got).1.last_sensor_data i).baro_alt_meter = r.altitude ∧
      ((baro_sample st i (some r) got).1.last_sensor_data i).baro_temp_celcius
        = r.temperature ∧
      (baro_sample st i (some r) got).1.last_baro_pressure i = r.pressure) ∧
    (∀ (i : Nat) (r : BaroReport), i < s.baro.subscription_count → fresh i = some r →
      r.timestamp ≠ 0 →
      (baro_collect fresh s).2 = true ∧
      VoterCall.put i r.timestamp ⟨r.altitude, 0, 0⟩ r.error_count (s.baro.priority i)
        ∈ (baro_collect fresh s).1.baro.voter ∧
      ((baro_collect fresh s).1.last_sensor_data i).baro_alt_meter = r.altitude ∧
      ((baro_collect fresh s).1.last_sensor_data i).baro_temp_celcius = r.temperature ∧
      (baro_collect fresh s).1.last_baro_pressure i = r.pressure) ∧
    ((baro_collect fresh s).2 = true →
      0 ≤ best ((baro_collect fresh s).1.baro.voter ++ [VoterCall.get_best now]) →
      (baro_poll best now fresh s raw).2.baro_alt_meter
        = ((baro_collect fresh s).1.last_sensor_data
            (best ((baro_collect fresh s).1.baro.voter
              ++ [VoterCall.get_best now])).toNat).baro_alt_meter ∧
      (baro_poll best now fresh s raw).2.baro_temp_celcius
        = ((baro_collect fresh s).1.last_sensor_data
            (best ((baro_collect fresh s).1.baro.voter
              ++ [VoterCall.get_best now])).toNat).baro_temp_celcius ∧
      (baro_poll best now fresh s raw).1.last_best_baro_pressure
        = (baro_collect fresh s).1.last_baro_pressure
            (best ((baro_collect fresh s).1.baro.voter ++ [VoterCall.get_best now])).toNat) := by
  refine ⟨?_, ?_, ?_⟩
  · intro st i r got hts
    have h := baro_sample_accepted st i r got hts
    exact ⟨h.2.1, h.2.2.1, h.2.2.2.1, h.2.2.2.2.1⟩
  · intro i r hi hf hts
    have h := (baro_loop_cache fresh s s.baro.subscription_count).2 i r hi hf hts
    exact ⟨h.1, h.2.1, h.2.2.1, h.2.2.2.1, h.2.2.2.2.1⟩
  · intro hgot hb
    have h := baro_poll_elected best now fresh s raw hgot hb
    exact ⟨h.1, h.2.1, h.2.2.1⟩

/-- C21 instance: one baro instance delivers altitude 120, temperature 21 and pressure 1001
at 6000 us and is elected: the snapshot gets altitude 120 and temperature 21, and
`_last_best_baro_pressure` becomes 1001. -/
theorem C21_baro_specialization_witness :
    (baro_poll (fun _ => 0) 6001 (fun _ => some baro_example_report) one_instance_state
      SensorCombined.zero).2.baro_alt_meter = 120 ∧
    (baro_poll (fun _ => 0) 6001 (fun _ => some baro_example_report) one_instance_state
      SensorCombined.zero).2.baro_temp_celcius = 21 ∧
    (baro_poll (fun _ => 0) 6001 (fun _ => some baro_example_report) one_instance_state
      SensorCombined.zero).1.last_best_baro_pressure = 1001 := by
  have h := C21_baro_specialization (fun _ => 0) 6001 (fun _ => some baro_example_report)
    one_instance_state SensorCombined.zero
  have hc := h.2.1 0 baro_example_report (by decide) rfl (by decide)
  have hp := h.2.2 hc.1 (le_refl 0)
  exact ⟨hp.1.trans hc.2.2.1, hp.2.1.trans hc.2.2.2.1, hp.2.2.trans hc.2.2.2.2⟩

/-! ## The first sample of an inertial instance -/

/-- The identity rotation leaves a vector alone. -/
theorem mulVec_identity (v : Vec3) : Mat3.identity.mulVec v = v := by
  cases v
  simp [Mat3.mulVec, Mat3.identity, Vec3.dot]

/-- One gyro poll of a single subscribed instance whose sample has no integral and whose
election names instance 0. -/
theorem gyro_poll_single_plain (best : Election) (now : Nat) (r : InertialReport) (s : State)
    (raw : SensorCombined) (hcount : s.gyro.subscription_count = 1)
    (hts : r.timestamp ≠ 0) (h0 : r.integral_dt = 0) (hbest : ∀ h, best h = 0) :
    (gyro_poll best now (fun _ => some r) s raw).2.gyro_rad = s.board_rotation.mulVec r.v ∧
    (gyro_poll best now (fun _ => some r) s raw).2.gyro_integral_dt
      = (u64sub r.timestamp (if (s.last_sensor_data 0).timestamp = 0
            then u64sub r.timestamp 1000 else (s.last_sensor_data 0).timestamp) : Rat)
          / 1000000 ∧
    (gyro_poll best now (fun _ => some r) s raw).2.timestamp = r.timestamp ∧
    ((gyro_poll best now (fun _ => some r) s raw).1.last_sensor_data 0).timestamp
      = r.timestamp ∧
    (gyro_poll best now (fun _ => some r) s raw).1.gyro.subscription_count = 1 ∧
    (gyro_poll best now (fun _ => some r) s raw).1.board_rotation = s.board_rotation := by
  simp [gyro_poll, gyro_collect, hcount, List.range, List.range.loop, gyro_sample, hts, h0,
    hbest, upd, SensorData.call]

/-- C22: for a gyro or accel instance whose previous timestamp is 0, an accepted sample
without integral stores the interval 1000 us = 0.001 s, whatever its nonzero timestamp is
(below 1000 the unsigned subtraction wraps twice). With identity board rotation and a single
subscribed and elected gyro instance, two polls whose samples carry the vector `v` and are
1000 us apart leave `gyro_rad = v` and `gyro_integral_dt = 0.001` in the snapshot, after the
first poll as after the second. -/
theorem C22_first_sample_interval (s : State) (i : Nat) (r : InertialReport) (got : Bool)
    (hts : r.timestamp ≠ 0) (h0 : r.integral_dt = 0) :
    ((s.last_sensor_data i).timestamp = 0 →
      ((gyro_sample s i (some r) got).1.last_sensor_data i).gyro_integral_dt
        = (1000 : Rat) / 1000000 ∧
      ((gyro_sample s i (some r) got).1.last_sensor_data i).gyro_integral_dt = 1 / 1000) ∧
    (s.last_accel_timestamp i = 0 →
      ((accel_sample s i (some r) got).1.last_sensor_data i).accelerometer_integral_dt
        = (1000 : Rat) / 1000000 ∧
      ((accel_sample s i (some r) got).1.last_sensor_data i).accelerometer_integral_dt
        = 1 / 1000) ∧
    (∀ (best : Election) (now1 now2 : Nat) (r2 : InertialReport) (raw : SensorCombined),
      s.gyro.subscription_count = 1 → s.board_rotation = Mat3.identity →
      (s.last_sensor_data 0).timestamp = 0 → (∀ h, best h = 0) →
      r2.timestamp = r.timestamp + 1000 → r2.timestamp < 2 ^ 64 → r2.integral_dt = 0 →
      r2.v = r.v →
      (gyro_poll best now1 (fun _ => some r) s raw).2.gyro_rad = r.v ∧
      (gyro_poll best now1 (fun _ => some r) s raw).2.gyro_integral_dt = 1 / 1000 ∧
      (gyro_poll best now2 (fun _ => some r2)
        (gyro_poll best now1 (fun _ => some r) s raw).1
        (gyro_poll best now1 (fun _ => some r) s raw).2).2.gyro_rad = r.v ∧
      (gyro_poll best now2 (fun _ => some r2)
        (gyro_poll best now1 (fun _ => some r) s raw).1
        (gyro_poll best now1 (fun _ => some r) s raw).2).2.gyro_integral_dt = 1 / 1000) := by
  refine ⟨?_, ?_, ?_⟩
  · intro hprev
    rw [gyro_sample_dt_plain s i r got hts h0, if_pos hprev, u64sub_bootstrap]
    norm_num
  · intro hprev
    rw [accel_sample_dt_plain s i r got hts h0, if_pos hprev, u64sub_bootstrap]
    norm_num
  · intro best now1 now2 r2 raw hcount hrot hprev hbest ht2 hlt h02 hv
    have p1 := gyro_poll_single_plain best now1 r s raw hcount hts h0 hbest
    have hts2 : r2.timestamp ≠ 0 := by omega
    have p2 := gyro_poll_single_plain best now2 r2
      (gyro_poll best now1 (fun _ => some r) s raw).1
      (gyro_poll best now1 (fun _ => some r) s raw).2 p1.2.2.2.2.1 hts2 h02 hbest
    rw [p2.1, p2.2.1, p1.1, p1.2.1, p1.2.2.2.1, p1.2.2.2.2.2, hrot, mulVec_identity,
      mulVec_identity, if_pos hprev, if_neg hts, u64sub_bootstrap, hv,
      u64sub_of_le r2.timestamp r.timestamp hlt (by omega), ht2]
    refine ⟨rfl, by norm_num, rfl, ?_⟩
    rw [Nat.add_sub_cancel_left]
    norm_num

/-- C22 instance: samples (0.1, -0.2, 0.3) at 700 us and 1700 us through a single elected
gyro with identity board rotation: the snapshot carries that vector and the interval
0.001. -/
theorem C22_first_sample_interval_witness :
    (gyro_poll (fun _ => 0) 1701 (fun _ => some (tenth_report 1700))
      (gyro_poll (fun _ => 0) 701 (fun _ => some (tenth_report 700)) one_instance_state
        SensorCombined.zero).1
      (gyro_poll (fun _ => 0) 701 (fun _ => some (tenth_report 700)) one_instance_state
        SensorCombined.zero).2).2.gyro_rad = ⟨1 / 10, -2 / 10, 3 / 10⟩ ∧
    (gyro_poll (fun _ => 0) 1701 (fun _ => some (tenth_report 1700))
      (gyro_poll (fun _ => 0) 701 (fun _ => some (tenth_report 700)) one_instance_state
        SensorCombined.zero).1
      (gyro_poll (fun _ => 0) 701 (fun _ => some (tenth_report 700)) one_instance_state
        SensorCombined.zero).2).2.gyro_integral_dt = 1 / 1000 ∧
    ((gyro_sample one_instance_state 0 (some (tenth_report 700)) false).1.last_sensor_data
      0).gyro_integral_dt = 1 / 1000 :=
  ⟨((C22_first_sample_interval one_instance_state 0 (tenth_report 700) false (by decide)
      rfl).2.2 (fun _ => 0) 701 1701 (tenth_report 1700) SensorCombined.zero rfl rfl rfl
      (fun _ => rfl) rfl (by decide) rfl rfl).2.2.1,
   ((C22_first_sample_interval one_instance_state 0 (tenth_report 700) false (by decide)
      rfl).2.2 (fun _ => 0) 701 1701 (tenth_report 1700) SensorCombined.zero rfl rfl rfl
      (fun _ => rfl) rfl (by decide) rfl rfl).2.2.2,
   ((C22_first_sample_interval one_instance_state 0 (tenth_report 700) false (by decide)
      rfl).1 rfl).2⟩

/-! ## Mag rotation of an external mag, and released handles -/

/-- With the legacy parameter at 0 (or absent) the rotation handling of record `j` writes at
most the `ROT` of record `j`. -/
theorem mag_rotation_handling_legacy_zero (env : Env) (b : Mat3) (j : Nat) (st : Scan)
    (hL : (st.params.int32 Param.SENS_EXT_MAG_ROT).getD 0 = 0) :
    ∀ q, q ≠ Param.cal SensorClass.mag j CalField.ROT →
      (mag_rotation_handling env b j st).params.int32 q = st.params.int32 q := by
  have hne : Param.SENS_EXT_MAG_ROT ≠ Param.cal SensorClass.mag j CalField.ROT := by simp
  intro q hq
  unfold mag_rotation_handling
  by_cases hx : ioctl env st.h Device.external ≤ 0
  · simp only [hx, if_true]
    split_ifs
    · exact param_set_other hq
    · rfl
  · simp only [hx, if_false]
    by_cases hneg : (st.params.int32 (Param.cal SensorClass.mag j CalField.ROT)).getD env.uninit < 0
    · have hz : ((param_set_no_notification st.params
          (Param.cal SensorClass.mag j CalField.ROT) 0).int32 Param.SENS_EXT_MAG_ROT).getD 0
          = 0 := by
        rw [param_set_other hne]
        exact hL
      simp only [hneg, if_true, hz, ne_eq, not_true_eq_false, decide_False, Bool.false_and,
        Bool.false_eq_true, if_false]
      exact param_set_other hq
    · simp only [hneg, if_false, hL, ne_eq, not_true_eq_false, decide_False, Bool.false_and,
        Bool.false_eq_true]

/-- With the legacy parameter at 0, a mag scan over records other than `i` leaves the `ROT`
of record `i` and the legacy parameter alone. -/
theorem scan_mag_keeps_other_record (env : Env) (b : Mat3) (i : Nat) (l : List Nat) (st : Scan)
    (hL : (st.params.int32 Param.SENS_EXT_MAG_ROT).getD 0 = 0) (hi : i ∉ l) :
    (scan_calibrations env SensorClass.mag b l st).params.int32
        (Param.cal SensorClass.mag i CalField.ROT)
      = st.params.int32 (Param.cal SensorClass.mag i CalField.ROT) ∧
    (scan_calibrations env SensorClass.mag b l st).params.int32 Param.SENS_EXT_MAG_ROT
      = st.params.int32 Param.SENS_EXT_MAG_ROT := by
  induction l generalizing st with
  | nil => exact ⟨rfl, rfl⟩
  | cons j rest ih =>
    have hij : i ≠ j := fun h => hi (h ▸ List.mem_cons_self _ _)
    have hir : i ∉ rest := fun h => hi (List.mem_cons_of_mem _ h)
    unfold scan_calibrations
    cases hid : st.params.int32 (Param.cal SensorClass.mag j CalField.ID) with
    | none => exact ih _ hL hir
    | some device_id =>
      simp only
      split_ifs with hm
      · have hs := (matched_record_store env SensorClass.mag b j
          { st with calls := st.calls ++ [DevCall.getDeviceId st.h.isSome] }).2.2.2 rfl
        rw [hs.1]
        have hz := mag_rotation_handling_legacy_zero env b j
          { st with calls := st.calls ++ [DevCall.getDeviceId st.h.isSome] } hL
        exact ⟨hz _ (by simp [hij]), hz _ (by simp)⟩
      · exact ih _ hL hir

/-- With the legacy parameter at 0, the scan for a live device whose id differs from the id
stored in record `i` leaves the `ROT` of record `i` and the legacy parameter alone, provided
the ids of the records before `i` can be read. -/
theorem scan_mag_keeps_foreign_record (env : Env) (b : Mat3) (d2 : Device) (id : Int)
    (i : Nat) (l1 l2 : List Nat) (st : Scan) (hh : st.h = some d2) (hne : d2.device_id ≠ id)
    (hid : st.params.int32 (Param.cal SensorClass.mag i CalField.ID) = some id)
    (hread : ∀ j ∈ l1, ∃ v, st.params.int32 (Param.cal SensorClass.mag j CalField.ID) = some v)
    (hi1 : i ∉ l1) (hi2 : i ∉ l2)
    (hL : (st.params.int32 Param.SENS_EXT_MAG_ROT).getD 0 = 0) :
    (scan_calibrations env SensorClass.mag b (l1 ++ i :: l2) st).params.int32
        (Param.cal SensorClass.mag i CalField.ROT)
      = st.params.int32 (Param.cal SensorClass.mag i CalField.ROT) ∧
    (scan_calibrations env SensorClass.mag b (l1 ++ i :: l2) st).params.int32
        Param.SENS_EXT_MAG_ROT
      = st.params.int32 Param.SENS_EXT_MAG_ROT := by
  induction l1 generalizing st with
  | nil =>
    simp only [List.nil_append]
    unfold scan_calibrations
    rw [hid]
    have hno : ¬ id = ioctl env st.h Device.device_id := by
      rw [hh]
      exact fun h => hne h.symm
    simp only [hno, if_false]
    exact scan_mag_keeps_other_record env b i l2 _ hL hi2
  | cons j rest ih =>
    have hij : i ≠ j := fun h => hi1 (h ▸ List.mem_cons_self _ _)
    have hir : i ∉ rest := fun h => hi1 (List.mem_cons_of_mem _ h)
    obtain ⟨v, hv⟩ := hread j (List.mem_cons_self _ _)
    simp only [List.cons_append]
    unfold scan_calibrations
    rw [hv]
    simp only
    split_ifs with hm
    · have hs := (matched_record_store env SensorClass.mag b j
        { st with calls := st.calls ++ [DevCall.getDeviceId st.h.isSome] }).2.2.2 rfl
      rw [hs.1]
      have hz := mag_rotation_handling_legacy_zero env b j
        { st with calls := st.calls ++ [DevCall.getDeviceId st.h.isSome] } hL
      exact ⟨hz _ (by simp [hij]), hz _ (by simp)⟩
    · exact ih { st with calls := st.calls ++ [DevCall.getDeviceId st.h.isSome] } hh hid
        (fun k hk => hread k (List.mem_cons_of_mem _ hk)) hir hL

/-- A mag slot other than the one matched to record `i`: with the legacy parameter at 0 and
a device id different from the id stored in record `i`, handling the slot leaves the `ROT`
of record `i` and the legacy parameter alone. -/
theorem calibrate_slot_mag_foreign (env : Env) (b : Mat3) (ps : ParamStore) (rot0 : Mat3)
    (t i : Nat) (id : Int) (hi : i < SENSOR_COUNT_MAX)
    (hdist : ∀ d2, env.devices SensorClass.mag t = some d2 → d2.device_id ≠ id)
    (hid : ps.int32 (Param.cal SensorClass.mag i CalField.ID) = some id)
    (hread : ∀ j, j < i → ∃ v, ps.int32 (Param.cal SensorClass.mag j CalField.ID) = some v)
    (hL : (ps.int32 Param.SENS_EXT_MAG_ROT).getD 0 = 0) :
    (calibrate_slot env SensorClass.mag b ps rot0 t).params.int32
        (Param.cal SensorClass.mag i CalField.ROT)
      = ps.int32 (Param.cal SensorClass.mag i CalField.ROT) ∧
    (calibrate_slot env SensorClass.mag b ps rot0 t).params.int32 Param.SENS_EXT_MAG_ROT
      = ps.int32 Param.SENS_EXT_MAG_ROT := by
  unfold calibrate_slot
  cases hd : env.devices SensorClass.mag t with
  | none => exact ⟨rfl, rfl⟩
  | some d2 =>
    simp only
    obtain ⟨l2, hl⟩ := all_indices_split i hi
    have hnd : (List.range i ++ i :: l2).Nodup := by
      rw [← hl]
      exact List.nodup_range _
    have hi2 : i ∉ l2 := by
      have h := (List.nodup_append.mp hnd).2.1
      exact (List.nodup_cons.mp h).1
    rw [hl]
    exact scan_mag_keeps_foreign_record env b d2 id i (List.range i) l2 _ rfl (hdist d2 hd) hid
      (fun j hj => hread j (List.mem_range.mp hj)) (by simp) hi2 hL

/-- A step of the mag pass for a slot `t` other than `s`, whose device (if any) has an id
different from the one stored in record `i`. -/
theorem calibrate_step_mag_foreign (env : Env) (b : Mat3) (acc : ClassPass) (t s i : Nat)
    (id : Int) (hts : t ≠ s) (hi : i < SENSOR_COUNT_MAX)
    (hdist : ∀ d2, env.devices SensorClass.mag t = some d2 → d2.device_id ≠ id)
    (hid : acc.params.int32 (Param.cal SensorClass.mag i CalField.ID) = some id)
    (hread : ∀ j, j < i →
      ∃ v, acc.params.int32 (Param.cal SensorClass.mag j CalField.ID) = some v)
    (hL : (acc.params.int32 Param.SENS_EXT_MAG_ROT).getD 0 = 0) :
    (calibrate_step env SensorClass.mag b acc t).params.int32
        (Param.cal SensorClass.mag i CalField.ROT)
      = acc.params.int32 (Param.cal SensorClass.mag i CalField.ROT) ∧
    (calibrate_step env SensorClass.mag b acc t).params.int32 Param.SENS_EXT_MAG_ROT
      = acc.params.int32 Param.SENS_EXT_MAG_ROT ∧
    (calibrate_step env SensorClass.mag b acc t).mag_rotation s = acc.mag_rotation s := by
  have hslot := calibrate_slot_mag_foreign env b acc.params
    (upd acc.mag_rotation t b t) t i id hi hdist hid hread hL
  unfold calibrate_step
  refine ⟨hslot.1, hslot.2, ?_⟩
  simp [upd, hts.symm]

/-- The mag pass over slots other than `s`, all with device ids different from the one
stored in record `i`. -/
theorem calibrate_class_mag_foreign (env : Env) (b : Mat3) (l : List Nat) (acc : ClassPass)
    (s i : Nat) (id : Int) (hs : s ∉ l) (hi : i < SENSOR_COUNT_MAX)
    (hdist : ∀ t, t ≠ s → ∀ d2, env.devices SensorClass.mag t = some d2 → d2.device_id ≠ id)
    (hid : acc.params.int32 (Param.cal SensorClass.mag i CalField.ID) = some id)
    (hread : ∀ j, j < i →
      ∃ v, acc.params.int32 (Param.cal SensorClass.mag j CalField.ID) = some v)
    (hL : (acc.params.int32 Param.SENS_EXT_MAG_ROT).getD 0 = 0) :
    (calibrate_class env SensorClass.mag b l acc).params.int32
        (Param.cal SensorClass.mag i CalField.ROT)
      = acc.params.int32 (Param.cal SensorClass.mag i CalField.ROT) ∧
    (calibrate_class env SensorClass.mag b l acc).params.int32 Param.SENS_EXT_MAG_ROT
      = acc.params.int32 Param.SENS_EXT_MAG_ROT ∧
    (calibrate_class env SensorClass.mag b l acc).mag_rotation s = acc.mag_rotation s := by
  induction l generalizing acc with
  | nil => exact ⟨rfl, rfl, rfl⟩
  | cons t rest ih =>
    have hts : t ≠ s := fun h => hs (h ▸ List.mem_cons_self _ _)
    have hsr : s ∉ rest := fun h => hs (List.mem_cons_of_mem _ h)
    have hstep := calibrate_step_mag_foreign env b acc t s i id hts hi (hdist t hts) hid hread hL
    have hids := calibrate_step_ids env SensorClass.mag b acc t
    have hrest := ih (calibrate_step env SensorClass.mag b acc t) hsr
      (by rw [hids.1]; exact hid)
      (fun j hj => by rw [hids.1]; exact hread j hj)
      (by rw [hstep.2.1]; exact hL)
    unfold calibrate_class at hrest ⊢
    simp only [List.foldl_cons]
    exact ⟨hrest.1.trans hstep.1, hrest.2.1.trans hstep.2.1, hrest.2.2.trans hstep.2.2⟩

/-- C25 (code behaviour): record 0 of the gyro class has no readable id, so the handle of
gyro 0 is released and the loop goes on: the device-id query for record 1, and for record 2,
is issued on the released handle. When the stored id of record 1 equals what the released
handle answers, the calibration of record 1 is pushed on the released handle. In the mag
loop the external-mag query is issued on the released handle as well. -/
theorem C25_ioctl_after_release :
    (parameter_update_poll gyro_example_env false true one_instance_state
        (id_gap_store 123)).gyro_calls
      = [(0, DevCall.release true), (0, DevCall.getDeviceId false),
         (0, DevCall.getDeviceId false)] ∧
    (parameter_update_poll gyro_example_env false true one_instance_state
        (id_gap_store (-1))).gyro_calls
      = [(0, DevCall.release true), (0, DevCall.getDeviceId false),
         (0, DevCall.setScale false 1 ⟨1, 1, 1, 1, 1, 1⟩)] ∧
    (parameter_update_poll (mag_example_env 1) false true one_instance_state
        (id_gap_store (-1))).mag_calls
      = [(0, DevCall.release true), (0, DevCall.getDeviceId false),
         (0, DevCall.getExternal false), (0, DevCall.setScale false 1 ⟨1, 1, 1, 1, 1, 1⟩)] := by
  decide

/-- C26 (code behaviour): mag 0 reports external and is matched to record 0. With the legacy
`SENS_EXT_MAG_ROT = -1` and a stored `CAL_MAG0_ROT` of 0 or of -1, the update persists
`CAL_MAG0_ROT = -1`, the marker of an internal mag; with legacy -3 it persists -3. The
rotation used is the matrix of code 0 in each case. -/
theorem C26_negative_legacy_persisted :
    (parameter_update_poll (mag_example_env 1) false true one_instance_state
        (mag_example_store 0 (-1))).params.int32 (Param.cal SensorClass.mag 0 CalField.ROT)
      = some MAG_ROT_VAL_INTERNAL ∧
    (parameter_update_poll (mag_example_env 1) false true one_instance_state
        (mag_example_store (-1) (-1))).params.int32 (Param.cal SensorClass.mag 0 CalField.ROT)
      = some MAG_ROT_VAL_INTERNAL ∧
    (parameter_update_poll (mag_example_env 1) false true one_instance_state
        (mag_example_store (-1) (-3))).params.int32 (Param.cal SensorClass.mag 0 CalField.ROT)
      = some (-3) ∧
    (parameter_update_poll (mag_example_env 1) false true one_instance_state
        (mag_example_store 0 (-1))).state.mag_rotation 0 = example_rot_matrix 0 ∧
    (parameter_update_poll (mag_example_env 1) false true one_instance_state
        (mag_example_store 0 (-1))).mag_calls
      = [(0, DevCall.getDeviceId true), (0, DevCall.getExternal true),
         (0, DevCall.setScale true 0 ⟨1, 1, 1, 1, 1, 1⟩)] := by
  decide

/-! ## The vibration monitor -/

/-- A call on an object whose warning is latched, or that finds no factor above the
threshold, clears the warning timestamp and does nothing else. -/
theorem check_vibration_clear (p : Parameters) (vib : List VoterCall → Nat → Rat)
    (cur_time later : Nat) (s : State)
    (h : s.vibration_warning = true ∨
      ¬ (vib s.gyro.voter cur_time > p.vibration_warning_threshold ∨
         vib s.accel.voter cur_time > p.vibration_warning_threshold ∨
         vib s.mag.voter cur_time > p.vibration_warning_threshold)) :
    check_vibration p vib cur_time later s
      = ({ s with vibration_warning_timestamp := 0 }, false, []) := by
  unfold check_vibration
  rcases h with h | h
  · simp [h]
  · rw [if_neg]
    simp only [Bool.and_eq_true, Bool.not_eq_true', Bool.or_eq_true, decide_eq_true_eq, not_and]
    intro _
    simpa [or_assoc] using h

/-- The first call that finds a factor above the threshold records the time. -/
theorem check_vibration_first (p : Parameters) (vib : List VoterCall → Nat → Rat)
    (cur_time later : Nat) (s : State) (hw : s.vibration_warning = false)
    (he : vib s.gyro.voter cur_time > p.vibration_warning_threshold ∨
      vib s.accel.voter cur_time > p.vibration_warning_threshold ∨
      vib s.mag.voter cur_time > p.vibration_warning_threshold)
    (hts : s.vibration_warning_timestamp = 0) :
    check_vibration p vib cur_time later s
      = ({ s with vibration_warning_timestamp := cur_time }, false, []) := by
  unfold check_vibration
  rw [if_pos, if_pos hts]
  simp only [hw, Bool.not_false, Bool.true_and, Bool.or_eq_true, decide_eq_true_eq]
  simpa [or_assoc] using he

/-- A later call within the window changes nothing. -/
theorem check_vibration_wait (p : Parameters) (vib : List VoterCall → Nat → Rat)
    (cur_time later : Nat) (s : State) (hw : s.vibration_warning = false)
    (he : vib s.gyro.voter cur_time > p.vibration_warning_threshold ∨
      vib s.accel.voter cur_time > p.vibration_warning_threshold ∨
      vib s.mag.voter cur_time > p.vibration_warning_threshold)
    (hts : s.vibration_warning_timestamp ≠ 0)
    (hel : hrt_elapsed_time later s.vibration_warning_timestamp ≤ 10000000) :
    check_vibration p vib cur_time later s = (s, false, []) := by
  unfold check_vibration
  rw [if_pos, if_neg hts, if_neg (by omega)]
  simp only [hw, Bool.not_false, Bool.true_and, Bool.or_eq_true, decide_eq_true_eq]
  simpa [or_assoc] using he

/-- A later call after the window latches the warning, logs one alert and returns true. -/
theorem check_vibration_fire (p : Parameters) (vib : List VoterCall → Nat → Rat)
    (cur_time later : Nat) (s : State) (hw : s.vibration_warning = false)
    (he : vib s.gyro.voter cur_time > p.vibration_warning_threshold ∨
      vib s.accel.voter cur_time > p.vibration_warning_threshold ∨
      vib s.mag.voter cur_time > p.vibration_warning_threshold)
    (hts : s.vibration_warning_timestamp ≠ 0)
    (hel : 10000000 < hrt_elapsed_time later s.vibration_warning_timestamp) :
    check_vibration p vib cur_time later s
      = ({ s with vibration_warning := true }, true,
         [{ g := toIntTrunc (100 * vib s.gyro.voter cur_time)
            a := toIntTrunc (100 * vib s.accel.voter cur_time)
            m := toIntTrunc (100 * vib s.mag.voter cur_time) }]) := by
  unfold check_vibration
  rw [if_pos, if_neg hts, if_pos (by omega)]
  simp only [hw, Bool.not_false, Bool.true_and, Bool.or_eq_true, decide_eq_true_eq]
  simpa [or_assoc] using he

theorem gyro_sample_vibration (s : State) (i : Nat) (f : Option InertialReport) (g : Bool) :
    (gyro_sample s i f g).1.vibration_warning = s.vibration_warning ∧
      (gyro_sample s i f g).1.vibration_warning_timestamp = s.vibration_warning_timestamp := by
  unfold gyro_sample
  cases f with
  | none => simp
  | some r => by_cases h0 : r.timestamp = 0 <;> by_cases h1 : r.integral_dt = 0 <;> simp [h0, h1]

theorem accel_sample_vibration (s : State) (i : Nat) (f : Option InertialReport) (g : Bool) :
    (accel_sample s i f g).1.vibration_warning = s.vibration_warning ∧
      (accel_sample s i f g).1.vibration_warning_timestamp = s.vibration_warning_timestamp := by
  unfold accel_sample
  cases f with
  | none => simp
  | some r => by_cases h0 : r.timestamp = 0 <;> by_cases h1 : r.integral_dt = 0 <;> simp [h0, h1]

theorem mag_sample_vibration (s : State) (i : Nat) (f : Option MagReport) (g : Bool) :
    (mag_sample s i f g).1.vibration_warning = s.vibration_warning ∧
      (mag_sample s i f g).1.vibration_warning_timestamp = s.vibration_warning_timestamp := by
  unfold mag_sample
  cases f with
  | none => simp
  | some r => by_cases h0 : r.timestamp = 0 <;> simp [h0]

theorem baro_sample_vibration (s : State) (i : Nat) (f : Option BaroReport) (g : Bool) :
    (baro_sample s i f g).1.vibration_warning = s.vibration_warning ∧
      (baro_sample s i f g).1.vibration_warning_timestamp = s.vibration_warning_timestamp := by
  unfold baro_sample
  cases f with
  | none => simp
  | some r => by_cases h0 : r.timestamp = 0 <;> simp [h0]

/-- The four pollers leave the vibration members alone. -/
theorem poll_classes_vibration (inp : PollInput) (s : State) (raw : SensorCombined) :
    (poll_classes inp s raw).1.vibration_warning = s.vibration_warning ∧
      (poll_classes inp s raw).1.vibration_warning_timestamp
        = s.vibration_warning_timestamp := by
  have hg : ∀ (best : Election) (now : Nat) (fresh : Nat → Option InertialReport) (s : State)
      (raw : SensorCombined),
      (gyro_poll best now fresh s raw).1.vibration_warning = s.vibration_warning ∧
      (gyro_poll best now fresh s raw).1.vibration_warning_timestamp
        = s.vibration_warning_timestamp := by
    intro best now fresh s raw
    have hc : ((gyro_collect fresh s).1.vibration_warning,
        (gyro_collect fresh s).1.vibration_warning_timestamp)
        = (s.vibration_warning, s.vibration_warning_timestamp) := by
      unfold gyro_collect
      apply foldl_proj_eq _
        (fun a : State × Bool => (a.1.vibration_warning, a.1.vibration_warning_timestamp))
      intro a b
      simp [gyro_sample_vibration]
    simp only [Prod.mk.injEq] at hc
    unfold gyro_poll
    simp only
    split_ifs <;> exact hc
  have ha : ∀ (best : Election) (now : Nat) (fresh : Nat → Option InertialReport) (s : State)
      (raw : SensorCombined),
      (accel_poll best now fresh s raw).1.vibration_warning = s.vibration_warning ∧
      (accel_poll best now fresh s raw).1.vibration_warning_timestamp
        = s.vibration_warning_timestamp := by
    intro best now fresh s raw
    have hc : ((accel_collect fresh s).1.vibration_warning,
        (accel_collect fresh s).1.vibration_warning_timestamp)
        = (s.vibration_warning, s.vibration_warning_timestamp) := by
      unfold accel_collect
      apply foldl_proj_eq _
        (fun a : State × Bool => (a.1.vibration_warning, a.1.vibration_warning_timestamp))
      intro a b
      simp [accel_sample_vibration]
    simp only [Prod.mk.injEq] at hc
    unfold accel_poll
    simp only
    split_ifs <;> exact hc
  have hm : ∀ (best : Election) (now : Nat) (fresh : Nat → Option MagReport) (s : State)
      (raw : SensorCombined),
      (mag_poll best now fresh s raw).1.vibration_warning = s.vibration_warning ∧
      (mag_poll best now fresh s raw).1.vibration_warning_timestamp
        = s.vibration_warning_timestamp := by
    intro best now fresh s raw
    have hc : ((mag_collect fresh s).1.vibration_warning,
        (mag_collect fresh s).1.vibration_warning_timestamp)
        = (s.vibration_warning, s.vibration_warning_timestamp) := by
      unfold mag_collect
      apply foldl_proj_eq _
        (fun a : State × Bool => (a.1.vibration_warning, a.1.vibration_warning_timestamp))
      intro a b
      simp [mag_sample_vibration]
    simp only [Prod.mk.injEq] at hc
    unfold mag_poll
    simp only
    split_ifs <;> exact hc
  have hb : ∀ (best : Election) (now : Nat) (fresh : Nat → Option BaroReport) (s : State)
      (raw : SensorCombined),
      (baro_poll best now fresh s raw).1.vibration_warning = s.vibration_warning ∧
      (baro_poll best now fresh s raw).1.vibration_warning_timestamp
        = s.vibration_warning_timestamp := by
    intro best now fresh s raw
    have hc : ((baro_collect fresh s).1.vibration_warning,
        (baro_collect fresh s).1.vibration_warning_timestamp)
        = (s.vibration_warning, s.vibration_warning_timestamp) := by
      unfold baro_collect
      apply foldl_proj_eq _
        (fun a : State × Bool => (a.1.vibration_warning, a.1.vibration_warning_timestamp))
      intro a b
      simp [baro_sample_vibration]
    simp only [Prod.mk.injEq] at hc
    unfold baro_poll
    simp only
    split_ifs <;> exact hc
  unfold poll_classes
  simp only [hb, hm, ha, hg, and_self]

/-- The control-mode poll, the parameter update and the power monitor leave the vibration
members alone. -/
theorem other_members_vibration (s : State) :
    (∀ fresh, (vehicle_control_mode_poll s fresh).vibration_warning = s.vibration_warning ∧
      (vehicle_control_mode_poll s fresh).vibration_warning_timestamp
        = s.vibration_warning_timestamp) ∧
    (∀ env u f ps,
      (parameter_update_poll env u f s ps).state.vibration_warning = s.vibration_warning ∧
      (parameter_update_poll env u f s ps).state.vibration_warning_timestamp
        = s.vibration_warning_timestamp) ∧
    (∀ board p t adc throttle a,
      (adc_poll board p t adc throttle s a).1.vibration_warning = s.vibration_warning ∧
      (adc_poll board p t adc throttle s a).1.vibration_warning_timestamp
        = s.vibration_warning_timestamp) := by
  refine ⟨?_, ?_, ?_⟩
  · intro fresh
    unfold vehicle_control_mode_poll
    cases fresh with
    | none => exact ⟨rfl, rfl⟩
    | some m =>
      simp only
      split_ifs <;> exact ⟨rfl, rfl⟩
  · intro env u f ps
    unfold parameter_update_poll parameters_update
    split_ifs
    · cases env.update_parameters <;> simp
    · simp
  · intro board p t adc throttle a
    unfold adc_poll
    split_ifs
    · exact ⟨rfl, rfl⟩
    · cases adc with
      | nil => exact ⟨rfl, rfl⟩
      | cons first more => exact ⟨rfl, rfl⟩
    · exact ⟨rfl, rfl⟩

/-- What one call does to the latch: it returns true exactly when the warning was not latched,
a factor is above the threshold, a warning timestamp is recorded and more than 10 s have
elapsed since; the latch is set afterwards exactly when it was set before or the call
returned true. -/
theorem check_vibration_latch (p : Parameters) (vib : List VoterCall → Nat → Rat)
    (cur_time later : Nat) (s : State) :
    ((check_vibration p vib cur_time later s).2.1 = true ↔
      (s.vibration_warning = false ∧
       (vib s.gyro.voter cur_time > p.vibration_warning_threshold ∨
        vib s.accel.voter cur_time > p.vibration_warning_threshold ∨
        vib s.mag.voter cur_time > p.vibration_warning_threshold) ∧
       s.vibration_warning_timestamp ≠ 0 ∧
       10000000 < hrt_elapsed_time later s.vibration_warning_timestamp)) ∧
    ((check_vibration p vib cur_time later s).1.vibration_warning = true ↔
      (s.vibration_warning = true ∨ (check_vibration p vib cur_time later s).2.1 = true)) ∧
    ((check_vibration p vib cur_time later s).2.2.length
      = if (check_vibration p vib cur_time later s).2.1 then 1 else 0) := by
  by_cases hw : s.vibration_warning = true
  · rw [check_vibration_clear p vib cur_time later s (Or.inl hw)]
    simp [hw]
  · have hwf : s.vibration_warning = false := by
      cases h : s.vibration_warning with
      | true => exact absurd h hw
      | false => rfl
    by_cases he : vib s.gyro.voter cur_time > p.vibration_warning_threshold ∨
        vib s.accel.voter cur_time > p.vibration_warning_threshold ∨
        vib s.mag.voter cur_time > p.vibration_warning_threshold
    · by_cases hts : s.vibration_warning_timestamp = 0
      · rw [check_vibration_first p vib cur_time later s hwf he hts]
        simp [hwf, hts]
      · by_cases hel : 10000000 < hrt_elapsed_time later s.vibration_warning_timestamp
        · rw [check_vibration_fire p vib cur_time later s hwf he hts hel]
          simp [hwf, hts, hel, he]
        · rw [check_vibration_wait p vib cur_time later s hwf he hts (by omega)]
          simp [hwf, hel]
    · rw [check_vibration_clear p vib cur_time later s (Or.inr he)]
      simp [hwf, he]

/-- Over a run of calls the return value true occurs at most once, and not at all when the
warning is latched at the start; a latched warning stays latched. -/
theorem check_vibration_run_count (p : Parameters) (vib : List VoterCall → Nat → Rat)
    (calls : List VibrationCall) (s : State) :
    (check_vibration_run p vib calls s).2.count true
      ≤ (if s.vibration_warning = true then 0 else 1) ∧
    (s.vibration_warning = true → (check_vibration_run p vib calls s).1.vibration_warning
      = true) := by
  induction calls generalizing s with
  | nil =>
    refine ⟨?_, fun h => h⟩
    simp only [check_vibration_run, List.count_nil]
    split_ifs <;> omega
  | cons c rest ih =>
    unfold check_vibration_run
    simp only
    have hl := check_vibration_latch p vib c.cur_time c.later
      { s with
          gyro := { s.gyro with voter := c.gyro }
          accel := { s.accel with voter := c.accel }
          mag := { s.mag with voter := c.mag } }
    generalize check_vibration p vib c.cur_time c.later
      { s with
          gyro := { s.gyro with voter := c.gyro }
          accel := { s.accel with voter := c.accel }
          mag := { s.mag with voter := c.mag } } = r at hl ⊢
    simp only at hl
    have hrest := ih r.1
    refine ⟨?_, fun h => hrest.2 (hl.2.1.mpr (Or.inl h))⟩
    cases hret : r.2.1 with
    | true =>
      have hbefore := (hl.1.mp hret).1
      have hafter : r.1.vibration_warning = true := hl.2.1.mpr (Or.inr hret)
      have h0 := hrest.1
      rw [if_pos hafter] at h0
      rw [List.count_cons_self, if_neg (by simp [hbefore])]
      omega
    | false =>
      rw [List.count_cons_of_ne (by simp)]
      by_cases hs : s.vibration_warning = true
      · have hafter : r.1.vibration_warning = true := hl.2.1.mpr (Or.inl hs)
        have h0 := hrest.1
        rw [if_pos hafter] at h0
        rw [if_pos hs]
        exact h0
      · rw [if_neg hs]
        have h0 := hrest.1
        split_ifs at h0 <;> omega

/-- C24: `check_vibration` returns true exactly on a call where the warning is not yet
latched, some class's vibration factor exceeds the threshold, a warning timestamp (recorded
by the first such call) is there, and more than 10 000 000 us have elapsed since it; that
call latches the warning. A call on which no factor exceeds the threshold returns false and
resets the warning timestamp to 0. The first exceeding call after that records its own time,
and an exceeding call within the window changes nothing. The test on the three factors is
`max(gyro, accel, mag) > threshold`. -/
theorem C24_vibration_debounce (p : Parameters) (vib : List VoterCall → Nat → Rat)
    (cur_time later : Nat) (s : State) :
    ((check_vibration p vib cur_time later s).2.1 = true ↔
      (s.vibration_warning = false ∧
       (vib s.gyro.voter cur_time > p.vibration_warning_threshold ∨
        vib s.accel.voter cur_time > p.vibration_warning_threshold ∨
        vib s.mag.voter cur_time > p.vibration_warning_threshold) ∧
       s.vibration_warning_timestamp ≠ 0 ∧
       10000000 < hrt_elapsed_time later s.vibration_warning_timestamp)) ∧
    ((check_vibration p vib cur_time later s).2.1 = true →
      (check_vibration p vib cur_time later s).1.vibration_warning = true) ∧
    (¬ (vib s.gyro.voter cur_time > p.vibration_warning_threshold ∨
        vib s.accel.voter cur_time > p.vibration_warning_threshold ∨
        vib s.mag.voter cur_time > p.vibration_warning_threshold) →
      check_vibration p vib cur_time later s
        = ({ s with vibration_warning_timestamp := 0 }, false, [])) ∧
    (s.vibration_warning = false →
      (vib s.gyro.voter cur_time > p.vibration_warning_threshold ∨
        vib s.accel.voter cur_time > p.vibration_warning_threshold ∨
        vib s.mag.voter cur_time > p.vibration_warning_threshold) →
      (s.vibration_warning_timestamp = 0 →
        check_vibration p vib cur_time later s
          = ({ s with vibration_warning_timestamp := cur_time }, false, [])) ∧
      (s.vibration_warning_timestamp ≠ 0 →
        hrt_elapsed_time later s.vibration_warning_timestamp ≤ 10000000 →
        check_vibration p vib cur_time later s = (s, false, []))) ∧
    ((vib s.gyro.voter cur_time > p.vibration_warning_threshold ∨
        vib s.accel.voter cur_time > p.vibration_warning_threshold ∨
        vib s.mag.voter cur_time > p.vibration_warning_threshold) ↔
      max (max (vib s.gyro.voter cur_time) (vib s.accel.voter cur_time))
        (vib s.mag.voter cur_time) > p.vibration_warning_threshold) := by
  have hl := check_vibration_latch p vib cur_time later s
  refine ⟨hl.1, fun h => hl.2.1.mpr (Or.inr h),
    fun h => check_vibration_clear p vib cur_time later s (Or.inr h),
    fun hw he => ⟨fun hts => check_vibration_first p vib cur_time later s hw he hts,
      fun hts hel => check_vibration_wait p vib cur_time later s hw he hts hel⟩, ?_⟩
  simp only [gt_iff_lt, lt_max_iff, or_assoc]

/-- C24 instance: threshold 0 and a gyro factor of 1. With the warning timestamp at 1000 us a
call whose clock reads 11 001 002 us returns true; on an object whose voters are fresh (all
factors 0) the call returns false and clears the timestamp. -/
theorem C24_vibration_debounce_witness :
    (check_vibration example_params example_vibration 11001001 11001002
      (shaken_state 1000)).2.1 = true ∧
    check_vibration example_params example_vibration 11001001 11001002
        { one_instance_state with vibration_warning_timestamp := 1000 }
      = ({ one_instance_state with vibration_warning_timestamp := 0 }, false, []) :=
  ⟨(C24_vibration_debounce example_params example_vibration 11001001 11001002
      (shaken_state 1000)).1.mpr ⟨rfl, Or.inl (by decide), by decide, by decide⟩,
   (C24_vibration_debounce example_params example_vibration 11001001 11001002
      { one_instance_state with vibration_warning_timestamp := 1000 }).2.2.1 (by decide)⟩

/-- C27: over every run of `check_vibration` calls the return value true occurs at most
once. Once `_vibration_warning` is latched, every call returns false, logs nothing, resets
the warning timestamp to 0 and leaves the latch set, whatever the vibration factors are; no
other member function writes the latch: the pollers, the control-mode poll, the parameter
update and the power monitor leave it alone. The constructor starts with the latch clear and
the timestamp 0. -/
theorem C27_warning_latched_for_life (p : Parameters) (vib : List VoterCall → Nat → Rat)
    (calls : List VibrationCall) (s : State) :
    (check_vibration_run p vib calls s).2.count true ≤ 1 ∧
    (s.vibration_warning = true →
      (check_vibration_run p vib calls s).2.count true = 0 ∧
      (check_vibration_run p vib calls s).1.vibration_warning = true) ∧
    (∀ cur_time later, s.vibration_warning = true →
      check_vibration p vib cur_time later s
        = ({ s with vibration_warning_timestamp := 0 }, false, [])) ∧
    (∀ cur_time later, (check_vibration p vib cur_time later s).2.1 = true →
      s.vibration_warning = false ∧
      (check_vibration p vib cur_time later s).1.vibration_warning = true) ∧
    ((∀ inp raw, (poll_classes inp s raw).1.vibration_warning = s.vibration_warning) ∧
      (∀ fresh, (vehicle_control_mode_poll s fresh).vibration_warning = s.vibration_warning) ∧
      (∀ env u f ps,
        (parameter_update_poll env u f s ps).state.vibration_warning = s.vibration_warning) ∧
      (∀ board q t adc throttle a,
        (adc_poll board q t adc throttle s a).1.vibration_warning = s.vibration_warning)) ∧
    (∀ board jp jq, (State.ctor board jp jq).vibration_warning = false ∧
      (State.ctor board jp jq).vibration_warning_timestamp = 0) := by
  have hc := check_vibration_run_count p vib calls s
  have ho := other_members_vibration s
  refine ⟨?_, ?_, ?_, ?_, ?_, fun _ _ _ => ⟨rfl, rfl⟩⟩
  · have h := hc.1
    split_ifs at h <;> omega
  · intro hw
    have h := hc.1
    rw [if_pos hw] at h
    exact ⟨by omega, hc.2 hw⟩
  · intro cur_time later hw
    exact check_vibration_clear p vib cur_time later s (Or.inl hw)
  · intro cur_time later hret
    have hl := check_vibration_latch p vib cur_time later s
    exact ⟨(hl.1.mp hret).1, hl.2.1.mpr (Or.inr hret)⟩
  · exact ⟨fun inp raw => (poll_classes_vibration inp s raw).1, fun fresh => (ho.1 fresh).1,
      fun env u f ps => (ho.2.1 env u f ps).1,
      fun board q t adc throttle a => (ho.2.2 board q t adc throttle a).1⟩

/-- C27 instance: three calls that all find the gyro shaking, at 1000 us, a little over 10 s
later and at 30 s: the second returns true, the third, on the latched object, false. -/
theorem C27_warning_latched_for_life_witness :
    (check_vibration_run example_params example_vibration shaking_calls
      one_instance_state).2 = [false, true, false] ∧
    (check_vibration_run example_params example_vibration shaking_calls
      one_instance_state).2.count true ≤ 1 ∧
    (check_vibration example_params example_vibration 30000000 30000001
      { shaken_state 1000 with vibration_warning := true }).2.1 = false :=
  ⟨by decide,
   (C27_warning_latched_for_life example_params example_vibration shaking_calls
      one_instance_state).1,
   congrArg (fun r => r.2.1)
     ((C27_warning_latched_for_life example_params example_vibration []
        { shaken_state 1000 with vibration_warning := true }).2.2.1 30000000 30000001 rfl)⟩

/-! ## The analog airspeed sensor -/

/-- The channel loop body synthesizes a differential pressure record exactly when the sample
is on the airspeed channel (and on neither battery channel), its voltage is above 0.4 and
the analog scale is positive; the record is the one the source builds. -/
theorem adc_channel_synthesis (board : BoardConfig) (p : Parameters) (t : Nat) (acc : AdcScan)
    (msg : AdcMsg) :
    ((board.ADC_BATTERY_VOLTAGE_CHANNEL ≠ msg.am_channel ∧
      board.ADC_BATTERY_CURRENT_CHANNEL ≠ msg.am_channel ∧
      board.ADC_AIRSPEED_VOLTAGE_CHANNEL = some msg.am_channel ∧
      (msg.am_data : Rat) * (33 / 10) / 4096 * 2 > 4 / 10 ∧ p.diff_pres_analog_scale > 0) →
      (adc_channel board p t acc msg).diff_pres
        = { acc.diff_pres with
              timestamp := t
              differential_pressure_raw_pa :=
                (msg.am_data : Rat) * (33 / 10) / 4096 * 2 * p.diff_pres_analog_scale
                  - p.diff_pres_offset_pa
              differential_pressure_filtered_pa :=
                acc.diff_pres.differential_pressure_filtered_pa * (9 / 10)
                  + ((msg.am_data : Rat) * (33 / 10) / 4096 * 2 * p.diff_pres_analog_scale
                      - p.diff_pres_offset_pa) * (1 / 10)
              temperature := -1000 } ∧
      (adc_channel board p t acc msg).events
        = acc.events ++ [AdcEvent.publish_diff_pres (adc_channel board p t acc msg).diff_pres]) ∧
    (¬ (board.ADC_BATTERY_VOLTAGE_CHANNEL ≠ msg.am_channel ∧
      board.ADC_BATTERY_CURRENT_CHANNEL ≠ msg.am_channel ∧
      board.ADC_AIRSPEED_VOLTAGE_CHANNEL = some msg.am_channel ∧
      (msg.am_data : Rat) * (33 / 10) / 4096 * 2 > 4 / 10 ∧ p.diff_pres_analog_scale > 0) →
      (adc_channel board p t acc msg).diff_pres = acc.diff_pres ∧
      (adc_channel board p t acc msg).events = acc.events) := by
  unfold adc_channel
  by_cases hv : board.ADC_BATTERY_VOLTAGE_CHANNEL = msg.am_channel
  · simp [hv]
  · by_cases hc : board.ADC_BATTERY_CURRENT_CHANNEL = msg.am_channel
    · simp [hv, hc]
    · cases ha : board.ADC_AIRSPEED_VOLTAGE_CHANNEL with
      | none => simp [hv, hc]
      | some ch =>
        by_cases hch : ch = msg.am_channel
        · by_cases hcond : (msg.am_data : Rat) * (33 / 10) / 4096 * 2 > 4 / 10 ∧
              p.diff_pres_analog_scale > 0
          · simp [hv, hc, hch, hcond]
          · simp [hv, hc, hch, hcond]
        · simp [hv, hc, hch]

/-- Every differential pressure publication in the events of the channel loop was either
there before or is a record synthesized from a sample on the airspeed channel with voltage
above 0.4, with a positive analog scale: it carries temperature -1000, the time of the call,
and the raw value `voltage * scale - offset`. -/
theorem adc_fold_published (board : BoardConfig) (p : Parameters) (t : Nat) (l : List AdcMsg)
    (acc : AdcScan) (dp : DifferentialPressure)
    (h : AdcEvent.publish_diff_pres dp ∈ (l.foldl (adc_channel board p t) acc).events) :
    AdcEvent.publish_diff_pres dp ∈ acc.events ∨
    (dp.temperature = -1000 ∧ dp.timestamp = t ∧ p.diff_pres_analog_scale > 0 ∧
      ∃ msg ∈ l,
        board.ADC_AIRSPEED_VOLTAGE_CHANNEL = some msg.am_channel ∧
        (msg.am_data : Rat) * (33 / 10) / 4096 * 2 > 4 / 10 ∧
        dp.differential_pressure_raw_pa
          = (msg.am_data : Rat) * (33 / 10) / 4096 * 2 * p.diff_pres_analog_scale
              - p.diff_pres_offset_pa) := by
  induction l generalizing acc with
  | nil => exact Or.inl h
  | cons m rest ih =>
    rw [List.foldl_cons] at h
    rcases ih (adc_channel board p t acc m) h with h1 | ⟨h2, h3, h4, msg, hmem, hrest⟩
    · have hs := adc_channel_synthesis board p t acc m
      by_cases hcond : board.ADC_BATTERY_VOLTAGE_CHANNEL ≠ m.am_channel ∧
          board.ADC_BATTERY_CURRENT_CHANNEL ≠ m.am_channel ∧
          board.ADC_AIRSPEED_VOLTAGE_CHANNEL = some m.am_channel ∧
          (m.am_data : Rat) * (33 / 10) / 4096 * 2 > 4 / 10 ∧ p.diff_pres_analog_scale > 0
      · obtain ⟨hd, he⟩ := hs.1 hcond
        rw [he, List.mem_append, List.mem_singleton] at h1
        rcases h1 with h1 | h1
        · exact Or.inl h1
        · right
          have hdp : dp = (adc_channel board p t acc m).diff_pres := by
            injection h1
          rw [hdp, hd]
          exact ⟨rfl, rfl, hcond.2.2.2.2, m, List.mem_cons_self _ _, hcond.2.2.1,
            hcond.2.2.2.1, rfl⟩
      · rw [(hs.2 hcond).2] at h1
        exact Or.inl h1
    · exact Or.inr ⟨h2, h3, h4, msg, List.mem_cons_of_mem _ hmem, hrest⟩

/-- The same for a whole `adc_poll` call. -/
theorem adc_poll_published (board : BoardConfig) (p : Parameters) (t : Nat)
    (adc : List AdcMsg) (throttle : Rat) (s : State) (a : AirData) (dp : DifferentialPressure)
    (h : AdcEvent.publish_diff_pres dp ∈ (adc_poll board p t adc throttle s a).2.2) :
    dp.temperature = -1000 ∧ dp.timestamp = t ∧ p.diff_pres_analog_scale > 0 ∧
      ∃ msg ∈ adc,
        board.ADC_AIRSPEED_VOLTAGE_CHANNEL = some msg.am_channel ∧
        (msg.am_data : Rat) * (33 / 10) / 4096 * 2 > 4 / 10 ∧
        dp.differential_pressure_raw_pa
          = (msg.am_data : Rat) * (33 / 10) / 4096 * 2 * p.diff_pres_analog_scale
              - p.diff_pres_offset_pa := by
  unfold adc_poll at h
  split_ifs at h with h1 h2
  · simp at h
  · cases adc with
    | nil => simp at h
    | cons first more =>
      simp only at h
      have hin : AdcEvent.publish_diff_pres dp ∈
          ((first :: more).foldl (adc_channel board p t)
            { bat_voltage_v := 0, bat_current_a := 0, updated_battery := false,
              diff_pres := a.diff_pres,
              events := [AdcEvent.read (first :: more).length] }).events := by
        split_ifs at h
        · rcases List.mem_append.mp h with h3 | h3
          · exact h3
          · simp at h3
        · exact h
      rcases adc_fold_published board p t (first :: more) _ dp hin with h4 | h4
      · simp at h4
      · exact h4
  · simp at h

/-- The records published by the channel loop: each one is the stored record with the time
of the call, the raw value of its sample, the filtered value
`0.9 * filtered of the record before + 0.1 * raw` and temperature -1000; the raw values are
those of the samples that qualify, in order; the stored record ends as the last one. -/
theorem adc_fold_chain (board : BoardConfig) (p : Parameters) (t : Nat) (l : List AdcMsg)
    (acc : AdcScan) :
    ∃ pubs : List DifferentialPressure,
      published_records (l.foldl (adc_channel board p t) acc).events
        = published_records acc.events ++ pubs ∧
      List.Chain (fun prev dp => dp =
          { prev with
              timestamp := t
              differential_pressure_raw_pa := dp.differential_pressure_raw_pa
              differential_pressure_filtered_pa :=
                prev.differential_pressure_filtered_pa * (9 / 10)
                  + dp.differential_pressure_raw_pa * (1 / 10)
              temperature := -1000 }) acc.diff_pres pubs ∧
      (l.foldl (adc_channel board p t) acc).diff_pres = pubs.getLastD acc.diff_pres ∧
      pubs.map (fun dp => dp.differential_pressure_raw_pa)
        = (l.filter (synthesizes board p)).map (fun msg =>
            (msg.am_data : Rat) * (33 / 10) / 4096 * 2 * p.diff_pres_analog_scale
              - p.diff_pres_offset_pa) := by
  induction l generalizing acc with
  | nil => exact ⟨[], by simp, List.Chain.nil, rfl, rfl⟩
  | cons m rest ih =>
    obtain ⟨pubs, h1, h2, h3, h4⟩ := ih (adc_channel board p t acc m)
    have hs := adc_channel_synthesis board p t acc m
    by_cases hcond : board.ADC_BATTERY_VOLTAGE_CHANNEL ≠ m.am_channel ∧
        board.ADC_BATTERY_CURRENT_CHANNEL ≠ m.am_channel ∧
        board.ADC_AIRSPEED_VOLTAGE_CHANNEL = some m.am_channel ∧
        (m.am_data : Rat) * (33 / 10) / 4096 * 2 > 4 / 10 ∧ p.diff_pres_analog_scale > 0
    · obtain ⟨hd, he⟩ := hs.1 hcond
      have hq : synthesizes board p m = true := by
        unfold synthesizes
        exact decide_eq_true hcond
      refine ⟨(adc_channel board p t acc m).diff_pres :: pubs, ?_, ?_, ?_, ?_⟩
      · rw [List.foldl_cons, h1, he]
        simp [published_records]
      · refine List.Chain.cons ?_ h2
        rw [hd]
      · rw [List.foldl_cons, h3, List.getLastD_cons]
      · rw [List.filter_cons_of_pos hq, List.map_cons, List.map_cons, h4, hd]
    · obtain ⟨hd, he⟩ := hs.2 hcond
      have hq : ¬ synthesizes board p m = true := by
        unfold synthesizes
        simpa using hcond
      refine ⟨pubs, ?_, ?_, ?_, ?_⟩
      · rw [List.foldl_cons, h1, he]
      · rw [← hd]
        exact h2
      · rw [List.foldl_cons, h3, hd]
      · rw [List.filter_cons_of_neg hq, h4]

/-- The records published by one `adc_poll` call form a chain that starts at the stored
`_diff_pres`, and `_diff_pres` ends as the last of them. A call that reads publishes one
record per qualifying sample, in order; a call that does not read publishes none. -/
theorem adc_poll_chain (board : BoardConfig) (p : Parameters) (t : Nat) (adc : List AdcMsg)
    (throttle : Rat) (s : State) (a : AirData) :
    List.Chain (fun prev dp => dp =
        { prev with
            timestamp := t
            differential_pressure_raw_pa := dp.differential_pressure_raw_pa
            differential_pressure_filtered_pa :=
              prev.differential_pressure_filtered_pa * (9 / 10)
                + dp.differential_pressure_raw_pa * (1 / 10)
            temperature := -1000 }) a.diff_pres
      (published_records (adc_poll board p t adc throttle s a).2.2) ∧
    (adc_poll board p t adc throttle s a).2.1.diff_pres
      = (published_records (adc_poll board p t adc throttle s a).2.2).getLastD a.diff_pres ∧
    (s.publishing = true → 10000 ≤ u64sub t s.last_adc →
      (published_records (adc_poll board p t adc throttle s a).2.2).map
          (fun dp => dp.differential_pressure_raw_pa)
        = (adc.filter (synthesizes board p)).map (fun msg =>
            (msg.am_data : Rat) * (33 / 10) / 4096 * 2 * p.diff_pres_analog_scale
              - p.diff_pres_offset_pa)) ∧
    (s.publishing = false ∨ u64sub t s.last_adc < 10000 →
      published_records (adc_poll board p t adc throttle s a).2.2 = []) := by
  by_cases hidle : s.publishing = false ∨ u64sub t s.last_adc < 10000
  · rw [adc_poll_idle board p t adc throttle s a hidle]
    refine ⟨List.Chain.nil, rfl, ?_, fun _ => rfl⟩
    intro hp hw
    rcases hidle with h | h
    · rw [hp] at h
      cases h
    · omega
  · have hp : s.publishing = true := by
      cases hpub : s.publishing with
      | true => rfl
      | false => exact absurd (Or.inl hpub) hidle
    have hw : 10000 ≤ u64sub t s.last_adc := by
      by_contra hcon
      exact hidle (Or.inr (by omega))
    cases adc with
    | nil =>
      rw [adc_poll_no_data board p t throttle s a hp hw]
      exact ⟨List.Chain.nil, rfl, fun _ _ => rfl, fun h => absurd h hidle⟩
    | cons first more =>
      obtain ⟨pubs, h1, h2, h3, h4⟩ := adc_fold_chain board p t (first :: more)
        { bat_voltage_v := 0, bat_current_a := 0, updated_battery := false,
          diff_pres := a.diff_pres, events := [AdcEvent.read (first :: more).length] }
      have hev : published_records (adc_poll board p t (first :: more) throttle s a).2.2
          = pubs := by
        unfold adc_poll
        rw [if_neg (by simp [hp]), if_pos hw]
        simp only
        split_ifs
        · have happ : ∀ (l : List AdcEvent) (e : AdcEvent),
              (∀ dp, e ≠ AdcEvent.publish_diff_pres dp) →
              published_records (l ++ [e]) = published_records l := by
            intro l e he
            unfold published_records
            rw [List.filterMap_append]
            cases e with
            | read n => simp
            | publish_diff_pres dp => exact absurd rfl (he dp)
            | publish_battery t v c th ar => simp
          rw [happ _ _ (by intro dp; simp), h1]
          simp [published_records]
        · rw [h1]
          simp [published_records]
      have hdp : (adc_poll board p t (first :: more) throttle s a).2.1.diff_pres
          = pubs.getLastD a.diff_pres := by
        unfold adc_poll
        rw [if_neg (by simp [hp]), if_pos hw]
        exact h3
      rw [hev, hdp]
      exact ⟨h2, rfl, fun _ _ => h4, fun h => absurd h hidle⟩

/-- C28: every differential pressure record that `adc_poll` publishes carries temperature
-1000 and the time of the call, and comes from a sample on the airspeed channel with voltage
`am_data * 3.3 / 4096 * 2` above 0.4 and a positive `diff_pres_analog_scale`, its raw value
being `voltage * scale - offset`; when `diff_pres_poll` processes such a record, the air
temperature it uses and publishes is the snapshot's baro temperature minus 5, whatever the
snapshot and the state are. The published records form a chain that starts at the stored
`_diff_pres`: each one is the record before it with the new time, raw value and temperature
and with filtered value `0.9 * filtered of the record before + 0.1 * raw`, and `_diff_pres`
ends as the last of them. A call that reads publishes exactly one record per qualifying
sample, in order, and a call that does not read publishes none. In the channel loop a
record is synthesized exactly under the conditions above. -/
theorem C28_analog_airspeed_temperature (board : BoardConfig) (p : Parameters) (t : Nat)
    (adc : List AdcMsg) (throttle : Rat) (s : State) (a : AirData) :
    (∀ dp, AdcEvent.publish_diff_pres dp ∈ (adc_poll board p t adc throttle s a).2.2 →
      dp.temperature = -1000 ∧ dp.timestamp = t ∧ p.diff_pres_analog_scale > 0 ∧
      (∃ msg ∈ adc,
        board.ADC_AIRSPEED_VOLTAGE_CHANNEL = some msg.am_channel ∧
        (msg.am_data : Rat) * (33 / 10) / 4096 * 2 > 4 / 10 ∧
        dp.differential_pressure_raw_pa
          = (msg.am_data : Rat) * (33 / 10) / 4096 * 2 * p.diff_pres_analog_scale
              - p.diff_pres_offset_pa) ∧
      (∀ (lib : AirspeedLib) (now : Nat) (s2 : State) (raw : SensorCombined) (a2 : AirData),
        air_temperature dp raw = raw.baro_temp_celcius - 5 ∧
        (diff_pres_poll lib now (some dp) s2 raw a2).1.airspeed.air_temperature_celsius
          = raw.baro_temp_celcius - 5 ∧
        (diff_pres_poll lib now (some dp) s2 raw a2).2
          = some (diff_pres_poll lib now (some dp) s2 raw a2).1.airspeed)) ∧
    (List.Chain (fun prev dp => dp =
          { prev with
              timestamp := t
              differential_pressure_raw_pa := dp.differential_pressure_raw_pa
              differential_pressure_filtered_pa :=
                prev.differential_pressure_filtered_pa * (9 / 10)
                  + dp.differential_pressure_raw_pa * (1 / 10)
              temperature := -1000 }) a.diff_pres
        (published_records (adc_poll board p t adc throttle s a).2.2) ∧
      (adc_poll board p t adc throttle s a).2.1.diff_pres
        = (published_records (adc_poll board p t adc throttle s a).2.2).getLastD a.diff_pres ∧
      (s.publishing = true → 10000 ≤ u64sub t s.last_adc →
        (published_records (adc_poll board p t adc throttle s a).2.2).map
            (fun dp => dp.differential_pressure_raw_pa)
          = (adc.filter (synthesizes board p)).map (fun msg =>
              (msg.am_data : Rat) * (33 / 10) / 4096 * 2 * p.diff_pres_analog_scale
                - p.diff_pres_offset_pa)) ∧
      (s.publishing = false ∨ u64sub t s.last_adc < 10000 →
        published_records (adc_poll board p t adc throttle s a).2.2 = [])) ∧
    (∀ (acc : AdcScan) (msg : AdcMsg),
      ((board.ADC_BATTERY_VOLTAGE_CHANNEL ≠ msg.am_channel ∧
        board.ADC_BATTERY_CURRENT_CHANNEL ≠ msg.am_channel ∧
        board.ADC_AIRSPEED_VOLTAGE_CHANNEL = some msg.am_channel ∧
        (msg.am_data : Rat) * (33 / 10) / 4096 * 2 > 4 / 10 ∧ p.diff_pres_analog_scale > 0) →
        (adc_channel board p t acc msg).diff_pres
          = { acc.diff_pres with
                timestamp := t
                differential_pressure_raw_pa :=
                  (msg.am_data : Rat) * (33 / 10) / 4096 * 2 * p.diff_pres_analog_scale
                    - p.diff_pres_offset_pa
                differential_pressure_filtered_pa :=
                  acc.diff_pres.differential_pressure_filtered_pa * (9 / 10)
                    + ((msg.am_data : Rat) * (33 / 10) / 4096 * 2 * p.diff_pres_analog_scale
                        - p.diff_pres_offset_pa) * (1 / 10)
                temperature := -1000 } ∧
        (adc_channel board p t acc msg).events
          = acc.events
            ++ [AdcEvent.publish_diff_pres (adc_channel board p t acc msg).diff_pres]) ∧
      (¬ (board.ADC_BATTERY_VOLTAGE_CHANNEL ≠ msg.am_channel ∧
        board.ADC_BATTERY_CURRENT_CHANNEL ≠ msg.am_channel ∧
        board.ADC_AIRSPEED_VOLTAGE_CHANNEL = some msg.am_channel ∧
        (msg.am_data : Rat) * (33 / 10) / 4096 * 2 > 4 / 10 ∧ p.diff_pres_analog_scale > 0) →
        (adc_channel board p t acc msg).diff_pres = acc.diff_pres ∧
        (adc_channel board p t acc msg).events = acc.events)) := by
  refine ⟨?_, adc_poll_chain board p t adc throttle s a,
    fun acc msg => adc_channel_synthesis board p t acc msg⟩
  intro dp h
  obtain ⟨h1, h2, h3, msg, hmem, h4, h5, h6⟩ :=
    adc_poll_published board p t adc throttle s a dp h
  refine ⟨h1, h2, h3, ⟨msg, hmem, h4, h5, h6⟩, ?_⟩
  intro lib now s2 raw a2
  have ht : air_temperature dp raw = raw.baro_temp_celcius - 5 := by
    unfold air_temperature PCB_TEMP_ESTIMATE_DEG
    rw [h1, if_neg (by norm_num)]
  exact ⟨ht, ht, rfl⟩

/-- C28 instance: the stored record has filtered value 10 and temperature 30; one read
returns the samples 2048 and 4096 on the airspeed channel, with scale 10 and offset 3. The
call publishes two records: raw 30 with filtered `0.9 * 10 + 3 = 12`, then raw 63 with
filtered `0.9 * 12 + 6.3 = 17.1`, both with temperature -1000, and stores the second. With a
baro temperature of 25, `diff_pres_poll` works with 20 on the second record. -/
theorem C28_analog_airspeed_temperature_witness :
    published_records (adc_poll example_board airspeed_params 20000
        [{ am_channel := 15, am_data := 2048 }, { am_channel := 15, am_data := 4096 }] 0
        one_instance_state filtered_air).2.2 = [analog_first, analog_second] ∧
    (adc_poll example_board airspeed_params 20000
        [{ am_channel := 15, am_data := 2048 }, { am_channel := 15, am_data := 4096 }] 0
        one_instance_state filtered_air).2.1.diff_pres = analog_second ∧
    (diff_pres_poll example_lib 20001 (some analog_second) one_instance_state warm_raw
      example_air).1.airspeed.air_temperature_celsius = 20 := by
  have hpub : published_records (adc_poll example_board airspeed_params 20000
        [{ am_channel := 15, am_data := 2048 }, { am_channel := 15, am_data := 4096 }] 0
        one_instance_state filtered_air).2.2 = [analog_first, analog_second] := by
    simp [published_records, adc_poll, adc_channel, one_instance_state, State.ctor, u64sub,
      example_board, airspeed_params, example_params, example_air, filtered_air, analog_first,
      analog_second]
    norm_num
    rfl
  have hthm := C28_analog_airspeed_temperature example_board airspeed_params 20000
    [{ am_channel := 15, am_data := 2048 }, { am_channel := 15, am_data := 4096 }] 0
    one_instance_state filtered_air
  refine ⟨hpub, ?_, ?_⟩
  · rw [hthm.2.1.2.1, hpub]
    rfl
  · have hmem : AdcEvent.publish_diff_pres analog_second
        ∈ (adc_poll example_board airspeed_params 20000
          [{ am_channel := 15, am_data := 2048 }, { am_channel := 15, am_data := 4096 }] 0
          one_instance_state filtered_air).2.2 := by
      have : analog_second ∈ published_records (adc_poll example_board airspeed_params 20000
          [{ am_channel := 15, am_data := 2048 }, { am_channel := 15, am_data := 4096 }] 0
          one_instance_state filtered_air).2.2 := by
        rw [hpub]
        simp
      unfold published_records at this
      obtain ⟨e, he, hd⟩ := List.mem_filterMap.mp this
      cases e with
      | read n => cases hd
      | publish_diff_pres dp =>
        simp only [Option.some.injEq] at hd
        rw [← hd]
        exact he
      | publish_battery t v c th ar => cases hd
    rw [((hthm.1 analog_second hmem).2.2.2.2 example_lib 20001 one_instance_state warm_raw
      example_air).2.1]
    norm_num [warm_raw, SensorCombined.zero]

/-! ## Mag rotation when several mags are running -/

/-- The rotation handling leaves the legacy parameter as it is or sets it to 0. -/
theorem mag_rotation_handling_legacy (env : Env) (b : Mat3) (j : Nat) (st : Scan) :
    (mag_rotation_handling env b j st).params.int32 Param.SENS_EXT_MAG_ROT
        = st.params.int32 Param.SENS_EXT_MAG_ROT ∨
      (mag_rotation_handling env b j st).params.int32 Param.SENS_EXT_MAG_ROT = some 0 := by
  have hne : Param.SENS_EXT_MAG_ROT ≠ Param.cal SensorClass.mag j CalField.ROT := by simp
  have hset : ∀ ps : ParamStore,
      (param_set_no_notification ps Param.SENS_EXT_MAG_ROT 0).int32 Param.SENS_EXT_MAG_ROT
          = ps.int32 Param.SENS_EXT_MAG_ROT ∨
        (param_set_no_notification ps Param.SENS_EXT_MAG_ROT 0).int32 Param.SENS_EXT_MAG_ROT
          = some 0 := by
    intro ps
    cases h : ps.int32 Param.SENS_EXT_MAG_ROT with
    | none =>
      left
      simp [param_set_no_notification, h]
    | some v => exact Or.inr (param_set_same ps _ 0 v h)
  unfold mag_rotation_handling
  by_cases hx : ioctl env st.h Device.external ≤ 0
  · simp only [hx, if_true]
    split_ifs
    · exact Or.inl (param_set_other hne)
    · exact Or.inl rfl
  · simp only [hx, if_false]
    split_ifs with h1 h2 h3
    · rcases hset (param_set_no_notification
          (param_set_no_notification st.params (Param.cal SensorClass.mag j CalField.ROT) 0)
          (Param.cal SensorClass.mag j CalField.ROT)
          (((param_set_no_notification st.params
            (Param.cal SensorClass.mag j CalField.ROT) 0).int32
              Param.SENS_EXT_MAG_ROT).getD 0)) with h | h
      · left
        rw [h, param_set_other hne, param_set_other hne]
      · exact Or.inr h
    · exact Or.inl (param_set_other hne)
    · rcases hset (param_set_no_notification st.params
          (Param.cal SensorClass.mag j CalField.ROT)
          ((st.params.int32 Param.SENS_EXT_MAG_ROT).getD 0)) with h | h
      · left
        rw [h, param_set_other hne]
      · exact Or.inr h
    · exact Or.inl rfl

/-- A mag scan over records other than `i` leaves the `ROT` of record `i` alone, and the legacy
parameter as it is or at 0. -/
theorem scan_mag_other_record (env : Env) (b : Mat3) (i : Nat) (l : List Nat) (st : Scan)
    (hi : i ∉ l) :
    (scan_calibrations env SensorClass.mag b l st).params.int32
        (Param.cal SensorClass.mag i CalField.ROT)
      = st.params.int32 (Param.cal SensorClass.mag i CalField.ROT) ∧
    ((scan_calibrations env SensorClass.mag b l st).params.int32 Param.SENS_EXT_MAG_ROT
        = st.params.int32 Param.SENS_EXT_MAG_ROT ∨
      (scan_calibrations env SensorClass.mag b l st).params.int32 Param.SENS_EXT_MAG_ROT
        = some 0) := by
  induction l generalizing st with
  | nil => exact ⟨rfl, Or.inl rfl⟩
  | cons j rest ih =>
    have hij : i ≠ j := fun h => hi (h ▸ List.mem_cons_self _ _)
    have hir : i ∉ rest := fun h => hi (List.mem_cons_of_mem _ h)
    unfold scan_calibrations
    cases hid : st.params.int32 (Param.cal SensorClass.mag j CalField.ID) with
    | none => exact ih _ hir
    | some device_id =>
      simp only
      split_ifs with hm
      · have hs := (matched_record_store env SensorClass.mag b j
          { st with calls := st.calls ++ [DevCall.getDeviceId st.h.isSome] }).2.2.2 rfl
        rw [hs.1]
        exact ⟨(mag_rotation_handling_frame env b j
            { st with calls := st.calls ++ [DevCall.getDeviceId st.h.isSome] }).2.2.2.2.2 _
            (by simp [hij]) (by simp),
          mag_rotation_handling_legacy env b j
            { st with calls := st.calls ++ [DevCall.getDeviceId st.h.isSome] }⟩
      · exact ih _ hir

/-- The scan for a live device whose id differs from the id stored in record `i` leaves the
`ROT` of record `i` alone, and the legacy parameter as it is or at 0, provided the ids of the
records before `i` can be read. -/
theorem scan_mag_foreign_record (env : Env) (b : Mat3) (d2 : Device) (id : Int)
    (i : Nat) (l1 l2 : List Nat) (st : Scan) (hh : st.h = some d2) (hne : d2.device_id ≠ id)
    (hid : st.params.int32 (Param.cal SensorClass.mag i CalField.ID) = some id)
    (hread : ∀ j ∈ l1, ∃ v, st.params.int32 (Param.cal SensorClass.mag j CalField.ID) = some v)
    (hi1 : i ∉ l1) (hi2 : i ∉ l2) :
    (scan_calibrations env SensorClass.mag b (l1 ++ i :: l2) st).params.int32
        (Param.cal SensorClass.mag i CalField.ROT)
      = st.params.int32 (Param.cal SensorClass.mag i CalField.ROT) ∧
    ((scan_calibrations env SensorClass.mag b (l1 ++ i :: l2) st).params.int32
          Param.SENS_EXT_MAG_ROT
        = st.params.int32 Param.SENS_EXT_MAG_ROT ∨
      (scan_calibrations env SensorClass.mag b (l1 ++ i :: l2) st).params.int32
          Param.SENS_EXT_MAG_ROT
        = some 0) := by
  induction l1 generalizing st with
  | nil =>
    simp only [List.nil_append]
    unfold scan_calibrations
    rw [hid]
    have hno : ¬ id = ioctl env st.h Device.device_id := by
      rw [hh]
      exact fun h => hne h.symm
    simp only [hno, if_false]
    exact scan_mag_other_record env b i l2 _ hi2
  | cons j rest ih =>
    have hij : i ≠ j := fun h => hi1 (h ▸ List.mem_cons_self _ _)
    have hir : i ∉ rest := fun h => hi1 (List.mem_cons_of_mem _ h)
    obtain ⟨v, hv⟩ := hread j (List.mem_cons_self _ _)
    simp only [List.cons_append]
    unfold scan_calibrations
    rw [hv]
    simp only
    split_ifs with hm
    · have hs := (matched_record_store env SensorClass.mag b j
        { st with calls := st.calls ++ [DevCall.getDeviceId st.h.isSome] }).2.2.2 rfl
      rw [hs.1]
      exact ⟨(mag_rotation_handling_frame env b j
          { st with calls := st.calls ++ [DevCall.getDeviceId st.h.isSome] }).2.2.2.2.2 _
          (by simp [hij]) (by simp),
        mag_rotation_handling_legacy env b j
          { st with calls := st.calls ++ [DevCall.getDeviceId st.h.isSome] }⟩
    · exact ih { st with calls := st.calls ++ [DevCall.getDeviceId st.h.isSome] } hh hid
        (fun k hk => hread k (List.mem_cons_of_mem _ hk)) hir

/-- A mag slot whose device (if any) has an id different from the one stored in record `i`:
handling the slot leaves the `ROT` of record `i` alone, and the legacy parameter as it is or
at 0. -/
theorem calibrate_slot_mag_other (env : Env) (b : Mat3) (ps : ParamStore) (rot0 : Mat3)
    (t i : Nat) (id : Int) (hi : i < SENSOR_COUNT_MAX)
    (hdist : ∀ d2, env.devices SensorClass.mag t = some d2 → d2.device_id ≠ id)
    (hid : ps.int32 (Param.cal SensorClass.mag i CalField.ID) = some id)
    (hread : ∀ j, j < i → ∃ v, ps.int32 (Param.cal SensorClass.mag j CalField.ID) = some v) :
    (calibrate_slot env SensorClass.mag b ps rot0 t).params.int32
        (Param.cal SensorClass.mag i CalField.ROT)
      = ps.int32 (Param.cal SensorClass.mag i CalField.ROT) ∧
    ((calibrate_slot env SensorClass.mag b ps rot0 t).params.int32 Param.SENS_EXT_MAG_ROT
        = ps.int32 Param.SENS_EXT_MAG_ROT ∨
      (calibrate_slot env SensorClass.mag b ps rot0 t).params.int32 Param.SENS_EXT_MAG_ROT
        = some 0) := by
  unfold calibrate_slot
  cases hd : env.devices SensorClass.mag t with
  | none => exact ⟨rfl, Or.inl rfl⟩
  | some d2 =>
    simp only
    obtain ⟨l2, hl⟩ := all_indices_split i hi
    have hnd : (List.range i ++ i :: l2).Nodup := by
      rw [← hl]
      exact List.nodup_range _
    have hi2 : i ∉ l2 := by
      have h := (List.nodup_append.mp hnd).2.1
      exact (List.nodup_cons.mp h).1
    rw [hl]
    exact scan_mag_foreign_record env b d2 id i (List.range i) l2 _ rfl (hdist d2 hd) hid
      (fun j hj => hread j (List.mem_range.mp hj)) (by simp) hi2

/-- A step of the mag loop for a slot `t` other than `s`, whose device (if any) has an id
different from the one stored in record `i`. -/
theorem calibrate_step_mag_other (env : Env) (b : Mat3) (acc : ClassPass) (t s i : Nat)
    (id : Int) (hts : t ≠ s) (hi : i < SENSOR_COUNT_MAX)
    (hdist : ∀ d2, env.devices SensorClass.mag t = some d2 → d2.device_id ≠ id)
    (hid : acc.params.int32 (Param.cal SensorClass.mag i CalField.ID) = some id)
    (hread : ∀ j, j < i →
      ∃ v, acc.params.int32 (Param.cal SensorClass.mag j CalField.ID) = some v) :
    (calibrate_step env SensorClass.mag b acc t).params.int32
        (Param.cal SensorClass.mag i CalField.ROT)
      = acc.params.int32 (Param.cal SensorClass.mag i CalField.ROT) ∧
    ((calibrate_step env SensorClass.mag b acc t).params.int32 Param.SENS_EXT_MAG_ROT
        = acc.params.int32 Param.SENS_EXT_MAG_ROT ∨
      (calibrate_step env SensorClass.mag b acc t).params.int32 Param.SENS_EXT_MAG_ROT
        = some 0) ∧
    (calibrate_step env SensorClass.mag b acc t).mag_rotation s = acc.mag_rotation s := by
  have hslot := calibrate_slot_mag_other env b acc.params
    (upd acc.mag_rotation t b t) t i id hi hdist hid hread
  unfold calibrate_step
  refine ⟨hslot.1, hslot.2, ?_⟩
  simp [upd, hts.symm]

/-- The mag loop over slots other than `s`, all with device ids different from the one stored
in record `i`: the `ROT` of record `i` and the rotation of slot `s` stay, the legacy parameter
stays or becomes 0. -/
theorem calibrate_class_mag_other (env : Env) (b : Mat3) (l : List Nat) (acc : ClassPass)
    (s i : Nat) (id : Int) (hs : s ∉ l) (hi : i < SENSOR_COUNT_MAX)
    (hdist : ∀ t, t ≠ s → ∀ d2, env.devices SensorClass.mag t = some d2 → d2.device_id ≠ id)
    (hid : acc.params.int32 (Param.cal SensorClass.mag i CalField.ID) = some id)
    (hread : ∀ j, j < i →
      ∃ v, acc.params.int32 (Param.cal SensorClass.mag j CalField.ID) = some v) :
    (calibrate_class env SensorClass.mag b l acc).params.int32
        (Param.cal SensorClass.mag i CalField.ROT)
      = acc.params.int32 (Param.cal SensorClass.mag i CalField.ROT) ∧
    ((calibrate_class env SensorClass.mag b l acc).params.int32 Param.SENS_EXT_MAG_ROT
        = acc.params.int32 Param.SENS_EXT_MAG_ROT ∨
      (calibrate_class env SensorClass.mag b l acc).params.int32 Param.SENS_EXT_MAG_ROT
        = some 0) ∧
    (calibrate_class env SensorClass.mag b l acc).mag_rotation s = acc.mag_rotation s := by
  induction l generalizing acc with
  | nil => exact ⟨rfl, Or.inl rfl, rfl⟩
  | cons t rest ih =>
    have hts : t ≠ s := fun h => hs (h ▸ List.mem_cons_self _ _)
    have hsr : s ∉ rest := fun h => hs (List.mem_cons_of_mem _ h)
    have hstep := calibrate_step_mag_other env b acc t s i id hts hi (hdist t hts) hid hread
    have hids := calibrate_step_ids env SensorClass.mag b acc t
    have hrest := ih (calibrate_step env SensorClass.mag b acc t) hsr
      (by rw [hids.1]; exact hid)
      (fun j hj => by rw [hids.1]; exact hread j hj)
    unfold calibrate_class at hrest ⊢
    simp only [List.foldl_cons]
    refine ⟨hrest.1.trans hstep.1, ?_, hrest.2.2.trans hstep.2.2⟩
    rcases hrest.2.1 with h | h
    · rcases hstep.2.1 with h2 | h2
      · exact Or.inl (h.trans h2)
      · exact Or.inr (h.trans h2)
    · exact Or.inr h

/-- A step of a class loop depends on the accumulator only through the store and the mag
rotations, as far as the store and the mag rotations go. -/
theorem calibrate_step_congr (env : Env) (c : SensorClass) (b : Mat3) (acc acc2 : ClassPass)
    (t : Nat) (hp : acc.params = acc2.params) (hm : acc.mag_rotation = acc2.mag_rotation) :
    (calibrate_step env c b acc t).params = (calibrate_step env c b acc2 t).params ∧
    (calibrate_step env c b acc t).mag_rotation
      = (calibrate_step env c b acc2 t).mag_rotation := by
  unfold calibrate_step
  rw [hp, hm]
  exact ⟨rfl, rfl⟩

/-- The same for a class loop. -/
theorem calibrate_class_congr (env : Env) (c : SensorClass) (b : Mat3) (l : List Nat)
    (acc acc2 : ClassPass) (hp : acc.params = acc2.params)
    (hm : acc.mag_rotation = acc2.mag_rotation) :
    (calibrate_class env c b l acc).params = (calibrate_class env c b l acc2).params ∧
    (calibrate_class env c b l acc).mag_rotation
      = (calibrate_class env c b l acc2).mag_rotation := by
  unfold calibrate_class
  induction l generalizing acc acc2 with
  | nil => exact ⟨hp, hm⟩
  | cons t rest ih =>
    have h := calibrate_step_congr env c b acc acc2 t hp hm
    exact ih _ _ h.1 h.2

/-- Handling slot `s` after the slots before it gives the mag loop over the slots up to and
including `s`. -/
theorem mag_slots_before_succ (env : Env) (st : State) (ps : ParamStore) (s : Nat) :
    mag_slots_before env st ps (s + 1)
      = calibrate_step env SensorClass.mag (parameters_update env st).board_rotation
          (mag_slots_before env st ps s) s := by
  unfold mag_slots_before calibrate_class
  rw [List.range_succ, List.foldl_append]
  rfl

/-- The mag loop of `parameter_update_poll` split at slot `s`: the slots before `s`, slot `s`,
and the slots after it. -/
theorem parameter_update_poll_mag_split (env : Env) (u f : Bool) (st : State)
    (ps : ParamStore) (s : Nat) (hu : (u || f) = true) (hs : s < SENSOR_COUNT_MAX) :
    ∃ post : List Nat, s ∉ post ∧
      (parameter_update_poll env u f st ps).params
        = (calibrate_class env SensorClass.mag (parameters_update env st).board_rotation post
            (mag_slots_before env st ps (s + 1))).params ∧
      (parameter_update_poll env u f st ps).state.mag_rotation
        = (calibrate_class env SensorClass.mag (parameters_update env st).board_rotation post
            (mag_slots_before env st ps (s + 1))).mag_rotation ∧
      (parameter_update_poll env u f st ps).state.board_rotation
        = (parameters_update env st).board_rotation := by
  obtain ⟨post, hl⟩ := all_indices_split s hs
  have hnd : (List.range s ++ s :: post).Nodup := by
    rw [← hl]
    exact List.nodup_range _
  have hsp : s ∉ post := by
    have h := (List.nodup_append.mp hnd).2.1
    exact (List.nodup_cons.mp h).1
  have hsplit : ∀ acc : ClassPass,
      calibrate_class env SensorClass.mag (parameters_update env st).board_rotation all_indices
          acc
        = calibrate_class env SensorClass.mag (parameters_update env st).board_rotation post
            (calibrate_class env SensorClass.mag (parameters_update env st).board_rotation
              (List.range (s + 1)) acc) := by
    intro acc
    unfold calibrate_class
    rw [hl, List.range_succ, List.foldl_append, List.foldl_append, List.foldl_cons,
      List.foldl_cons, List.foldl_nil]
  have key : ∀ acc : ClassPass, acc.params = ps →
      acc.mag_rotation = (parameters_update env st).mag_rotation →
      (calibrate_class env SensorClass.mag (parameters_update env st).board_rotation
          all_indices acc).params
        = (calibrate_class env SensorClass.mag (parameters_update env st).board_rotation post
            (mag_slots_before env st ps (s + 1))).params ∧
      (calibrate_class env SensorClass.mag (parameters_update env st).board_rotation
          all_indices acc).mag_rotation
        = (calibrate_class env SensorClass.mag (parameters_update env st).board_rotation post
            (mag_slots_before env st ps (s + 1))).mag_rotation := by
    intro acc hp hm
    rw [hsplit acc]
    have h1 := calibrate_class_congr env SensorClass.mag
      (parameters_update env st).board_rotation (List.range (s + 1)) acc
      { params := ps, mag_rotation := (parameters_update env st).mag_rotation, calls := [],
        log := [], count := 0 } hp hm
    exact calibrate_class_congr env SensorClass.mag
      (parameters_update env st).board_rotation post _ _ h1.1 h1.2
  refine ⟨post, hsp, ?_⟩
  unfold parameter_update_poll
  rw [if_pos hu]
  simp only
  refine ⟨(key _ ?_ ?_).1, (key _ ?_ ?_).2, trivial⟩
  · exact ((calibrate_class_other env SensorClass.accel _ _ _ (by decide)).1).trans
      (calibrate_class_other env SensorClass.gyro _ _ _ (by decide)).1
  · exact ((calibrate_class_other env SensorClass.accel _ _ _ (by decide)).2).trans
      (calibrate_class_other env SensorClass.gyro _ _ _ (by decide)).2
  · exact ((calibrate_class_other env SensorClass.accel _ _ _ (by decide)).1).trans
      (calibrate_class_other env SensorClass.gyro _ _ _ (by decide)).1
  · exact ((calibrate_class_other env SensorClass.accel _ _ _ (by decide)).2).trans
      (calibrate_class_other env SensorClass.gyro _ _ _ (by decide)).2

/-- Store and rotation after the step of the mag loop for a slot whose driver is matched to
record `i` after the records before `i` were read and did not match. -/
theorem calibrate_step_mag_matched (env : Env) (b : Mat3) (acc : ClassPass) (s i : Nat)
    (d : Device) (hi : i < SENSOR_COUNT_MAX) (hdev : env.devices SensorClass.mag s = some d)
    (hskip : ∀ j, j < i →
      ∃ v, acc.params.int32 (Param.cal SensorClass.mag j CalField.ID) = some v ∧
        v ≠ d.device_id)
    (hid : acc.params.int32 (Param.cal SensorClass.mag i CalField.ID) = some d.device_id) :
    (calibrate_step env SensorClass.mag b acc s).params
      = (mag_rotation_handling env b i
          { h := some d, params := acc.params, rotation := b, calls := [], log := [],
            config_ok := false }).params ∧
    (calibrate_step env SensorClass.mag b acc s).mag_rotation s
      = (mag_rotation_handling env b i
          { h := some d, params := acc.params, rotation := b, calls := [], log := [],
            config_ok := false }).rotation := by
  have hstep : (calibrate_step env SensorClass.mag b acc s).params
        = (calibrate_slot env SensorClass.mag b acc.params b s).params ∧
      (calibrate_step env SensorClass.mag b acc s).mag_rotation s
        = (calibrate_slot env SensorClass.mag b acc.params b s).rotation := by
    unfold calibrate_step
    simp [upd]
  have hm := calibrate_slot_mag_matched env b acc.params b s i d hi hdev hskip hid
  exact ⟨hstep.1.trans hm.1, hstep.2.trans hm.2⟩

/-- The slots before `s`, none of which holds a device with the id stored in record `i`:
when slot `s` is handled the stored ids and `float` parameters and the `ROT` of record `i`
are those of the start of the poll, and the legacy parameter is as at the start or 0. -/
theorem mag_slots_before_store (env : Env) (st : State) (ps : ParamStore) (s i : Nat)
    (id : Int) (hi : i < SENSOR_COUNT_MAX)
    (hdist : ∀ t, t ≠ s → ∀ d2, env.devices SensorClass.mag t = some d2 → d2.device_id ≠ id)
    (hid : ps.int32 (Param.cal SensorClass.mag i CalField.ID) = some id)
    (hread : ∀ j, j < i → ∃ v, ps.int32 (Param.cal SensorClass.mag j CalField.ID) = some v) :
    (∀ c2 j, (mag_slots_before env st ps s).params.int32 (Param.cal c2 j CalField.ID)
      = ps.int32 (Param.cal c2 j CalField.ID)) ∧
    (mag_slots_before env st ps s).params.float = ps.float ∧
    (mag_slots_before env st ps s).params.int32 (Param.cal SensorClass.mag i CalField.ROT)
      = ps.int32 (Param.cal SensorClass.mag i CalField.ROT) ∧
    ((mag_slots_before env st ps s).params.int32 Param.SENS_EXT_MAG_ROT
        = ps.int32 Param.SENS_EXT_MAG_ROT ∨
      (mag_slots_before env st ps s).params.int32 Param.SENS_EXT_MAG_ROT = some 0) := by
  have hids := calibrate_class_ids env SensorClass.mag
    (parameters_update env st).board_rotation (List.range s)
    { params := ps, mag_rotation := (parameters_update env st).mag_rotation, calls := [],
      log := [], count := 0 }
  have ho := calibrate_class_mag_other env (parameters_update env st).board_rotation
    (List.range s)
    { params := ps, mag_rotation := (parameters_update env st).mag_rotation, calls := [],
      log := [], count := 0 } s i id (by simp) hi hdist hid hread
  unfold mag_slots_before
  exact ⟨hids.1, hids.2, ho.1, ho.2.1⟩

/-- C2 (counterexample): two running mags that report external, slot 0 matched to record 0
and slot 1 matched to record 1, both with stored rotation -1, and the legacy
`SENS_EXT_MAG_ROT = 4`. The mag in slot 0 takes the legacy value and clears the legacy
parameter; when slot 1 is handled the legacy parameter is 0, so for the mag in slot 1 the
stored `CAL_MAG1_ROT` ends as 0, not 4, and `mag_rotation[1]` is the matrix of code 0. -/
theorem C2_second_external_mag_not_migrated :
    (two_mag_env 1 1).devices SensorClass.mag 1
      = some { device_id := 8, external := 1, scale_ret := 0 } ∧
    (two_mag_store (-1) (-1) 4).int32 (Param.cal SensorClass.mag 1 CalField.ID) = some 8 ∧
    (two_mag_store (-1) (-1) 4).int32 (Param.cal SensorClass.mag 1 CalField.ROT) = some (-1) ∧
    (two_mag_store (-1) (-1) 4).int32 Param.SENS_EXT_MAG_ROT = some 4 ∧
    (parameter_update_poll (two_mag_env 1 1) false true one_instance_state
        (two_mag_store (-1) (-1) 4)).params.int32 (Param.cal SensorClass.mag 0 CalField.ROT)
      = some 4 ∧
    (parameter_update_poll (two_mag_env 1 1) false true one_instance_state
        (two_mag_store (-1) (-1) 4)).params.int32 Param.SENS_EXT_MAG_ROT = some 0 ∧
    (parameter_update_poll (two_mag_env 1 1) false true one_instance_state
        (two_mag_store (-1) (-1) 4)).params.int32 (Param.cal SensorClass.mag 1 CalField.ROT)
      = some 0 ∧
    (parameter_update_poll (two_mag_env 1 1) false true one_instance_state
        (two_mag_store (-1) (-1) 4)).state.mag_rotation 1 = example_rot_matrix 0 ∧
    (parameter_update_poll (two_mag_env 1 1) false true one_instance_state
        (two_mag_store (-1) (-1) 4)).state.mag_rotation 1 ≠ example_rot_matrix 4 ∧
    (mag_slots_before (two_mag_env 1 1) one_instance_state (two_mag_store (-1) (-1) 4)
        1).params.int32 Param.SENS_EXT_MAG_ROT = some 0 := by
  decide

/-- C2 (amended): a running mag in slot `s` whose handle stays valid up to record `i` (the
records before `i` are read and do not match), matched to record `i`, reporting external, no
other mag device carrying the id stored in record `i`. If, when slot `s` is handled in the
mag loop, `SENS_EXT_MAG_ROT` holds a positive value `L`, and the stored `CAL_MAG<i>_ROT` is
`<= 0`, then after `parameter_update_poll` the stored `CAL_MAG<i>_ROT` is `L`,
`SENS_EXT_MAG_ROT` is 0 and `mag_rotation[s]` is `get_rot_matrix L`. For the first mag slot
with a running driver the store found when the slot is handled is the store before the
poll. -/
theorem C2_mag_rotation_migration (env : Env) (param_updated forced : Bool) (st : State)
    (ps : ParamStore) (s i : Nat) (d : Device) (L r : Int)
    (hu : (param_updated || forced) = true)
    (hs : s < SENSOR_COUNT_MAX) (hi : i < SENSOR_COUNT_MAX)
    (hdev : env.devices SensorClass.mag s = some d) (hext : 0 < d.external)
    (hdist : ∀ t, t ≠ s → ∀ d2, env.devices SensorClass.mag t = some d2 →
      d2.device_id ≠ d.device_id)
    (hskip : ∀ j, j < i →
      ∃ v, ps.int32 (Param.cal SensorClass.mag j CalField.ID) = some v ∧ v ≠ d.device_id)
    (hid : ps.int32 (Param.cal SensorClass.mag i CalField.ID) = some d.device_id)
    (hL : (mag_slots_before env st ps s).params.int32 Param.SENS_EXT_MAG_ROT = some L)
    (hLpos : 0 < L)
    (hr : ps.int32 (Param.cal SensorClass.mag i CalField.ROT) = some r) (hr0 : r ≤ 0) :
    ((parameter_update_poll env param_updated forced st ps).params.int32
        (Param.cal SensorClass.mag i CalField.ROT) = some L ∧
      (parameter_update_poll env param_updated forced st ps).params.int32
          Param.SENS_EXT_MAG_ROT = some 0 ∧
      (parameter_update_poll env param_updated forced st ps).state.mag_rotation s
        = env.get_rot_matrix L) ∧
    ((∀ t, t < s → env.devices SensorClass.mag t = none) →
      (mag_slots_before env st ps s).params = ps) := by
  have hread : ∀ j, j < i →
      ∃ v, ps.int32 (Param.cal SensorClass.mag j CalField.ID) = some v :=
    fun j hj => (hskip j hj).imp (fun _ h => h.1)
  have hb := mag_slots_before_store env st ps s i d.device_id hi hdist hid hread
  obtain ⟨post, hsp, hP, hM, -⟩ := parameter_update_poll_mag_split env param_updated forced st
    ps s hu hs
  have hstep := calibrate_step_mag_matched env (parameters_update env st).board_rotation
    (mag_slots_before env st ps s) s i d hi hdev
    (fun j hj => by rw [hb.1]; exact hskip j hj) (by rw [hb.1]; exact hid)
  have hmig := mag_rotation_handling_migrate env (parameters_update env st).board_rotation i
    { h := some d, params := (mag_slots_before env st ps s).params,
      rotation := (parameters_update env st).board_rotation, calls := [], log := [],
      config_ok := false } d L r rfl hext hL (ne_of_gt hLpos) (by rw [hb.2.2.1]; exact hr) hr0
  rw [if_neg (not_lt.mpr (le_of_lt hLpos))] at hmig
  have hids := calibrate_step_ids env SensorClass.mag (parameters_update env st).board_rotation
    (mag_slots_before env st ps s) s
  have hrest := calibrate_class_mag_foreign env (parameters_update env st).board_rotation post
    (mag_slots_before env st ps (s + 1)) s i d.device_id hsp hi hdist
    (by rw [mag_slots_before_succ, hids.1, hb.1]; exact hid)
    (fun j hj => by rw [mag_slots_before_succ, hids.1, hb.1]; exact hread j hj)
    (by rw [mag_slots_before_succ, hstep.1, hmig.2.1]; rfl)
  refine ⟨⟨?_, ?_, ?_⟩, ?_⟩
  · rw [hP, hrest.1, mag_slots_before_succ, hstep.1]
    exact hmig.1
  · rw [hP, hrest.2.1, mag_slots_before_succ, hstep.1]
    exact hmig.2.1
  · rw [hM, hrest.2.2, mag_slots_before_succ, hstep.2]
    exact hmig.2.2
  · intro hnone
    unfold mag_slots_before
    exact (calibrate_class_mag_absent env _ (List.range s) _
      (fun t ht => hnone t (List.mem_range.mp ht))).1

/-- C2 instances. The example of the specification: one mag in slot 0 that reports external,
stored `CAL_MAG0_ROT = -1`, legacy `SENS_EXT_MAG_ROT = 4`: after the update
`CAL_MAG0_ROT = 4`, `SENS_EXT_MAG_ROT = 0` and `mag_rotation[0]` is the matrix of code 4.
And with an internal mag in slot 0 and an external mag in slot 1 (stored `CAL_MAG1_ROT = -1`,
legacy value 4 still in place when slot 1 is handled): `CAL_MAG1_ROT = 4`,
`SENS_EXT_MAG_ROT = 0` and `mag_rotation[1]` is the matrix of code 4. -/
theorem C2_mag_rotation_migration_witness :
    ((parameter_update_poll (mag_example_env 1) false true one_instance_state
          (mag_example_store (-1) 4)).params.int32 (Param.cal SensorClass.mag 0 CalField.ROT)
        = some 4 ∧
      (parameter_update_poll (mag_example_env 1) false true one_instance_state
          (mag_example_store (-1) 4)).params.int32 Param.SENS_EXT_MAG_ROT = some 0 ∧
      (parameter_update_poll (mag_example_env 1) false true one_instance_state
          (mag_example_store (-1) 4)).state.mag_rotation 0 = example_rot_matrix 4) ∧
    ((mag_slots_before (two_mag_env 0 1) one_instance_state (two_mag_store 2 (-1) 4)
          1).params.int32 Param.SENS_EXT_MAG_ROT = some 4 ∧
      (parameter_update_poll (two_mag_env 0 1) false true one_instance_state
          (two_mag_store 2 (-1) 4)).params.int32 (Param.cal SensorClass.mag 1 CalField.ROT)
        = some 4 ∧
      (parameter_update_poll (two_mag_env 0 1) false true one_instance_state
          (two_mag_store 2 (-1) 4)).params.int32 Param.SENS_EXT_MAG_ROT = some 0 ∧
      (parameter_update_poll (two_mag_env 0 1) false true one_instance_state
          (two_mag_store 2 (-1) 4)).state.mag_rotation 1 = example_rot_matrix 4) :=
  ⟨(C2_mag_rotation_migration (mag_example_env 1) false true one_instance_state
      (mag_example_store (-1) 4) 0 0 { device_id := 7, external := 1, scale_ret := 0 } 4 (-1)
      rfl (by decide) (by decide) rfl (by decide)
      (fun t ht d2 h => by
        cases t with
        | zero => exact absurd rfl ht
        | succ n => cases h)
      (fun j hj => absurd hj (Nat.not_lt_zero j)) rfl (by decide) (by decide) rfl
      (by decide)).1,
   (by decide),
   (C2_mag_rotation_migration (two_mag_env 0 1) false true one_instance_state
      (two_mag_store 2 (-1) 4) 1 1 { device_id := 8, external := 1, scale_ret := 0 } 4 (-1)
      rfl (by decide) (by decide) rfl (by decide)
      (fun t ht d2 h => by
        cases t with
        | zero =>
          cases h
          decide
        | succ n =>
          cases n with
          | zero => exact absurd rfl ht
          | succ m => cases h)
      (fun j hj => by
        cases j with
        | zero => exact ⟨7, rfl, by decide⟩
        | succ n => omega)
      rfl (by decide) (by decide) rfl (by decide)).1⟩

/-- C3 (counterexample): a running mag in slot 0 that reports internal, matched to record 0,
and a running mag in slot 1 that reports external, matched to record 1 with stored rotation
-1; the legacy `SENS_EXT_MAG_ROT = 4`. After `parameter_update_poll` the rotation of slot 0
is the board rotation and `CAL_MAG0_ROT = -1`, but the legacy parameter is 0, not 4: the mag
in slot 1 took the legacy value in the same poll. -/
theorem C3_legacy_cleared_by_other_mag :
    (two_mag_env 0 1).devices SensorClass.mag 0
      = some { device_id := 7, external := 0, scale_ret := 0 } ∧
    (two_mag_store 2 (-1) 4).int32 (Param.cal SensorClass.mag 0 CalField.ID) = some 7 ∧
    (two_mag_store 2 (-1) 4).int32 Param.SENS_EXT_MAG_ROT = some 4 ∧
    (parameter_update_poll (two_mag_env 0 1) false true one_instance_state
        (two_mag_store 2 (-1) 4)).state.mag_rotation 0
      = (parameter_update_poll (two_mag_env 0 1) false true one_instance_state
          (two_mag_store 2 (-1) 4)).state.board_rotation ∧
    (parameter_update_poll (two_mag_env 0 1) false true one_instance_state
        (two_mag_store 2 (-1) 4)).params.int32 (Param.cal SensorClass.mag 0 CalField.ROT)
      = some (-1) ∧
    (parameter_update_poll (two_mag_env 0 1) false true one_instance_state
        (two_mag_store 2 (-1) 4)).params.int32 Param.SENS_EXT_MAG_ROT = some 0 ∧
    (parameter_update_poll (two_mag_env 0 1) false true one_instance_state
        (two_mag_store 2 (-1) 4)).params.int32 (Param.cal SensorClass.mag 1 CalField.ROT)
      = some 4 := by
  decide

/-- C3 (amended): a running mag in slot `s` whose handle stays valid up to record `i`,
matched to record `i`, reporting internal, with `CAL_MAG<i>_ROT` a stored parameter and no
other mag device carrying the id stored in record `i`. After `parameter_update_poll`
`mag_rotation[s]` is the board rotation and the stored `CAL_MAG<i>_ROT` is -1. The handling
of slot `s` does no other rotation handling: between the store found when slot `s` is handled
and the store left by its handling, every other `int32` parameter (the legacy
`SENS_EXT_MAG_ROT` included) and every `float` parameter keeps its value. After the whole
poll `SENS_EXT_MAG_ROT` holds its value from before the poll or 0, and its value from before
the poll when `s` is the only mag slot with a running driver. -/
theorem C3_internal_mag_rotation (env : Env) (param_updated forced : Bool) (st : State)
    (ps : ParamStore) (s i : Nat) (d : Device) (r : Int)
    (hu : (param_updated || forced) = true)
    (hs : s < SENSOR_COUNT_MAX) (hi : i < SENSOR_COUNT_MAX)
    (hdev : env.devices SensorClass.mag s = some d) (hint : d.external ≤ 0)
    (hdist : ∀ t, t ≠ s → ∀ d2, env.devices SensorClass.mag t = some d2 →
      d2.device_id ≠ d.device_id)
    (hskip : ∀ j, j < i →
      ∃ v, ps.int32 (Param.cal SensorClass.mag j CalField.ID) = some v ∧ v ≠ d.device_id)
    (hid : ps.int32 (Param.cal SensorClass.mag i CalField.ID) = some d.device_id)
    (hr : ps.int32 (Param.cal SensorClass.mag i CalField.ROT) = some r) :
    (parameter_update_poll env param_updated forced st ps).state.mag_rotation s
      = (parameter_update_poll env param_updated forced st ps).state.board_rotation ∧
    (parameter_update_poll env param_updated forced st ps).params.int32
        (Param.cal SensorClass.mag i CalField.ROT) = some (-1) ∧
    (∀ q, q ≠ Param.cal SensorClass.mag i CalField.ROT →
      (mag_slots_before env st ps (s + 1)).params.int32 q
        = (mag_slots_before env st ps s).params.int32 q) ∧
    (mag_slots_before env st ps (s + 1)).params.float
      = (mag_slots_before env st ps s).params.float ∧
    ((parameter_update_poll env param_updated forced st ps).params.int32
          Param.SENS_EXT_MAG_ROT = ps.int32 Param.SENS_EXT_MAG_ROT ∨
      (parameter_update_poll env param_updated forced st ps).params.int32
          Param.SENS_EXT_MAG_ROT = some 0) ∧
    ((∀ t, t ≠ s → env.devices SensorClass.mag t = none) →
      (parameter_update_poll env param_updated forced st ps).params.int32
          Param.SENS_EXT_MAG_ROT = ps.int32 Param.SENS_EXT_MAG_ROT) := by
  have hne : Param.SENS_EXT_MAG_ROT ≠ Param.cal SensorClass.mag i CalField.ROT := by simp
  have hread : ∀ j, j < i →
      ∃ v, ps.int32 (Param.cal SensorClass.mag j CalField.ID) = some v :=
    fun j hj => (hskip j hj).imp (fun _ h => h.1)
  have hb := mag_slots_before_store env st ps s i d.device_id hi hdist hid hread
  obtain ⟨post, hsp, hP, hM, hB⟩ := parameter_update_poll_mag_split env param_updated forced
    st ps s hu hs
  have hstep := calibrate_step_mag_matched env (parameters_update env st).board_rotation
    (mag_slots_before env st ps s) s i d hi hdev
    (fun j hj => by rw [hb.1]; exact hskip j hj) (by rw [hb.1]; exact hid)
  have hin := mag_rotation_handling_internal env (parameters_update env st).board_rotation i
    { h := some d, params := (mag_slots_before env st ps s).params,
      rotation := (parameters_update env st).board_rotation, calls := [], log := [],
      config_ok := false } d r rfl hint (by rw [hb.2.2.1]; exact hr)
  have hids := calibrate_step_ids env SensorClass.mag (parameters_update env st).board_rotation
    (mag_slots_before env st ps s) s
  have hrest := calibrate_class_mag_other env (parameters_update env st).board_rotation post
    (mag_slots_before env st ps (s + 1)) s i d.device_id hsp hi hdist
    (by rw [mag_slots_before_succ, hids.1, hb.1]; exact hid)
    (fun j hj => by rw [mag_slots_before_succ, hids.1, hb.1]; exact hread j hj)
  have hleg : (mag_slots_before env st ps (s + 1)).params.int32 Param.SENS_EXT_MAG_ROT
      = (mag_slots_before env st ps s).params.int32 Param.SENS_EXT_MAG_ROT := by
    rw [mag_slots_before_succ, hstep.1]
    exact hin.2.2.1 _ hne
  refine ⟨?_, ?_, ?_, ?_, ?_, ?_⟩
  · rw [hM, hB, hrest.2.2, mag_slots_before_succ, hstep.2]
    exact hin.1
  · rw [hP, hrest.1, mag_slots_before_succ, hstep.1]
    exact hin.2.1
  · intro q hq
    rw [mag_slots_before_succ, hstep.1]
    exact hin.2.2.1 q hq
  · rw [mag_slots_before_succ, hstep.1]
    exact hin.2.2.2
  · rw [hP]
    rcases hrest.2.1 with h | h
    · rw [h, hleg]
      exact hb.2.2.2
    · exact Or.inr h
  · intro honly
    have hp := parameter_update_poll_mag_single env param_updated forced st ps s hu hs honly
    have hm := calibrate_slot_mag_matched env (parameters_update env st).board_rotation ps
      (parameters_update env st).board_rotation s i d hi hdev hskip hid
    have hin2 := mag_rotation_handling_internal env (parameters_update env st).board_rotation i
      { h := some d, params := ps, rotation := (parameters_update env st).board_rotation,
        calls := [], log := [], config_ok := false } d r rfl hint hr
    rw [hp.1, hm.1]
    exact hin2.2.2.1 _ hne

/-- C3 instances. An internal mag in slot 0 (stored `CAL_MAG0_ROT = 2`) next to an external
mag in slot 1, legacy `SENS_EXT_MAG_ROT = 4`: after the update `mag_rotation[0]` is the board
rotation and `CAL_MAG0_ROT = -1`, and the handling of slot 0 left the legacy parameter at 4.
With the internal mag alone the legacy parameter still holds 4 after the update. -/
theorem C3_internal_mag_rotation_witness :
    ((parameter_update_poll (two_mag_env 0 1) false true one_instance_state
          (two_mag_store 2 (-1) 4)).state.mag_rotation 0
        = (parameter_update_poll (two_mag_env 0 1) false true one_instance_state
            (two_mag_store 2 (-1) 4)).state.board_rotation ∧
      (parameter_update_poll (two_mag_env 0 1) false true one_instance_state
          (two_mag_store 2 (-1) 4)).params.int32 (Param.cal SensorClass.mag 0 CalField.ROT)
        = some (-1) ∧
      (mag_slots_before (two_mag_env 0 1) one_instance_state (two_mag_store 2 (-1) 4)
          1).params.int32 Param.SENS_EXT_MAG_ROT = some 4) ∧
    (parameter_update_poll (mag_example_env 0) false true one_instance_state
        (mag_example_store 2 4)).params.int32 Param.SENS_EXT_MAG_ROT = some 4 := by
  have h := C3_internal_mag_rotation (two_mag_env 0 1) false true one_instance_state
    (two_mag_store 2 (-1) 4) 0 0 { device_id := 7, external := 0, scale_ret := 0 } 2
    rfl (by decide) (by decide) rfl (by decide)
    (fun t ht d2 h => by
      cases t with
      | zero => exact absurd rfl ht
      | succ n =>
        cases n with
        | zero =>
          cases h
          decide
        | succ m => cases h)
    (fun j hj => absurd hj (Nat.not_lt_zero j)) rfl rfl
  have h1 := (C3_internal_mag_rotation (mag_example_env 0) false true one_instance_state
    (mag_example_store 2 4) 0 0 { device_id := 7, external := 0, scale_ret := 0 } 2
    rfl (by decide) (by decide) rfl (by decide)
    (fun t ht d2 h => by
      cases t with
      | zero => exact absurd rfl ht
      | succ n => cases h)
    (fun j hj => absurd hj (Nat.not_lt_zero j)) rfl rfl).2.2.2.2.2
      (fun t ht => by
        cases t with
        | zero => exact absurd rfl ht
        | succ n => rfl)
  exact ⟨⟨h.1, h.2.1, (h.2.2.1 Param.SENS_EXT_MAG_ROT (by decide)).trans (by decide)⟩,
    h1.trans (by decide)⟩

end Sensors
